import Mathlib

/-!
# Breakout: collision detection, frame update and screen flags

A shallow embedding of `src/game/game.cpp`, `src/game/game.h` and
`src/game/GameObject.{h,cpp}`.

* Positions, sizes and velocities (`float`/`double` in the source) are exact
  rationals: no rounding, no NaN, no infinities.
* `int` members are integers; the values they take in the game are far from
  any overflow.
* The engine objects the game only reads and writes through getters and
  setters (`ASGE::Sprite`, the key event, the exit signal) are records holding
  what the game touches.
* The images under `/data/images/` are not part of the sources; the sprite each
  image file yields once loaded is a parameter (`Assets`). Whether each file loads at
  all is a parameter where the values returned by `initGameObjects` and `init` are
  concerned (`Textures`).
* `Breakout::isOverlapping` has one `return` statement, `return true`. Where the source
  returns no value the embedding returns `none`, and the value its callers read in that
  case is a parameter of every function that calls it (`undef`). Properties of runs are
  proved for every such parameter; concrete games are evaluated with `seenFalse`.
* The host delivers key events, `update` and `render` one at a time (`GameEvent`); a run
  is any list of deliveries after a successful `init`.
-/

/-! ## Data model -/

/-- The pair of components of `Vector2.h`, read in the sources as `.x` and `.y`. -/
structure Vector2 where
  x : ℚ
  y : ℚ
deriving DecidableEq

/-- The part of `ASGE::Sprite` used by the game: `xPos()`, `yPos()`, `width()`, `height()`. -/
structure Sprite where
  xPos : ℚ
  yPos : ℚ
  width : ℚ
  height : ℚ
deriving DecidableEq

/-- `class GameObject` (GameObject.h): a sprite, `velocity = Vector2(0, 0)`, `visibility = true`. -/
structure GameObject where
  sprite : Sprite
  velocity : Vector2
  visibility : Bool
deriving DecidableEq

/-- `GameObject::setVelocity`. -/
def GameObject.setVelocity (o : GameObject) (velocity : Vector2) : GameObject :=
  { o with velocity := velocity }

/-- `getSprite()->xPos(v)`. -/
def GameObject.setXPos (o : GameObject) (v : ℚ) : GameObject :=
  { o with sprite := { o.sprite with xPos := v } }

/-- `getSprite()->yPos(v)`. -/
def GameObject.setYPos (o : GameObject) (v : ℚ) : GameObject :=
  { o with sprite := { o.sprite with yPos := v } }

/-- `getSprite()->width(v)`. -/
def GameObject.setWidth (o : GameObject) (v : ℚ) : GameObject :=
  { o with sprite := { o.sprite with width := v } }

/-- `getSprite()->height(v)`. -/
def GameObject.setHeight (o : GameObject) (v : ℚ) : GameObject :=
  { o with sprite := { o.sprite with height := v } }

/-- `GameObject::initialiseSprite` when the texture loads: the object now points at the
loaded sprite (`visibility` is `true`, so the opacity branch is not taken). -/
def GameObject.initialiseSprite (o : GameObject) (loaded : Sprite) : GameObject :=
  { o with sprite := loaded }

/-- The keys `keyHandler` tests for (`ASGE::KEYS`), and any other key. -/
inductive Key where
  | KEY_ESCAPE
  | KEY_LEFT
  | KEY_RIGHT
  | KEY_ENTER
  | KEY_P
  | KEY_A
  | KEY_D
  | KEY_SPACE
  | other
deriving DecidableEq

/-- The key actions of `ASGE::KEYS`. -/
inductive KeyAction where
  | KEY_RELEASED
  | KEY_PRESSED
  | KEY_REPEATED
deriving DecidableEq

/-- The fields of `ASGE::KeyEvent` read by `keyHandler`. -/
structure KeyEvent where
  key : Key
  action : KeyAction
deriving DecidableEq

/-- `enum { brick_num = 20 }` (game.h). -/
abbrev brick_num : Nat := 20

/-- The members of `class Breakout` (game.h), with the three members of the engine
base class the game uses: `game_width`, `game_height` and the exit signal. -/
structure Breakout where
  game_width : ℤ
  game_height : ℤ
  exit : Bool
  paddle : GameObject
  ball : GameObject
  green_bricks : Fin brick_num → GameObject
  purple_bricks : Fin brick_num → GameObject
  yellow_bricks : Fin brick_num → GameObject
  grey_bricks : Fin brick_num → GameObject
  red_bricks : Fin brick_num → GameObject
  gems : Fin 4 → GameObject
  menu_option : ℤ
  in_menu : Bool
  in_game_screen : Bool
  in_pause_menu : Bool
  game_over : Bool
  win : Bool
  ball_velocity_x : ℚ
  ball_velocity_y : ℚ
  serve : Bool
  lives_count : ℤ
  score : ℤ

/-- The sprite each image file yields once `createRawSprite` and `loadTexture` have
run: its size is the image's, its position the engine's default. -/
structure Assets where
  paddleRed : Sprite
  ballBlue : Sprite
  element_green_rectangle : Sprite
  element_purple_rectangle : Sprite
  element_yellow_rectangle : Sprite
  element_grey_rectangle : Sprite
  element_red_rectangle : Sprite
  element_blue_polygon : Sprite

/-! ## Overlap test -/

/-- `Breakout::isOverlapping` as written: `return true` when the four strict
comparisons hold. There is no other `return` statement; when a comparison fails control
reaches the closing brace of a `bool` function without returning a value, which is
`none` here. -/
def Breakout.isOverlapping (sprite1 sprite2 : Sprite) : Option Bool :=
  if (sprite2.xPos < sprite1.xPos + sprite1.width) ∧
      (sprite2.xPos + sprite2.width > sprite1.xPos) ∧
      (sprite2.yPos < sprite1.yPos + sprite1.height) ∧
      (sprite2.yPos + sprite2.height > sprite1.yPos) then
    some true
  else
    none

/-- What a caller of `isOverlapping` reads. When the function returns `true` that is
the value; when it runs off its end the source does not determine what the caller
reads, and `undef` supplies it. -/
def Breakout.overlapSeen (undef : Sprite → Sprite → Bool) (sprite1 sprite2 : Sprite) : Bool :=
  (Breakout.isOverlapping sprite1 sprite2).getD (undef sprite1 sprite2)

/-- The reading in which running off the end of `isOverlapping` is seen as `false`. -/
def seenFalse : Sprite → Sprite → Bool :=
  fun _ _ => false

/-! ## Start-up -/

/-- A `GameObject` as default-constructed (GameObject.h): zero velocity, visible; the
sprite pointer is set by `initialiseSprite`. -/
def GameObject.new : GameObject :=
  { sprite := ⟨0, 0, 0, 0⟩, velocity := ⟨0, 0⟩, visibility := true }

/-- The member initialisers of `class Breakout` (game.h). The size of the field is set by
`setupResolution` before anything reads it, and the exit signal starts clear. -/
def Breakout.new : Breakout :=
  { game_width := 0
    game_height := 0
    exit := false
    paddle := GameObject.new
    ball := GameObject.new
    green_bricks := fun _ => GameObject.new
    purple_bricks := fun _ => GameObject.new
    yellow_bricks := fun _ => GameObject.new
    grey_bricks := fun _ => GameObject.new
    red_bricks := fun _ => GameObject.new
    gems := fun _ => GameObject.new
    menu_option := 0
    in_menu := true
    in_game_screen := false
    in_pause_menu := false
    game_over := false
    win := false
    ball_velocity_x := 300
    ball_velocity_y := -300
    serve := false
    lives_count := 3
    score := 0 }

/-- `OGLGame::signalExit`. -/
def Breakout.signalExit (g : Breakout) : Breakout :=
  { g with exit := true }

/-- `Breakout::setupResolution`. -/
def Breakout.setupResolution (g : Breakout) : Breakout :=
  { g with game_width := 1280, game_height := 720 }

/-- `Breakout::initPaddle`. -/
def Breakout.initPaddle (g : Breakout) : Breakout :=
  let g := { g with paddle := g.paddle.setXPos (((g.game_width : ℚ) / 2) - (g.paddle.sprite.width / 2)) }
  { g with paddle := g.paddle.setYPos ((g.game_height : ℚ) - 50) }

/-- `Breakout::initBall`. -/
def Breakout.initBall (g : Breakout) : Breakout :=
  let g := { g with ball := g.ball.setXPos (g.paddle.sprite.xPos + (g.paddle.sprite.width / 2)) }
  let g := { g with ball := g.ball.setYPos ((g.game_height : ℚ) - 70) }
  let g := { g with ball_velocity_x := 300 }
  let g := { g with ball_velocity_y := -300 }
  { g with ball := g.ball.setVelocity ⟨0, 0⟩ }

/-- The body of the gem loop of `initGameObjects`: gem `i` takes its sprite and is
resized to the height of `green_bricks[i]`. -/
def Breakout.initGem (a : Assets) (g : Breakout) (i : Fin 4) : Breakout :=
  let g := { g with gems := Function.update g.gems i ((g.gems i).initialiseSprite a.element_blue_polygon) }
  let j : Fin brick_num := ⟨i.val, by have := i.isLt; simp only [brick_num]; omega⟩
  let g := { g with gems := Function.update g.gems i ((g.gems i).setWidth (g.green_bricks j).sprite.height) }
  { g with gems := Function.update g.gems i ((g.gems i).setHeight (g.green_bricks j).sprite.height) }

/-- The body of the brick loop of `initGameObjects`, every texture loading. -/
def Breakout.initBrick (a : Assets) (g : Breakout) (i : Fin brick_num) : Breakout :=
  let g := { g with green_bricks := Function.update g.green_bricks i ((g.green_bricks i).initialiseSprite a.element_green_rectangle) }
  let g := { g with purple_bricks := Function.update g.purple_bricks i ((g.purple_bricks i).initialiseSprite a.element_purple_rectangle) }
  let g := { g with yellow_bricks := Function.update g.yellow_bricks i ((g.yellow_bricks i).initialiseSprite a.element_yellow_rectangle) }
  let g := { g with grey_bricks := Function.update g.grey_bricks i ((g.grey_bricks i).initialiseSprite a.element_grey_rectangle) }
  { g with red_bricks := Function.update g.red_bricks i ((g.red_bricks i).initialiseSprite a.element_red_rectangle) }

/-- The eight statements of `initGameObjects` that place the four gems. -/
def Breakout.placeGems (g : Breakout) : Breakout :=
  let g := { g with gems := Function.update g.gems 0 ((g.gems 0).setXPos 145) }
  let g := { g with gems := Function.update g.gems 0 ((g.gems 0).setYPos 30) }
  let g := { g with gems := Function.update g.gems 1 ((g.gems 1).setXPos 465) }
  let g := { g with gems := Function.update g.gems 1 ((g.gems 1).setYPos 128) }
  let g := { g with gems := Function.update g.gems 2 ((g.gems 2).setXPos 720) }
  let g := { g with gems := Function.update g.gems 2 ((g.gems 2).setYPos 64) }
  let g := { g with gems := Function.update g.gems 3 ((g.gems 3).setXPos 912) }
  { g with gems := Function.update g.gems 3 ((g.gems 3).setYPos 0) }

/-- `Breakout::initGameObjects` on the path where every texture loads: paddle, ball, the
brick loop `for (i = 0; i < brick_num; i++)`, the gem loop `for (i = 0; i < 4; i++)`, the
gem positions, `initPaddle`, `initBall`. -/
def Breakout.initGameObjects (a : Assets) (g : Breakout) : Breakout :=
  let g := { g with paddle := g.paddle.initialiseSprite a.paddleRed }
  let g := { g with ball := g.ball.initialiseSprite a.ballBlue }
  let g := (List.finRange brick_num).foldl (Breakout.initBrick a) g
  let g := (List.finRange 4).foldl (Breakout.initGem a) g
  let g := g.placeGems
  let g := g.initPaddle
  g.initBall

/-- The game state once `Breakout::init` has succeeded (the API initialised and every
texture loaded): `setupResolution`, `win = false`, `initGameObjects`. -/
def Breakout.init (a : Assets) : Breakout :=
  let g := Breakout.new.setupResolution
  let g := { g with win := false }
  g.initGameObjects a

/-! ## Key handling -/

/-- The cursor toggle shared by the three menu screens of `keyHandler`: left released or
(else) right released sets `menu_option = 1 - menu_option`. -/
def Breakout.toggleOption (g : Breakout) (key : KeyEvent) : Breakout :=
  if key.key = Key.KEY_LEFT ∧ key.action = KeyAction.KEY_RELEASED then
    { g with menu_option := 1 - g.menu_option }
  else if key.key = Key.KEY_RIGHT ∧ key.action = KeyAction.KEY_RELEASED then
    { g with menu_option := 1 - g.menu_option }
  else g

/-- The `if (in_menu)` block of `keyHandler`. -/
def Breakout.keyMenu (g : Breakout) (key : KeyEvent) : Breakout :=
  let g := g.toggleOption key
  if key.key = Key.KEY_ENTER then
    if g.menu_option = 1 then g.signalExit
    else { g with in_menu := false, in_game_screen := true }
  else g

/-- The `if (in_game_screen)` block of `keyHandler`. -/
def Breakout.keyGame (g : Breakout) (key : KeyEvent) : Breakout :=
  if key.key = Key.KEY_P then
    { g with in_game_screen := false, in_pause_menu := true }
  else if key.key = Key.KEY_A then
    if key.action = KeyAction.KEY_PRESSED then
      { g with paddle := g.paddle.setVelocity ⟨-450, 0⟩ }
    else if key.action = KeyAction.KEY_RELEASED then
      { g with paddle := g.paddle.setVelocity ⟨0, 0⟩ }
    else g
  else if key.key = Key.KEY_D then
    if key.action = KeyAction.KEY_PRESSED then
      { g with paddle := g.paddle.setVelocity ⟨450, 0⟩ }
    else if key.action = KeyAction.KEY_RELEASED then
      { g with paddle := g.paddle.setVelocity ⟨0, 0⟩ }
    else g
  else if key.key = Key.KEY_SPACE ∧ key.action = KeyAction.KEY_PRESSED then
    let g := { g with serve := true }
    { g with ball := g.ball.setVelocity ⟨g.ball_velocity_x, g.ball_velocity_y⟩ }
  else g

/-- The `if (in_pause_menu)` block of `keyHandler`. -/
def Breakout.keyPause (g : Breakout) (key : KeyEvent) : Breakout :=
  let g := g.toggleOption key
  if key.key = Key.KEY_ENTER then
    if g.menu_option = 1 then g.signalExit
    else { g with in_pause_menu := false, in_game_screen := true }
  else g

/-- The `if (game_over)` block of `keyHandler`; the restart branch is empty in the source. -/
def Breakout.keyGameOver (g : Breakout) (key : KeyEvent) : Breakout :=
  let g := g.toggleOption key
  if key.key = Key.KEY_ENTER ∧ key.action = KeyAction.KEY_PRESSED then
    if g.menu_option = 1 then g.signalExit
    else g
  else g

/-- `Breakout::keyHandler`: the escape test, then the four screen blocks in source
order, each guarded by the flag as it stands when the block is reached. -/
def Breakout.keyHandler (g : Breakout) (key : KeyEvent) : Breakout :=
  let g := if key.key = Key.KEY_ESCAPE then g.signalExit else g
  let g := if g.in_menu then g.keyMenu key else g
  let g := if g.in_game_screen then g.keyGame key else g
  let g := if g.in_pause_menu then g.keyPause key else g
  if g.game_over then g.keyGameOver key else g

/-! ## Collision detection -/

/-- The velocity change shared by the paddle hit and the brick hits:
`ball.setVelocity(Vector2{ ball_velocity_x, ball_velocity_y *= -1 })`. -/
def Breakout.bounceY (g : Breakout) : Breakout :=
  let g := { g with ball_velocity_y := g.ball_velocity_y * -1 }
  { g with ball := g.ball.setVelocity ⟨g.ball_velocity_x, g.ball_velocity_y⟩ }

/-- `ball.setVelocity(Vector2{ ball_velocity_x *= -1, ball_velocity_y })`. -/
def Breakout.bounceX (g : Breakout) : Breakout :=
  let g := { g with ball_velocity_x := g.ball_velocity_x * -1 }
  { g with ball := g.ball.setVelocity ⟨g.ball_velocity_x, g.ball_velocity_y⟩ }

/-- First statement of `collisionDetection`: ball against the left and right boundary. -/
def Breakout.collideSides (g : Breakout) : Breakout :=
  if g.ball.sprite.xPos ≤ 0 ∨ g.ball.sprite.xPos + g.ball.sprite.width ≥ (g.game_width : ℚ) then
    g.bounceX
  else g

/-- Second statement of `collisionDetection`: ball against the top boundary. -/
def Breakout.collideTop (g : Breakout) : Breakout :=
  if g.ball.sprite.yPos ≤ 0 then g.bounceY else g

/-- Third statement of `collisionDetection`: ball against the bottom boundary. -/
def Breakout.collideBottom (g : Breakout) : Breakout :=
  if g.ball.sprite.yPos + g.ball.sprite.height ≥ (g.game_height : ℚ) then
    let g := { g with lives_count := g.lives_count - 1 }
    let g := { g with serve := false }
    g.initBall
  else g

/-- Fourth statement of `collisionDetection`: paddle against ball. -/
def Breakout.collidePaddle (undef : Sprite → Sprite → Bool) (g : Breakout) : Breakout :=
  if Breakout.overlapSeen undef g.paddle.sprite g.ball.sprite then g.bounceY else g

/-- Brick loop of `collisionDetection`, the `red_bricks[i]` statement. -/
def Breakout.collideRed (undef : Sprite → Sprite → Bool) (i : Fin brick_num) (g : Breakout) :
    Breakout :=
  if Breakout.overlapSeen undef g.ball.sprite (g.red_bricks i).sprite &&
      (g.red_bricks i).visibility then
    let g := g.bounceY
    let g := { g with score := g.score + 1 }
    { g with red_bricks := Function.update g.red_bricks i { g.red_bricks i with visibility := false } }
  else g

/-- Brick loop of `collisionDetection`, the `grey_bricks[i]` statement. -/
def Breakout.collideGrey (undef : Sprite → Sprite → Bool) (i : Fin brick_num) (g : Breakout) :
    Breakout :=
  if Breakout.overlapSeen undef g.ball.sprite (g.grey_bricks i).sprite &&
      (g.grey_bricks i).visibility then
    let g := g.bounceY
    let g := { g with score := g.score + 1 }
    { g with grey_bricks := Function.update g.grey_bricks i { g.grey_bricks i with visibility := false } }
  else g

/-- Brick loop of `collisionDetection`, the `yellow_bricks[i]` statement. -/
def Breakout.collideYellow (undef : Sprite → Sprite → Bool) (i : Fin brick_num) (g : Breakout) :
    Breakout :=
  if Breakout.overlapSeen undef g.ball.sprite (g.yellow_bricks i).sprite &&
      (g.yellow_bricks i).visibility then
    let g := g.bounceY
    let g := { g with score := g.score + 1 }
    { g with yellow_bricks := Function.update g.yellow_bricks i { g.yellow_bricks i with visibility := false } }
  else g

/-- Brick loop of `collisionDetection`, the `purple_bricks[i]` statement. -/
def Breakout.collidePurple (undef : Sprite → Sprite → Bool) (i : Fin brick_num) (g : Breakout) :
    Breakout :=
  if Breakout.overlapSeen undef g.ball.sprite (g.purple_bricks i).sprite &&
      (g.purple_bricks i).visibility then
    let g := g.bounceY
    let g := { g with score := g.score + 1 }
    { g with purple_bricks := Function.update g.purple_bricks i { g.purple_bricks i with visibility := false } }
  else g

/-- Brick loop of `collisionDetection`, the `green_bricks[i]` statement. -/
def Breakout.collideGreen (undef : Sprite → Sprite → Bool) (i : Fin brick_num) (g : Breakout) :
    Breakout :=
  if Breakout.overlapSeen undef g.ball.sprite (g.green_bricks i).sprite &&
      (g.green_bricks i).visibility then
    let g := g.bounceY
    let g := { g with score := g.score + 1 }
    { g with green_bricks := Function.update g.green_bricks i { g.green_bricks i with visibility := false } }
  else g

/-- One iteration of the brick loop: red, grey, yellow, purple, green, in source order. -/
def Breakout.collideBricksAt (undef : Sprite → Sprite → Bool) (g : Breakout) (i : Fin brick_num) :
    Breakout :=
  let g := g.collideRed undef i
  let g := g.collideGrey undef i
  let g := g.collideYellow undef i
  let g := g.collidePurple undef i
  g.collideGreen undef i

/-- One iteration of the gem loop of `collisionDetection`. -/
def Breakout.collideGem (undef : Sprite → Sprite → Bool) (g : Breakout) (i : Fin 4) : Breakout :=
  if Breakout.overlapSeen undef (g.gems i).sprite g.paddle.sprite && (g.gems i).visibility then
    let g := { g with score := g.score + 10 }
    { g with gems := Function.update g.gems i { g.gems i with visibility := false } }
  else g

/-- `Breakout::collisionDetection`: boundaries, bottom, paddle, the brick loop
`for (i = 0; i < brick_num; i++)`, the gem loop `for (i = 0; i < 4; i++)`. -/
def Breakout.collisionDetection (undef : Sprite → Sprite → Bool) (g : Breakout) : Breakout :=
  let g := g.collideSides
  let g := g.collideTop
  let g := g.collideBottom
  let g := g.collidePaddle undef
  let g := (List.finRange brick_num).foldl (Breakout.collideBricksAt undef) g
  (List.finRange 4).foldl (Breakout.collideGem undef) g

/-! ## Frame update -/

/-- The paddle and ball integration of `update`, lines 459-487: move the paddle, clamp
it to the field, then either rest the ball on the paddle or move it by its velocity. -/
def Breakout.integrate (g : Breakout) (dt_sec : ℚ) : Breakout :=
  let g := { g with paddle := g.paddle.setXPos (g.paddle.sprite.xPos + (g.paddle.velocity.x * dt_sec)) }
  let g := if g.paddle.sprite.xPos ≤ 0 then { g with paddle := g.paddle.setXPos 0 } else g
  let g := if g.paddle.sprite.xPos + g.paddle.sprite.width ≥ (g.game_width : ℚ) then
      { g with paddle := g.paddle.setXPos ((g.game_width : ℚ) - g.paddle.sprite.width) }
    else g
  if !g.serve then
    let g := { g with ball := g.ball.setXPos (g.paddle.sprite.xPos + g.paddle.sprite.width / 2 - g.ball.sprite.width / 2) }
    { g with ball := g.ball.setYPos (g.paddle.sprite.yPos - (g.ball.sprite.height + 1)) }
  else
    let g := { g with ball := g.ball.setXPos (g.ball.sprite.xPos + (g.ball.velocity.x * dt_sec)) }
    { g with ball := g.ball.setYPos (g.ball.sprite.yPos + (g.ball.velocity.y * dt_sec)) }

/-- The statement closing the `if (in_game_screen)` block of `update`:
`if (lives_count == 0)`. -/
def Breakout.checkGameOver (g : Breakout) : Breakout :=
  if g.lives_count = 0 then { g with in_game_screen := false, game_over := true } else g

/-- The `if (in_game_screen)` block of `update`. -/
def Breakout.updateGame (undef : Sprite → Sprite → Bool) (g : Breakout) (dt_sec : ℚ) : Breakout :=
  let g := g.collisionDetection undef
  let g := g.integrate dt_sec
  g.checkGameOver

/-- One iteration of the counting loop of `update`: `total_brick_count--` for each
brick of index `i` that is not visible. -/
def Breakout.countAt (g : Breakout) (total_brick_count : ℤ) (i : Fin brick_num) : ℤ :=
  let total_brick_count :=
    if !(g.red_bricks i).visibility then total_brick_count - 1 else total_brick_count
  let total_brick_count :=
    if !(g.grey_bricks i).visibility then total_brick_count - 1 else total_brick_count
  let total_brick_count :=
    if !(g.yellow_bricks i).visibility then total_brick_count - 1 else total_brick_count
  let total_brick_count :=
    if !(g.purple_bricks i).visibility then total_brick_count - 1 else total_brick_count
  if !(g.green_bricks i).visibility then total_brick_count - 1 else total_brick_count

/-- The local `total_brick_count` of `update` after its loop. -/
def Breakout.total_brick_count (g : Breakout) : ℤ :=
  (List.finRange brick_num).foldl g.countAt ((brick_num : ℤ) * 5)

/-- The gem statements closing `update`: a gem moves down by `gem_y_velocity * dt_sec`
when the brick it is tied to is not visible. -/
def Breakout.moveGems (g : Breakout) (dt_sec : ℚ) : Breakout :=
  let gem_y_velocity : ℚ := 200
  let g := if !(g.green_bricks 14).visibility then
      { g with gems := Function.update g.gems 3 ((g.gems 3).setYPos ((g.gems 3).sprite.yPos + (gem_y_velocity * dt_sec))) }
    else g
  let g := if !(g.purple_bricks 2).visibility then
      { g with gems := Function.update g.gems 0 ((g.gems 0).setYPos ((g.gems 0).sprite.yPos + (gem_y_velocity * dt_sec))) }
    else g
  let g := if !(g.yellow_bricks 11).visibility then
      { g with gems := Function.update g.gems 2 ((g.gems 2).setYPos ((g.gems 2).sprite.yPos + (gem_y_velocity * dt_sec))) }
    else g
  if !(g.red_bricks 7).visibility then
    { g with gems := Function.update g.gems 1 ((g.gems 1).setYPos ((g.gems 1).sprite.yPos + (gem_y_velocity * dt_sec))) }
  else g

/-- The statement of `update` after the counting loop: `if (total_brick_count == 0)`. -/
def Breakout.checkWin (g : Breakout) : Breakout :=
  if g.total_brick_count = 0 then { g with in_game_screen := false, win := true } else g

/-- `Breakout::update`; `delta` is `game_time.delta.count()`, in milliseconds. -/
def Breakout.update (undef : Sprite → Sprite → Bool) (g : Breakout) (delta : ℚ) : Breakout :=
  let dt_sec := delta / 1000
  let g := if g.in_game_screen then g.updateGame undef dt_sec else g
  let g := g.checkWin
  g.moveGems dt_sec

/-! ## Rendering -/

/-- Brick loop of `render`, the `green_bricks[i]` statement: only a visible green brick
is given its x position; `green_bricks->getSprite()` reads element 0 of the array. -/
def Breakout.layoutGreen (g : Breakout) (i : Fin brick_num) : Breakout :=
  let x := (i.val : ℚ) * (g.green_bricks 0).sprite.width
  if (g.green_bricks i).visibility then
    { g with green_bricks := Function.update g.green_bricks i ((g.green_bricks i).setXPos x) }
  else g

/-- Brick loop of `render`, the `purple_bricks[i]` statements: x from the index and the
width of `purple_bricks[0]`, y from the position and height of `green_bricks[0]`. -/
def Breakout.layoutPurple (g : Breakout) (i : Fin brick_num) : Breakout :=
  let x := (i.val : ℚ) * (g.purple_bricks 0).sprite.width
  let g := { g with purple_bricks := Function.update g.purple_bricks i ((g.purple_bricks i).setXPos x) }
  let y := (g.green_bricks 0).sprite.yPos + (g.green_bricks 0).sprite.height
  { g with purple_bricks := Function.update g.purple_bricks i ((g.purple_bricks i).setYPos y) }

/-- Brick loop of `render`, the `yellow_bricks[i]` statements: x from the index and the
width of `yellow_bricks[0]`, y from the position and height of `purple_bricks[0]`. -/
def Breakout.layoutYellow (g : Breakout) (i : Fin brick_num) : Breakout :=
  let x := (i.val : ℚ) * (g.yellow_bricks 0).sprite.width
  let g := { g with yellow_bricks := Function.update g.yellow_bricks i ((g.yellow_bricks i).setXPos x) }
  let y := (g.purple_bricks 0).sprite.yPos + (g.purple_bricks 0).sprite.height
  { g with yellow_bricks := Function.update g.yellow_bricks i ((g.yellow_bricks i).setYPos y) }

/-- Brick loop of `render`, the `grey_bricks[i]` statements: x from the index and the
width of `grey_bricks[0]`, y from the position and height of `yellow_bricks[0]`. -/
def Breakout.layoutGrey (g : Breakout) (i : Fin brick_num) : Breakout :=
  let x := (i.val : ℚ) * (g.grey_bricks 0).sprite.width
  let g := { g with grey_bricks := Function.update g.grey_bricks i ((g.grey_bricks i).setXPos x) }
  let y := (g.yellow_bricks 0).sprite.yPos + (g.yellow_bricks 0).sprite.height
  { g with grey_bricks := Function.update g.grey_bricks i ((g.grey_bricks i).setYPos y) }

/-- Brick loop of `render`, the `red_bricks[i]` statements: x from the index and the
width of `red_bricks[0]`, y from the position and height of `grey_bricks[0]`. -/
def Breakout.layoutRed (g : Breakout) (i : Fin brick_num) : Breakout :=
  let x := (i.val : ℚ) * (g.red_bricks 0).sprite.width
  let g := { g with red_bricks := Function.update g.red_bricks i ((g.red_bricks i).setXPos x) }
  let y := (g.grey_bricks 0).sprite.yPos + (g.grey_bricks 0).sprite.height
  { g with red_bricks := Function.update g.red_bricks i ((g.red_bricks i).setYPos y) }

/-- One iteration of the brick loop of `render`: the sprites are laid out while they are
drawn, green, purple, yellow, grey, red in source order. -/
def Breakout.layoutAt (g : Breakout) (i : Fin brick_num) : Breakout :=
  ((((g.layoutGreen i).layoutPurple i).layoutYellow i).layoutGrey i).layoutRed i

/-- The `if (in_menu)` block of `render`, as far as it writes to the game state. -/
def Breakout.renderMenu (g : Breakout) : Breakout :=
  if g.in_menu then
    { g with game_over := false, in_game_screen := false, win := false, in_pause_menu := false }
  else g

/-- The `if (in_game_screen)` block of `render`: the flags, then the brick loop. -/
def Breakout.renderGame (g : Breakout) : Breakout :=
  if g.in_game_screen then
    let g := { g with game_over := false, in_menu := false, win := false, in_pause_menu := false }
    (List.finRange brick_num).foldl Breakout.layoutAt g
  else g

/-- The `if (in_pause_menu)` block of `render`. -/
def Breakout.renderPause (g : Breakout) : Breakout :=
  if g.in_pause_menu then
    { g with game_over := false, in_game_screen := false, win := false, in_menu := false }
  else g

/-- The `if (game_over)` block of `render`. -/
def Breakout.renderGameOver (g : Breakout) : Breakout :=
  if g.game_over then
    { g with in_menu := false, in_game_screen := false, win := false, in_pause_menu := false }
  else g

/-- The `if (win)` block of `render`. -/
def Breakout.renderWin (g : Breakout) : Breakout :=
  if g.win then
    { g with game_over := false, in_game_screen := false, in_menu := false, in_pause_menu := false }
  else g

/-- `Breakout::render`, as far as it writes to the game state: the five screen blocks in
source order, each guarded by its flag as it stands when the block is reached. -/
def Breakout.render (g : Breakout) : Breakout :=
  ((((g.renderMenu).renderGame).renderPause).renderGameOver).renderWin

/-! ## Runs of the game -/

/-- What the host delivers to the game: a key event, a frame update with its time delta
in milliseconds, or a render call. -/
inductive GameEvent where
  | key (e : KeyEvent)
  | update (delta : ℚ)
  | render

/-- The game's reaction to one delivery of the host. -/
def Breakout.step (undef : Sprite → Sprite → Bool) (g : Breakout) : GameEvent → Breakout
  | GameEvent.key e => g.keyHandler e
  | GameEvent.update delta => g.update undef delta
  | GameEvent.render => g.render

/-- The state after a successful `init` followed by the given deliveries, in order. -/
def Breakout.run (undef : Sprite → Sprite → Bool) (a : Assets) (events : List GameEvent) :
    Breakout :=
  events.foldl (Breakout.step undef) (Breakout.init a)

/-! ## Start-up when a texture may fail to load -/

/-- What `loadTexture` finds for each image file of the game: the sprite it yields, or
`none` when the file cannot be loaded. -/
structure Textures where
  paddleRed : Option Sprite
  ballBlue : Option Sprite
  element_green_rectangle : Option Sprite
  element_purple_rectangle : Option Sprite
  element_yellow_rectangle : Option Sprite
  element_grey_rectangle : Option Sprite
  element_red_rectangle : Option Sprite
  element_blue_polygon : Option Sprite

/-- The value `GameObject::initialiseSprite` returns: `false` when `loadTexture` fails,
`true` at its end. -/
def GameObject.initialiseSpriteReturns (loaded : Option Sprite) : Bool :=
  if !loaded.isSome then false else true

/-- One iteration of the brick loop of `initGameObjects`, as far as it returns from the
function: `some false` at the first of green, purple, yellow, grey, red whose texture
fails, `none` when the iteration runs to its end. -/
def Breakout.initBrickReturns (t : Textures) (_i : Fin brick_num) : Option Bool :=
  if !GameObject.initialiseSpriteReturns t.element_green_rectangle then some false
  else if !GameObject.initialiseSpriteReturns t.element_purple_rectangle then some false
  else if !GameObject.initialiseSpriteReturns t.element_yellow_rectangle then some false
  else if !GameObject.initialiseSpriteReturns t.element_grey_rectangle then some false
  else if !GameObject.initialiseSpriteReturns t.element_red_rectangle then some false
  else none

/-- One iteration of the gem loop of `initGameObjects`, as far as it returns from the
function. -/
def Breakout.initGemReturns (t : Textures) (_i : Fin 4) : Option Bool :=
  if !GameObject.initialiseSpriteReturns t.element_blue_polygon then some false else none

/-- The value `Breakout::initGameObjects` returns: `false` at the first texture that
fails (paddle, ball, the brick loop, the gem loop, in source order). Every `return`
statement of the function is `return false`; when all textures load control reaches the
closing brace of a `bool` function without returning a value, which is `none` here. -/
def Breakout.initGameObjectsReturns (t : Textures) : Option Bool :=
  if !GameObject.initialiseSpriteReturns t.paddleRed then some false
  else if !GameObject.initialiseSpriteReturns t.ballBlue then some false
  else
    match (List.finRange brick_num).findSome? (Breakout.initBrickReturns t) with
    | some r => some r
    | none =>
      match (List.finRange 4).findSome? (Breakout.initGemReturns t) with
      | some r => some r
      | none => none

/-- The value `Breakout::init` returns; `apiOk` is what `initAPI()` returns. The call
`initGameObjects();` is an expression statement: its value is not read. -/
def Breakout.initReturns (apiOk : Bool) (t : Textures) : Bool :=
  if !apiOk then false
  else
    let _notRead := Breakout.initGameObjectsReturns t
    true

/-! ## Quantities the properties speak about -/

/-- The `visibility` flags of an array of game objects. -/
def visOf {n : Nat} (row : Fin n → GameObject) : Fin n → Bool :=
  fun i => (row i).visibility

/-- Number of `false` entries of a family of flags. -/
def countFalse {n : Nat} (v : Fin n → Bool) : ℤ :=
  ∑ i : Fin n, if v i then 0 else 1

/-- Number of objects of an array whose `visibility` is `false`. -/
def invisibleCount {n : Nat} (row : Fin n → GameObject) : ℤ :=
  countFalse (visOf row)

/-- Number of objects of an array whose `visibility` is `true`. -/
def visibleCount {n : Nat} (row : Fin n → GameObject) : ℤ :=
  ∑ i : Fin n, if (row i).visibility then 1 else 0

/-- Number of bricks, over the five layers, that are not visible. -/
def Breakout.invisibleBricks (g : Breakout) : ℤ :=
  invisibleCount g.red_bricks + invisibleCount g.grey_bricks + invisibleCount g.yellow_bricks +
    invisibleCount g.purple_bricks + invisibleCount g.green_bricks

/-- Number of bricks, over the five layers, that are visible. -/
def Breakout.visibleBricks (g : Breakout) : ℤ :=
  visibleCount g.red_bricks + visibleCount g.grey_bricks + visibleCount g.yellow_bricks +
    visibleCount g.purple_bricks + visibleCount g.green_bricks

/-- Number of gems that are not visible. -/
def Breakout.invisibleGems (g : Breakout) : ℤ :=
  invisibleCount g.gems

/-- The score together with every visibility flag: what the score property relates. -/
def Breakout.tally (g : Breakout) :
    ℤ × (Fin brick_num → Bool) × (Fin brick_num → Bool) × (Fin brick_num → Bool) ×
      (Fin brick_num → Bool) × (Fin brick_num → Bool) × (Fin 4 → Bool) :=
  (g.score, visOf g.red_bricks, visOf g.grey_bricks, visOf g.yellow_bricks,
    visOf g.purple_bricks, visOf g.green_bricks, visOf g.gems)

/-- The five screen flags, in the order menu, playing, paused, game over, win. -/
def Breakout.modes (g : Breakout) : Bool × Bool × Bool × Bool × Bool :=
  (g.in_menu, g.in_game_screen, g.in_pause_menu, g.game_over, g.win)

/-- Number of screen flags that are `true`. -/
def Breakout.activeModes (g : Breakout) : Nat :=
  g.in_menu.toNat + g.in_game_screen.toNat + g.in_pause_menu.toNat + g.game_over.toNat +
    g.win.toNat

/-- The score property: one point per brick that is not visible, ten per gem that is not. -/
def Breakout.ScoreOK (g : Breakout) : Prop :=
  g.score = g.invisibleBricks + 10 * g.invisibleGems

/-- The screen flags and the lives counter. -/
def Breakout.status (g : Breakout) : (Bool × Bool × Bool × Bool × Bool) × ℤ :=
  (g.modes, g.lives_count)

/-- Whether an `update` delivered in this state runs the bottom-boundary branch of
`collisionDetection` (a missed ball): the game is on the playing screen and the ball's
bottom edge is at or below the bottom of the field. -/
def Breakout.missesBall (g : Breakout) : Bool :=
  g.in_game_screen && decide (g.ball.sprite.yPos + g.ball.sprite.height ≥ (g.game_height : ℚ))

/-- One delivery, also counting the missed balls so far. -/
def Breakout.stepCounting (undef : Sprite → Sprite → Bool) (p : Breakout × Nat) :
    GameEvent → Breakout × Nat
  | GameEvent.key e => (p.1.keyHandler e, p.2)
  | GameEvent.update delta => (p.1.update undef delta, if p.1.missesBall then p.2 + 1 else p.2)
  | GameEvent.render => (p.1.render, p.2)

/-- Number of missed balls in a run: the `update` deliveries that ran the bottom-boundary
branch of `collisionDetection`. -/
def Breakout.missedBalls (undef : Sprite → Sprite → Bool) (a : Assets)
    (events : List GameEvent) : Nat :=
  (events.foldl (Breakout.stepCounting undef) (Breakout.init a, 0)).2

/-- The invariant of every run, on the five flags (menu, playing, paused, game over,
win), the lives and the number of visible bricks: the lives are between 0 and 3; one of
menu, playing, paused is the only flag set, or none of the three is set and game over or
win is; game over is set exactly when no life is left; win is set only when no brick is
visible; and no brick visible means the game has left menu, playing and paused. -/
def InvOf (m : Bool × Bool × Bool × Bool × Bool) (lives visible : ℤ) : Prop :=
  (0 ≤ lives ∧ lives ≤ 3) ∧
  (m = (true, false, false, false, false) ∨ m = (false, true, false, false, false) ∨
    m = (false, false, true, false, false) ∨
    (m.1 = false ∧ m.2.1 = false ∧ m.2.2.1 = false ∧ (m.2.2.2.1 = true ∨ m.2.2.2.2 = true))) ∧
  (m.2.2.2.1 = true ↔ lives = 0) ∧
  (m.2.2.2.2 = true → visible = 0) ∧
  (visible = 0 → m.1 = false ∧ m.2.1 = false ∧ m.2.2.1 = false)

/-- The invariant of every run, read on a game state. -/
def Breakout.Inv (g : Breakout) : Prop :=
  InvOf g.modes g.lives_count g.visibleBricks

/-- The flags after `render`, from the flags before: the five blocks in source order. -/
def renderModes (m : Bool × Bool × Bool × Bool × Bool) : Bool × Bool × Bool × Bool × Bool :=
  let m := if m.1 then (m.1, false, false, false, false) else m
  let m := if m.2.1 then (false, m.2.1, false, false, false) else m
  let m := if m.2.2.1 then (false, false, m.2.2.1, false, false) else m
  let m := if m.2.2.2.1 then (false, false, false, m.2.2.2.1, false) else m
  if m.2.2.2.2 then (false, false, false, false, m.2.2.2.2) else m

/-- The flags after `update`, from the flags before, the lives after the collision pass
and the number of visible bricks after it: the game-over test inside the playing block,
then the win test. -/
def updateModes (m : Bool × Bool × Bool × Bool × Bool) (lives visible : ℤ) :
    Bool × Bool × Bool × Bool × Bool :=
  let m := if m.2.1 then (if lives = 0 then (m.1, false, m.2.2.1, true, m.2.2.2.2) else m) else m
  if visible = 0 then (m.1, false, m.2.2.1, m.2.2.2.1, true) else m

/-- The paddle and the size of the field. -/
def Breakout.court (g : Breakout) : GameObject × ℤ × ℤ :=
  (g.paddle, g.game_width, g.game_height)

/-- The ball's velocity as the game holds it: the members `ball_velocity_x` and
`ball_velocity_y`, and the velocity of the ball object. -/
def Breakout.motion (g : Breakout) : ℚ × ℚ × Vector2 :=
  (g.ball_velocity_x, g.ball_velocity_y, g.ball.velocity)

/-- The x-velocity agrees between the member `ball_velocity_x` and the ball object, with
value `c`. -/
def Breakout.MovesX (c : ℚ) (g : Breakout) : Prop :=
  g.ball_velocity_x = c ∧ g.ball.velocity.x = c

/-- No brick is hit in a collision pass over this state: for every index and layer, the
overlap test as seen by the pass is `false` or the brick is not visible. -/
def Breakout.hitsNoBrick (undef : Sprite → Sprite → Bool) (g : Breakout) : Prop :=
  ∀ i : Fin brick_num,
    (Breakout.overlapSeen undef g.ball.sprite (g.red_bricks i).sprite &&
      (g.red_bricks i).visibility) = false ∧
    (Breakout.overlapSeen undef g.ball.sprite (g.grey_bricks i).sprite &&
      (g.grey_bricks i).visibility) = false ∧
    (Breakout.overlapSeen undef g.ball.sprite (g.yellow_bricks i).sprite &&
      (g.yellow_bricks i).visibility) = false ∧
    (Breakout.overlapSeen undef g.ball.sprite (g.purple_bricks i).sprite &&
      (g.purple_bricks i).visibility) = false ∧
    (Breakout.overlapSeen undef g.ball.sprite (g.green_bricks i).sprite &&
      (g.green_bricks i).visibility) = false

instance (undef : Sprite → Sprite → Bool) (g : Breakout) :
    Decidable (Breakout.hitsNoBrick undef g) := by
  unfold Breakout.hitsNoBrick
  infer_instance

/-- The second state has at least the score of the first and at most its lives, and
every brick hidden in the first is hidden in the second. -/
def Breakout.Grows (g g' : Breakout) : Prop :=
  g.score ≤ g'.score ∧ g'.lives_count ≤ g.lives_count ∧
  ∀ i : Fin brick_num,
    ((g.red_bricks i).visibility = false → (g'.red_bricks i).visibility = false) ∧
    ((g.grey_bricks i).visibility = false → (g'.grey_bricks i).visibility = false) ∧
    ((g.yellow_bricks i).visibility = false → (g'.yellow_bricks i).visibility = false) ∧
    ((g.purple_bricks i).visibility = false → (g'.purple_bricks i).visibility = false) ∧
    ((g.green_bricks i).visibility = false → (g'.green_bricks i).visibility = false)

/-- The brick each gem is tied to: gem 0 to purple brick 2, gem 1 to red brick 7, gem 2
to yellow brick 11, gem 3 to green brick 14. -/
def Breakout.tiedBrick (g : Breakout) (i : Fin 4) : GameObject :=
  match i with
  | 0 => g.purple_bricks 2
  | 1 => g.red_bricks 7
  | 2 => g.yellow_bricks 11
  | 3 => g.green_bricks 14

/-- Where the gems are and how they move: the sprite and the velocity of each. -/
def Breakout.gemBoxes (g : Breakout) : Fin 4 → Sprite × Vector2 :=
  fun i => ((g.gems i).sprite, (g.gems i).velocity)

/-- The serve flag and the ball's sprite. -/
def Breakout.resting (g : Breakout) : Bool × Sprite :=
  (g.serve, g.ball.sprite)

/-! ## Brick hits of one collision pass -/
/-- Whether a collision pass over `g` hits `red_bricks[i]`: the pass sees the ball overlap
the brick, and the brick is visible. -/
def Breakout.hitsRed (undef : Sprite → Sprite → Bool) (g : Breakout) (i : Fin brick_num) : Bool :=
  Breakout.overlapSeen undef g.ball.sprite (g.red_bricks i).sprite &&
    (g.red_bricks i).visibility
/-- Whether a collision pass over `g` hits `grey_bricks[i]`: the pass sees the ball overlap
the brick, and the brick is visible. -/
def Breakout.hitsGrey (undef : Sprite → Sprite → Bool) (g : Breakout) (i : Fin brick_num) : Bool :=
  Breakout.overlapSeen undef g.ball.sprite (g.grey_bricks i).sprite &&
    (g.grey_bricks i).visibility
/-- Whether a collision pass over `g` hits `yellow_bricks[i]`: the pass sees the ball overlap
the brick, and the brick is visible. -/
def Breakout.hitsYellow (undef : Sprite → Sprite → Bool) (g : Breakout) (i : Fin brick_num) : Bool :=
  Breakout.overlapSeen undef g.ball.sprite (g.yellow_bricks i).sprite &&
    (g.yellow_bricks i).visibility
/-- Whether a collision pass over `g` hits `purple_bricks[i]`: the pass sees the ball overlap
the brick, and the brick is visible. -/
def Breakout.hitsPurple (undef : Sprite → Sprite → Bool) (g : Breakout) (i : Fin brick_num) : Bool :=
  Breakout.overlapSeen undef g.ball.sprite (g.purple_bricks i).sprite &&
    (g.purple_bricks i).visibility
/-- Whether a collision pass over `g` hits `green_bricks[i]`: the pass sees the ball overlap
the brick, and the brick is visible. -/
def Breakout.hitsGreen (undef : Sprite → Sprite → Bool) (g : Breakout) (i : Fin brick_num) : Bool :=
  Breakout.overlapSeen undef g.ball.sprite (g.green_bricks i).sprite &&
    (g.green_bricks i).visibility
/-- Number of indices of `S` at which `h` is `true`. -/
def hitCount (S : Finset (Fin brick_num)) (h : Fin brick_num → Bool) : ℕ :=
  ∑ i ∈ S, (h i).toNat

/-- Number of bricks a collision pass over `g` hits among the red bricks with index in
`Sr`, the grey ones with index in `Sg`, and so on. -/
def Breakout.hitsAmong (undef : Sprite → Sprite → Bool) (g : Breakout)
    (Sr Sg Sy Sp Sn : Finset (Fin brick_num)) : ℕ :=
  hitCount Sr (g.hitsRed undef) + hitCount Sg (g.hitsGrey undef) +
    hitCount Sy (g.hitsYellow undef) + hitCount Sp (g.hitsPurple undef) +
    hitCount Sn (g.hitsGreen undef)

/-- The number k of visible bricks, over all layers and indices, that a collision pass
over `g` sees the ball overlap. -/
def Breakout.brickHits (undef : Sprite → Sprite → Bool) (g : Breakout) : ℕ :=
  g.hitsAmong undef Finset.univ Finset.univ Finset.univ Finset.univ Finset.univ

/-- No gem is collected in a collision pass over this state: for every gem, the overlap
test with the paddle as seen by the pass is `false` or the gem is not visible. -/
def Breakout.collectsNoGem (undef : Sprite → Sprite → Bool) (g : Breakout) : Prop :=
  ∀ i : Fin 4,
    (Breakout.overlapSeen undef (g.gems i).sprite g.paddle.sprite && (g.gems i).visibility) =
      false

instance (undef : Sprite → Sprite → Bool) (g : Breakout) :
    Decidable (Breakout.collectsNoGem undef g) := by
  unfold Breakout.collectsNoGem
  infer_instance

/-- A layer of bricks part-way through the brick loop: the bricks with index in `S` that
the pass hits (`h`) are hidden, every other brick is as it was in `row0`. -/
def RowDone (S : Finset (Fin brick_num)) (h : Fin brick_num → Bool)
    (row0 row : Fin brick_num → GameObject) : Prop :=
  ∀ i : Fin brick_num,
    row i = if i ∈ S ∧ h i = true then { row0 i with visibility := false } else row0 i

/-- The state `b` part-way through the brick loop of a collision pass that entered the
loop in state `g`, the statements done being those for the red bricks with index in
`Sr`, the grey ones with index in `Sg`, and so on: every hit among them has added one to
the score and reflected `ball_velocity_y`, and has hidden its brick. -/
structure Breakout.HitsDone (undef : Sprite → Sprite → Bool) (g : Breakout)
    (Sr Sg Sy Sp Sn : Finset (Fin brick_num)) (b : Breakout) : Prop where
  sprite : b.ball.sprite = g.ball.sprite
  vx : b.ball_velocity_x = g.ball_velocity_x
  score : b.score = g.score + (g.hitsAmong undef Sr Sg Sy Sp Sn : ℤ)
  vy : b.ball_velocity_y = g.ball_velocity_y * (-1) ^ (g.hitsAmong undef Sr Sg Sy Sp Sn)
  velocity : b.ball.velocity =
    if g.hitsAmong undef Sr Sg Sy Sp Sn = 0 then g.ball.velocity
    else ⟨g.ball_velocity_x, g.ball_velocity_y * (-1) ^ (g.hitsAmong undef Sr Sg Sy Sp Sn)⟩
  red : RowDone Sr (g.hitsRed undef) g.red_bricks b.red_bricks
  grey : RowDone Sg (g.hitsGrey undef) g.grey_bricks b.grey_bricks
  yellow : RowDone Sy (g.hitsYellow undef) g.yellow_bricks b.yellow_bricks
  purple : RowDone Sp (g.hitsPurple undef) g.purple_bricks b.purple_bricks
  green : RowDone Sn (g.hitsGreen undef) g.green_bricks b.green_bricks


/-- The speed property: the members `ball_velocity_x` and `ball_velocity_y` are 300 in
absolute value, and the ball object is at rest or moves with exactly that pair. -/
def Breakout.SpeedOK (g : Breakout) : Prop :=
  |g.ball_velocity_x| = 300 ∧ |g.ball_velocity_y| = 300 ∧
    (g.ball.velocity = ⟨0, 0⟩ ∨ g.ball.velocity = ⟨g.ball_velocity_x, g.ball_velocity_y⟩)

/-! ## Concrete games -/

/-- Sprites of ordinary sizes for a field of 1280 x 720, at the engine's origin: paddle
104 x 24, ball 20 x 20, bricks 64 x 32 (twenty to a row), gem 48 x 48. -/
def sampleAssets : Assets :=
  { paddleRed := ⟨0, 0, 104, 24⟩
    ballBlue := ⟨0, 0, 20, 20⟩
    element_green_rectangle := ⟨0, 0, 64, 32⟩
    element_purple_rectangle := ⟨0, 0, 64, 32⟩
    element_yellow_rectangle := ⟨0, 0, 64, 32⟩
    element_grey_rectangle := ⟨0, 0, 64, 32⟩
    element_red_rectangle := ⟨0, 0, 64, 32⟩
    element_blue_polygon := ⟨0, 0, 48, 48⟩ }

/-- Sprites for which the bricks, once laid out by `render`, all lie where a ball put
back by `initBall` next to the left wall overlaps them: paddle 10 x 24, ball 120 x 22,
green bricks 6 x 651, the other bricks 6 x 1. -/
def narrowAssets : Assets :=
  { paddleRed := ⟨0, 0, 10, 24⟩
    ballBlue := ⟨0, 0, 120, 22⟩
    element_green_rectangle := ⟨0, 0, 6, 651⟩
    element_purple_rectangle := ⟨0, 0, 6, 1⟩
    element_yellow_rectangle := ⟨0, 0, 6, 1⟩
    element_grey_rectangle := ⟨0, 0, 6, 1⟩
    element_red_rectangle := ⟨0, 0, 6, 1⟩
    element_blue_polygon := ⟨0, 0, 48, 48⟩ }

/-- A key press. -/
def pressed (k : Key) : GameEvent :=
  GameEvent.key ⟨k, KeyAction.KEY_PRESSED⟩

/-- A key release. -/
def released (k : Key) : GameEvent :=
  GameEvent.key ⟨k, KeyAction.KEY_RELEASED⟩

/-- A game in which every update is followed by a render: start, lose two balls with
the paddle in the middle, then move the paddle to the left wall while the third ball
falls past it, to (1030, 1097). One life is left and all 100 bricks are visible. -/
def thirdBallFallingRun : List GameEvent :=
  [GameEvent.update 16, GameEvent.render,
   pressed Key.KEY_ENTER, GameEvent.update 16, GameEvent.render,
   pressed Key.KEY_SPACE, GameEvent.update 250, GameEvent.render,
   GameEvent.update 16, GameEvent.render,
   pressed Key.KEY_SPACE, GameEvent.update 250, GameEvent.render,
   GameEvent.update 16, GameEvent.render,
   pressed Key.KEY_A, pressed Key.KEY_SPACE, GameEvent.update 1500, GameEvent.render]

/-- The game `thirdBallFallingRun` and the next update, in which the third ball is
missed. -/
def lastLifeLastBrickRun : List GameEvent :=
  thirdBallFallingRun ++ [GameEvent.update 16]

/-- Start the game and hold the paddle against the left wall. -/
def paddleLeftRun : List GameEvent :=
  [pressed Key.KEY_ENTER, pressed Key.KEY_A, GameEvent.update 2000]

/-- Start the game, let the paddle run to the left wall with the ball resting on it, at
(42, 649), and serve: the ball has velocity (300, -300). A render follows the update. -/
def serveFromLeftRun : List GameEvent :=
  [pressed Key.KEY_ENTER, pressed Key.KEY_A, GameEvent.update 2000, GameEvent.render,
   pressed Key.KEY_SPACE]

/-- The served ball carried in one frame above the top boundary, to (711, -20), clear of
everything else. -/
def topContactRun : List GameEvent :=
  serveFromLeftRun ++ [GameEvent.update 2230, GameEvent.render]

/-- The served ball carried to the top right corner, then down to the left wall at
(-3, 694), where its x-velocity is reflected, then one more short frame after which it is
still at the wall, at (0, 697), moving right and down at (300, 300). -/
def leftContactRun : List GameEvent :=
  serveFromLeftRun ++ [GameEvent.update 4060, GameEvent.render,
    GameEvent.update 4210, GameEvent.render, GameEvent.update 10, GameEvent.render]

/-- The served ball carried to the top right corner, then down to the left wall at
(-6, 697), just above the bottom boundary, moving left and down at (-300, 300). -/
def leftWallRun : List GameEvent :=
  serveFromLeftRun ++ [GameEvent.update 4060, GameEvent.render,
    GameEvent.update 4220, GameEvent.render]

/-- The run `leftWallRun` and one more frame of 10 ms: the ball, reflected at the left
wall, is at (-3, 700), moving right and down at (300, 300): still left of the wall, and
now with its bottom edge on the bottom boundary. -/
def bottomLeftCornerRun : List GameEvent :=
  leftWallRun ++ [GameEvent.update 10, GameEvent.render]

/-- The state `paddleLeftRun` reaches with the sample sprites: on the playing screen, the
paddle at x = 0 with velocity (-450, 0). -/
def paddleLeftState : Breakout :=
  Breakout.run seenFalse sampleAssets paddleLeftRun

/-- The state `topContactRun` reaches with the sample sprites. -/
def topContactState : Breakout :=
  Breakout.run seenFalse sampleAssets topContactRun

/-- The state `leftContactRun` reaches with the sample sprites. -/
def leftContactState : Breakout :=
  Breakout.run seenFalse sampleAssets leftContactRun

/-- The state `leftWallRun` reaches with the sample sprites. -/
def leftWallState : Breakout :=
  Breakout.run seenFalse sampleAssets leftWallRun

/-- Sprites as `sampleAssets`, with a ball of 22 x 22. -/
def tallBallAssets : Assets :=
  { paddleRed := ⟨0, 0, 104, 24⟩
    ballBlue := ⟨0, 0, 22, 22⟩
    element_green_rectangle := ⟨0, 0, 64, 32⟩
    element_purple_rectangle := ⟨0, 0, 64, 32⟩
    element_yellow_rectangle := ⟨0, 0, 64, 32⟩
    element_grey_rectangle := ⟨0, 0, 64, 32⟩
    element_red_rectangle := ⟨0, 0, 64, 32⟩
    element_blue_polygon := ⟨0, 0, 48, 48⟩ }

/-- Start the game and serve at once; one frame of 250 ms, then a render. With the
sprites `tallBallAssets` the ball is then at (715, 725), below the field. -/
def ballBelowFieldRun : List GameEvent :=
  [pressed Key.KEY_ENTER, pressed Key.KEY_SPACE, GameEvent.update 250, GameEvent.render]

/-- Start the game, move the paddle left to x = 93 and serve; the ball is carried in one
frame to (695, 89), where it overlaps the four bricks that meet at (704, 96): yellow 10,
yellow 11, grey 10 and grey 11. A render follows every update. -/
def fourBricksRun : List GameEvent :=
  [pressed Key.KEY_ENTER, pressed Key.KEY_A, GameEvent.update 1100, GameEvent.render,
   pressed Key.KEY_SPACE, GameEvent.update (5600 / 3), GameEvent.render]

/-- Start the game, move the paddle left to x = 93, stop it and serve; the ball is carried
to (714, 70), inside yellow brick 11; the next frame hides that brick, reflects the ball
downwards and carries it to (864, 220), and gem 2, tied to the brick, starts to fall. A
render follows every update. -/
def gemFallingRun : List GameEvent :=
  [pressed Key.KEY_ENTER, pressed Key.KEY_A, GameEvent.update 1100, GameEvent.render,
   released Key.KEY_A, pressed Key.KEY_SPACE, GameEvent.update 1930, GameEvent.render,
   pressed Key.KEY_D, GameEvent.update 500, GameEvent.render]

/-- The game `gemFallingRun`, then P: the game is paused. -/
def pausedGemRun : List GameEvent :=
  gemFallingRun ++ [pressed Key.KEY_P]

/-- The game `gemFallingRun` continued: the ball falls past the paddle and is missed, the
paddle moves right under the falling gem. At the end the ball rests on the paddle, at
(675, 649), and gem 2, at (720, 644), overlaps the paddle, at (633, 670). -/
def gemCatchRun : List GameEvent :=
  gemFallingRun ++ [released Key.KEY_D, GameEvent.update 1700, GameEvent.render,
    pressed Key.KEY_D, GameEvent.update 700, GameEvent.render]

/-- The state `fourBricksRun` reaches with the sample sprites. -/
def fourBricksState : Breakout :=
  Breakout.run seenFalse sampleAssets fourBricksRun

/-- The state `gemFallingRun` reaches with the sample sprites. -/
def gemFallingState : Breakout :=
  Breakout.run seenFalse sampleAssets gemFallingRun

/-- The state `pausedGemRun` reaches with the sample sprites. -/
def pausedGemState : Breakout :=
  Breakout.run seenFalse sampleAssets pausedGemRun

/-- The state `gemCatchRun` reaches with the sample sprites. -/
def gemCatchState : Breakout :=
  Breakout.run seenFalse sampleAssets gemCatchRun

/-- The state `ballBelowFieldRun` reaches with a ball of 22 x 22. -/
def ballBelowFieldState : Breakout :=
  Breakout.run seenFalse tallBallAssets ballBelowFieldRun

/-- The first state of a game with the sample sprites: the menu, cursor on 0. -/
def menuState : Breakout :=
  Breakout.run seenFalse sampleAssets []

/-- The menu of a game with the sample sprites after one release of the left key: cursor
on 1. -/
def menuExitState : Breakout :=
  Breakout.run seenFalse sampleAssets [released Key.KEY_LEFT]

/-- The first playing state of a game with the sample sprites: Enter on the menu. -/
def firstPlayingState : Breakout :=
  Breakout.run seenFalse sampleAssets [pressed Key.KEY_ENTER]

/-- Every image file loads except `paddleRed.png`. -/
def paddleMissing : Textures :=
  { paddleRed := none
    ballBlue := some ⟨0, 0, 20, 20⟩
    element_green_rectangle := some ⟨0, 0, 64, 32⟩
    element_purple_rectangle := some ⟨0, 0, 64, 32⟩
    element_yellow_rectangle := some ⟨0, 0, 64, 32⟩
    element_grey_rectangle := some ⟨0, 0, 64, 32⟩
    element_red_rectangle := some ⟨0, 0, 64, 32⟩
    element_blue_polygon := some ⟨0, 0, 48, 48⟩ }

/-- Every image file loads except `element_blue_polygon.png`, the gems' image. -/
def gemMissing : Textures :=
  { paddleRed := some ⟨0, 0, 104, 24⟩
    ballBlue := some ⟨0, 0, 20, 20⟩
    element_green_rectangle := some ⟨0, 0, 64, 32⟩
    element_purple_rectangle := some ⟨0, 0, 64, 32⟩
    element_yellow_rectangle := some ⟨0, 0, 64, 32⟩
    element_grey_rectangle := some ⟨0, 0, 64, 32⟩
    element_red_rectangle := some ⟨0, 0, 64, 32⟩
    element_blue_polygon := none }


/-- A reading of what a caller gets when `isOverlapping` runs off its end that depends on
the order of the two arguments: `true` exactly when the first sprite starts left of the
second. -/
def seenByOrder : Sprite → Sprite → Bool :=
  fun sprite1 sprite2 => decide (sprite1.xPos < sprite2.xPos)

/-- Sprite sizes with which the five rows of bricks, stacked by `render` from y = 0, end
at or above the height at which `initBall` puts the ball, 720 - 70 = 650: every brick
image is at the engine's origin in y, no brick image has a negative height, and the five
heights add up to at most 650. -/
def Assets.RowsAboveRest (a : Assets) : Prop :=
  (a.element_green_rectangle.yPos = 0 ∧ a.element_purple_rectangle.yPos = 0 ∧
    a.element_yellow_rectangle.yPos = 0 ∧ a.element_grey_rectangle.yPos = 0 ∧
    a.element_red_rectangle.yPos = 0) ∧
  (0 ≤ a.element_green_rectangle.height ∧ 0 ≤ a.element_purple_rectangle.height ∧
    0 ≤ a.element_yellow_rectangle.height ∧ 0 ≤ a.element_grey_rectangle.height ∧
    0 ≤ a.element_red_rectangle.height) ∧
  a.element_green_rectangle.height + a.element_purple_rectangle.height +
    a.element_yellow_rectangle.height + a.element_grey_rectangle.height +
    a.element_red_rectangle.height ≤ 650

instance (a : Assets) : Decidable a.RowsAboveRest := by
  unfold Assets.RowsAboveRest
  infer_instance

/-- The height of the field and the sprites of the bricks, layer by layer (red, grey,
yellow, purple, green). -/
def Breakout.brickBoxes (g : Breakout) :
    ℤ × (Fin brick_num → Sprite) × (Fin brick_num → Sprite) × (Fin brick_num → Sprite) ×
      (Fin brick_num → Sprite) × (Fin brick_num → Sprite) :=
  (g.game_height, fun i => (g.red_bricks i).sprite, fun i => (g.grey_bricks i).sprite,
    fun i => (g.yellow_bricks i).sprite, fun i => (g.purple_bricks i).sprite,
    fun i => (g.green_bricks i).sprite)

/-- Where the bricks are in a game started with the sprites `a`: the field is 720 high,
every brick has the height of its image, the green bricks are at y = 0 and every other
layer is at most as low as the layers `render` stacks above it reach. -/
def Breakout.RowsStacked (a : Assets) (g : Breakout) : Prop :=
  g.game_height = 720 ∧
  ∀ i : Fin brick_num,
    ((g.green_bricks i).sprite.height = a.element_green_rectangle.height ∧
      (g.green_bricks i).sprite.yPos = 0) ∧
    ((g.purple_bricks i).sprite.height = a.element_purple_rectangle.height ∧
      (g.purple_bricks i).sprite.yPos ≤ a.element_green_rectangle.height) ∧
    ((g.yellow_bricks i).sprite.height = a.element_yellow_rectangle.height ∧
      (g.yellow_bricks i).sprite.yPos ≤
        a.element_green_rectangle.height + a.element_purple_rectangle.height) ∧
    ((g.grey_bricks i).sprite.height = a.element_grey_rectangle.height ∧
      (g.grey_bricks i).sprite.yPos ≤
        a.element_green_rectangle.height + a.element_purple_rectangle.height +
          a.element_yellow_rectangle.height) ∧
    ((g.red_bricks i).sprite.height = a.element_red_rectangle.height ∧
      (g.red_bricks i).sprite.yPos ≤
        a.element_green_rectangle.height + a.element_purple_rectangle.height +
          a.element_yellow_rectangle.height + a.element_grey_rectangle.height)

/-- Every brick ends at or above the height at which `initBall` puts the ball. -/
def Breakout.BricksAboveRest (g : Breakout) : Prop :=
  ∀ i : Fin brick_num,
    (g.red_bricks i).sprite.yPos + (g.red_bricks i).sprite.height ≤ (g.game_height : ℚ) - 70 ∧
    (g.grey_bricks i).sprite.yPos + (g.grey_bricks i).sprite.height ≤ (g.game_height : ℚ) - 70 ∧
    (g.yellow_bricks i).sprite.yPos + (g.yellow_bricks i).sprite.height ≤
      (g.game_height : ℚ) - 70 ∧
    (g.purple_bricks i).sprite.yPos + (g.purple_bricks i).sprite.height ≤
      (g.game_height : ℚ) - 70 ∧
    (g.green_bricks i).sprite.yPos + (g.green_bricks i).sprite.height ≤ (g.game_height : ℚ) - 70

/-- A life is left or a brick is visible: the two closing tests of `update` cannot both
have fired. -/
def Breakout.NotBothOver (g : Breakout) : Prop :=
  ¬ (g.lives_count = 0 ∧ g.visibleBricks = 0)

/-- The run of `brickAboutToBreak`: start the game, move the paddle left to x = 93, stop
it, serve; the ball is carried to (714, 70), inside yellow brick 11, which is still
visible. A render follows every update. -/
def brickAboutToBreakRun : List GameEvent :=
  [pressed Key.KEY_ENTER, pressed Key.KEY_A, GameEvent.update 1100, GameEvent.render,
   released Key.KEY_A, pressed Key.KEY_SPACE, GameEvent.update 1930, GameEvent.render]

/-- The state `brickAboutToBreakRun` reaches with the sample sprites. -/
def brickAboutToBreakState : Breakout :=
  Breakout.run seenFalse sampleAssets brickAboutToBreakRun

/-- No collision pass has run yet (three lives), or at least two lives are left and no
brick is visible. -/
def Breakout.LivesLeft (g : Breakout) : Prop :=
  g.lives_count = 3 ∨ (2 ≤ g.lives_count ∧ g.visibleBricks = 0)

/-! ## Loops and counting -/

/-- A property kept by every iteration of a loop holds after the loop. -/
theorem foldl_keeps {α β : Type} (P : β → Prop) (f : β → α → β)
    (hf : ∀ b a, P b → P (f b a)) (l : List α) (b : β) (hb : P b) : P (l.foldl f b) := by
  induction l generalizing b with
  | nil => exact hb
  | cons a l ih => exact ih (f b a) (hf b a hb)

/-- A conjunction whose second part is derived from the first. -/
theorem and_of_left {p q : Prop} (hp : p) (f : p → q) : p ∧ q :=
  ⟨hp, f hp⟩

/-- Hiding a shown entry adds one to the number of hidden entries. -/
theorem countFalse_update_false {n : Nat} (v : Fin n → Bool) (i : Fin n) (h : v i = true) :
    countFalse (Function.update v i false) = countFalse v + 1 := by
  unfold countFalse
  rw [← Finset.add_sum_erase _ _ (Finset.mem_univ i),
    ← Finset.add_sum_erase (Finset.univ) (fun j => if v j then (0 : ℤ) else 1) (Finset.mem_univ i)]
  have hrest : ∑ x ∈ Finset.univ.erase i, (if Function.update v i false x then (0 : ℤ) else 1) =
      ∑ x ∈ Finset.univ.erase i, (if v x then (0 : ℤ) else 1) := by
    apply Finset.sum_congr rfl
    intro x hx
    rw [Function.update_noteq (Finset.ne_of_mem_erase hx)]
  rw [hrest]
  simp [h]
  ring

/-- Shown and hidden objects of an array add up to its length. -/
theorem visibleCount_add_invisibleCount {n : Nat} (row : Fin n → GameObject) :
    visibleCount row + invisibleCount row = n := by
  unfold visibleCount invisibleCount countFalse visOf
  rw [← Finset.sum_add_distrib]
  have : ∀ i : Fin n, ((if (row i).visibility then (1 : ℤ) else 0) +
      (if (row i).visibility then (0 : ℤ) else 1)) = 1 := by
    intro i
    cases (row i).visibility <;> simp
  simp [this]

/-- The number of hidden objects lies between zero and the length of the array. -/
theorem invisibleCount_bounds {n : Nat} (row : Fin n → GameObject) :
    0 ≤ invisibleCount row ∧ invisibleCount row ≤ n := by
  have h1 : 0 ≤ invisibleCount row := by
    unfold invisibleCount countFalse
    apply Finset.sum_nonneg
    intro i _
    split_ifs <;> simp
  have h2 : 0 ≤ visibleCount row := by
    unfold visibleCount
    apply Finset.sum_nonneg
    intro i _
    split_ifs <;> simp
  have h3 := visibleCount_add_invisibleCount row
  exact ⟨h1, by omega⟩

/-- Replacing an object by one of the same visibility leaves the flags as they were. -/
theorem visOf_update_same {n : Nat} (row : Fin n → GameObject) (i : Fin n) (o : GameObject)
    (h : o.visibility = (row i).visibility) : visOf (Function.update row i o) = visOf row := by
  funext j
  unfold visOf
  by_cases hj : j = i
  · subst hj; simp [h]
  · simp [Function.update_noteq hj]

/-- Hiding an object hides its flag. -/
theorem visOf_update_hide {n : Nat} (row : Fin n → GameObject) (i : Fin n) :
    visOf (Function.update row i { row i with visibility := false }) =
      Function.update (visOf row) i false := by
  funext j
  unfold visOf
  by_cases hj : j = i
  · subst hj; simp
  · simp [Function.update_noteq hj]

/-! ## Score and visibility: what each statement leaves alone -/

theorem Breakout.signalExit_tally (g : Breakout) : g.signalExit.tally = g.tally := rfl

theorem Breakout.toggleOption_tally (g : Breakout) (key : KeyEvent) :
    (g.toggleOption key).tally = g.tally := by
  unfold Breakout.toggleOption
  split_ifs <;> rfl

theorem Breakout.keyMenu_tally (g : Breakout) (key : KeyEvent) :
    (g.keyMenu key).tally = g.tally := by
  unfold Breakout.keyMenu
  simp only []
  split_ifs
  · exact (Breakout.signalExit_tally _).trans (Breakout.toggleOption_tally g key)
  · exact Breakout.toggleOption_tally g key
  · exact Breakout.toggleOption_tally g key

theorem Breakout.keyGame_tally (g : Breakout) (key : KeyEvent) :
    (g.keyGame key).tally = g.tally := by
  unfold Breakout.keyGame
  split_ifs <;> rfl

theorem Breakout.keyPause_tally (g : Breakout) (key : KeyEvent) :
    (g.keyPause key).tally = g.tally := by
  unfold Breakout.keyPause
  simp only []
  split_ifs
  · exact (Breakout.signalExit_tally _).trans (Breakout.toggleOption_tally g key)
  · exact Breakout.toggleOption_tally g key
  · exact Breakout.toggleOption_tally g key

theorem Breakout.keyGameOver_tally (g : Breakout) (key : KeyEvent) :
    (g.keyGameOver key).tally = g.tally := by
  unfold Breakout.keyGameOver
  simp only []
  split_ifs
  · exact (Breakout.signalExit_tally _).trans (Breakout.toggleOption_tally g key)
  · exact Breakout.toggleOption_tally g key
  · exact Breakout.toggleOption_tally g key

/-- A step that is run or skipped keeps what the step keeps. -/
theorem ite_keeps {β γ : Type} (p : β → γ) (c : Prop) [Decidable c] (f : β → β) (b : β)
    (hf : ∀ b, p (f b) = p b) : p (if c then f b else b) = p b := by
  split_ifs
  · exact hf b
  · rfl

theorem Breakout.keyHandler_tally (g : Breakout) (key : KeyEvent) :
    (g.keyHandler key).tally = g.tally := by
  unfold Breakout.keyHandler
  simp only []
  rw [ite_keeps Breakout.tally _ (fun b => b.keyGameOver key) _
        (fun b => Breakout.keyGameOver_tally b key),
    ite_keeps Breakout.tally _ (fun b => b.keyPause key) _
        (fun b => Breakout.keyPause_tally b key),
    ite_keeps Breakout.tally _ (fun b => b.keyGame key) _
        (fun b => Breakout.keyGame_tally b key),
    ite_keeps Breakout.tally _ (fun b => b.keyMenu key) _
        (fun b => Breakout.keyMenu_tally b key),
    ite_keeps Breakout.tally _ Breakout.signalExit _ Breakout.signalExit_tally]

theorem Breakout.bounceX_tally (g : Breakout) : g.bounceX.tally = g.tally := rfl

theorem Breakout.bounceY_tally (g : Breakout) : g.bounceY.tally = g.tally := rfl

theorem Breakout.initBall_tally (g : Breakout) : g.initBall.tally = g.tally := rfl

theorem Breakout.collideSides_tally (g : Breakout) : g.collideSides.tally = g.tally := by
  unfold Breakout.collideSides
  split_ifs <;> rfl

theorem Breakout.collideTop_tally (g : Breakout) : g.collideTop.tally = g.tally := by
  unfold Breakout.collideTop
  split_ifs <;> rfl

theorem Breakout.collideBottom_tally (g : Breakout) : g.collideBottom.tally = g.tally := by
  unfold Breakout.collideBottom
  split_ifs <;> rfl

theorem Breakout.collidePaddle_tally (undef : Sprite → Sprite → Bool) (g : Breakout) :
    (g.collidePaddle undef).tally = g.tally := by
  unfold Breakout.collidePaddle
  split_ifs <;> rfl

theorem Breakout.integrate_tally (g : Breakout) (dt_sec : ℚ) :
    (g.integrate dt_sec).tally = g.tally := by
  unfold Breakout.integrate
  simp only []
  split_ifs <;> rfl

theorem Breakout.moveGems_tally (g : Breakout) (dt_sec : ℚ) :
    (g.moveGems dt_sec).tally = g.tally := by
  unfold Breakout.moveGems Breakout.tally
  simp only []
  split_ifs <;> simp [visOf_update_same, GameObject.setYPos]

theorem Breakout.layoutGreen_tally (g : Breakout) (i : Fin brick_num) :
    (g.layoutGreen i).tally = g.tally := by
  unfold Breakout.layoutGreen Breakout.tally
  simp only []
  split_ifs <;> simp [visOf_update_same, GameObject.setXPos]

theorem Breakout.layoutPurple_tally (g : Breakout) (i : Fin brick_num) :
    (g.layoutPurple i).tally = g.tally := by
  unfold Breakout.layoutPurple Breakout.tally
  simp [visOf_update_same, GameObject.setXPos, GameObject.setYPos]

theorem Breakout.layoutYellow_tally (g : Breakout) (i : Fin brick_num) :
    (g.layoutYellow i).tally = g.tally := by
  unfold Breakout.layoutYellow Breakout.tally
  simp [visOf_update_same, GameObject.setXPos, GameObject.setYPos]

theorem Breakout.layoutGrey_tally (g : Breakout) (i : Fin brick_num) :
    (g.layoutGrey i).tally = g.tally := by
  unfold Breakout.layoutGrey Breakout.tally
  simp [visOf_update_same, GameObject.setXPos, GameObject.setYPos]

theorem Breakout.layoutRed_tally (g : Breakout) (i : Fin brick_num) :
    (g.layoutRed i).tally = g.tally := by
  unfold Breakout.layoutRed Breakout.tally
  simp [visOf_update_same, GameObject.setXPos, GameObject.setYPos]

theorem Breakout.layoutAt_tally (g : Breakout) (i : Fin brick_num) :
    (g.layoutAt i).tally = g.tally := by
  unfold Breakout.layoutAt
  rw [Breakout.layoutRed_tally, Breakout.layoutGrey_tally, Breakout.layoutYellow_tally,
    Breakout.layoutPurple_tally, Breakout.layoutGreen_tally]

theorem Breakout.layout_tally (g : Breakout) (l : List (Fin brick_num)) :
    (l.foldl Breakout.layoutAt g).tally = g.tally :=
  foldl_keeps (fun b => b.tally = g.tally) Breakout.layoutAt
    (fun b a hb => (Breakout.layoutAt_tally b a).trans hb) l g rfl

theorem Breakout.render_tally (g : Breakout) : g.render.tally = g.tally := by
  have h5 : ∀ b : Breakout, b.renderWin.tally = b.tally := by
    intro b; unfold Breakout.renderWin; split_ifs <;> rfl
  have h4 : ∀ b : Breakout, b.renderGameOver.tally = b.tally := by
    intro b; unfold Breakout.renderGameOver; split_ifs <;> rfl
  have h3 : ∀ b : Breakout, b.renderPause.tally = b.tally := by
    intro b; unfold Breakout.renderPause; split_ifs <;> rfl
  have h2 : ∀ b : Breakout, b.renderGame.tally = b.tally := by
    intro b
    unfold Breakout.renderGame
    split_ifs
    · simp only []; rw [Breakout.layout_tally]; rfl
    · rfl
  have h1 : ∀ b : Breakout, b.renderMenu.tally = b.tally := by
    intro b; unfold Breakout.renderMenu; split_ifs <;> rfl
  unfold Breakout.render
  rw [h5, h4, h3, h2, h1]

/-! ## Score and visibility: the brick and gem hits -/

theorem Breakout.scoreOK_of_tally {g g' : Breakout} (h : g'.tally = g.tally)
    (hg : g.ScoreOK) : g'.ScoreOK := by
  unfold Breakout.tally at h
  simp only [Prod.mk.injEq] at h
  obtain ⟨h0, h1, h2, h3, h4, h5, h6⟩ := h
  unfold Breakout.ScoreOK Breakout.invisibleBricks Breakout.invisibleGems invisibleCount at *
  rw [h0, h1, h2, h3, h4, h5, h6]
  exact hg

theorem Breakout.collideRed_scoreOK (undef : Sprite → Sprite → Bool) (i : Fin brick_num)
    (g : Breakout) (hg : g.ScoreOK) : (g.collideRed undef i).ScoreOK := by
  unfold Breakout.collideRed
  split_ifs with h
  · have hv : visOf g.red_bricks i = true := by
      simp only [Bool.and_eq_true] at h
      exact h.2
    unfold Breakout.ScoreOK Breakout.invisibleBricks Breakout.invisibleGems invisibleCount at *
    simp only [Breakout.bounceY, GameObject.setVelocity, visOf_update_hide,
      countFalse_update_false _ _ hv]
    omega
  · exact hg

theorem Breakout.collideGrey_scoreOK (undef : Sprite → Sprite → Bool) (i : Fin brick_num)
    (g : Breakout) (hg : g.ScoreOK) : (g.collideGrey undef i).ScoreOK := by
  unfold Breakout.collideGrey
  split_ifs with h
  · have hv : visOf g.grey_bricks i = true := by
      simp only [Bool.and_eq_true] at h
      exact h.2
    unfold Breakout.ScoreOK Breakout.invisibleBricks Breakout.invisibleGems invisibleCount at *
    simp only [Breakout.bounceY, GameObject.setVelocity, visOf_update_hide,
      countFalse_update_false _ _ hv]
    omega
  · exact hg

theorem Breakout.collideYellow_scoreOK (undef : Sprite → Sprite → Bool) (i : Fin brick_num)
    (g : Breakout) (hg : g.ScoreOK) : (g.collideYellow undef i).ScoreOK := by
  unfold Breakout.collideYellow
  split_ifs with h
  · have hv : visOf g.yellow_bricks i = true := by
      simp only [Bool.and_eq_true] at h
      exact h.2
    unfold Breakout.ScoreOK Breakout.invisibleBricks Breakout.invisibleGems invisibleCount at *
    simp only [Breakout.bounceY, GameObject.setVelocity, visOf_update_hide,
      countFalse_update_false _ _ hv]
    omega
  · exact hg

theorem Breakout.collidePurple_scoreOK (undef : Sprite → Sprite → Bool) (i : Fin brick_num)
    (g : Breakout) (hg : g.ScoreOK) : (g.collidePurple undef i).ScoreOK := by
  unfold Breakout.collidePurple
  split_ifs with h
  · have hv : visOf g.purple_bricks i = true := by
      simp only [Bool.and_eq_true] at h
      exact h.2
    unfold Breakout.ScoreOK Breakout.invisibleBricks Breakout.invisibleGems invisibleCount at *
    simp only [Breakout.bounceY, GameObject.setVelocity, visOf_update_hide,
      countFalse_update_false _ _ hv]
    omega
  · exact hg

theorem Breakout.collideGreen_scoreOK (undef : Sprite → Sprite → Bool) (i : Fin brick_num)
    (g : Breakout) (hg : g.ScoreOK) : (g.collideGreen undef i).ScoreOK := by
  unfold Breakout.collideGreen
  split_ifs with h
  · have hv : visOf g.green_bricks i = true := by
      simp only [Bool.and_eq_true] at h
      exact h.2
    unfold Breakout.ScoreOK Breakout.invisibleBricks Breakout.invisibleGems invisibleCount at *
    simp only [Breakout.bounceY, GameObject.setVelocity, visOf_update_hide,
      countFalse_update_false _ _ hv]
    omega
  · exact hg

theorem Breakout.collideGem_scoreOK (undef : Sprite → Sprite → Bool) (g : Breakout) (i : Fin 4)
    (hg : g.ScoreOK) : (g.collideGem undef i).ScoreOK := by
  unfold Breakout.collideGem
  split_ifs with h
  · have hv : visOf g.gems i = true := by
      simp only [Bool.and_eq_true] at h
      exact h.2
    unfold Breakout.ScoreOK Breakout.invisibleBricks Breakout.invisibleGems invisibleCount at *
    simp only [visOf_update_hide, countFalse_update_false _ _ hv]
    omega
  · exact hg

theorem Breakout.collideBricksAt_scoreOK (undef : Sprite → Sprite → Bool) (g : Breakout)
    (i : Fin brick_num) (hg : g.ScoreOK) : (g.collideBricksAt undef i).ScoreOK := by
  unfold Breakout.collideBricksAt
  exact Breakout.collideGreen_scoreOK undef i _ (Breakout.collidePurple_scoreOK undef i _
    (Breakout.collideYellow_scoreOK undef i _ (Breakout.collideGrey_scoreOK undef i _
      (Breakout.collideRed_scoreOK undef i g hg))))

theorem Breakout.collisionDetection_scoreOK (undef : Sprite → Sprite → Bool) (g : Breakout)
    (hg : g.ScoreOK) : (g.collisionDetection undef).ScoreOK := by
  unfold Breakout.collisionDetection
  apply foldl_keeps Breakout.ScoreOK _ (fun b a hb => Breakout.collideGem_scoreOK undef b a hb)
  apply foldl_keeps Breakout.ScoreOK _
    (fun b a hb => Breakout.collideBricksAt_scoreOK undef b a hb)
  apply Breakout.scoreOK_of_tally _ hg
  rw [Breakout.collidePaddle_tally, Breakout.collideBottom_tally, Breakout.collideTop_tally,
    Breakout.collideSides_tally]

theorem Breakout.checkGameOver_tally (g : Breakout) : g.checkGameOver.tally = g.tally := by
  unfold Breakout.checkGameOver
  split_ifs <;> rfl

theorem Breakout.checkWin_tally (g : Breakout) : g.checkWin.tally = g.tally := by
  unfold Breakout.checkWin
  split_ifs <;> rfl

theorem Breakout.updateGame_scoreOK (undef : Sprite → Sprite → Bool) (g : Breakout) (dt_sec : ℚ)
    (hg : g.ScoreOK) : (g.updateGame undef dt_sec).ScoreOK := by
  unfold Breakout.updateGame
  apply Breakout.scoreOK_of_tally _ (Breakout.collisionDetection_scoreOK undef g hg)
  simp only []
  rw [Breakout.checkGameOver_tally, Breakout.integrate_tally]

theorem Breakout.update_scoreOK (undef : Sprite → Sprite → Bool) (g : Breakout) (delta : ℚ)
    (hg : g.ScoreOK) : (g.update undef delta).ScoreOK := by
  unfold Breakout.update
  simp only []
  apply Breakout.scoreOK_of_tally ((Breakout.moveGems_tally _ _).trans (Breakout.checkWin_tally _))
  split_ifs
  · exact Breakout.updateGame_scoreOK undef g _ hg
  · exact hg

theorem Breakout.step_scoreOK (undef : Sprite → Sprite → Bool) (g : Breakout) (e : GameEvent)
    (hg : g.ScoreOK) : (g.step undef e).ScoreOK := by
  cases e with
  | key k => exact Breakout.scoreOK_of_tally (Breakout.keyHandler_tally g k) hg
  | update delta => exact Breakout.update_scoreOK undef g delta hg
  | render => exact Breakout.scoreOK_of_tally (Breakout.render_tally g) hg

/-! ## Score and visibility at start-up -/

theorem Breakout.initBrick_tally (a : Assets) (g : Breakout) (i : Fin brick_num) :
    (g.initBrick a i).tally = g.tally := by
  unfold Breakout.initBrick Breakout.tally
  simp [visOf_update_same, GameObject.initialiseSprite]

theorem Breakout.initGem_tally (a : Assets) (g : Breakout) (i : Fin 4) :
    (g.initGem a i).tally = g.tally := by
  unfold Breakout.initGem Breakout.tally
  simp [visOf_update_same, GameObject.initialiseSprite, GameObject.setWidth,
    GameObject.setHeight]

theorem Breakout.initPaddle_tally (g : Breakout) : g.initPaddle.tally = g.tally := rfl

theorem Breakout.placeGems_tally (g : Breakout) : g.placeGems.tally = g.tally := by
  unfold Breakout.placeGems Breakout.tally
  simp [visOf_update_same, GameObject.setXPos, GameObject.setYPos]

theorem Breakout.initBricks_tally (a : Assets) (g : Breakout) (l : List (Fin brick_num)) :
    (l.foldl (Breakout.initBrick a) g).tally = g.tally :=
  foldl_keeps (fun b => b.tally = g.tally) (Breakout.initBrick a)
    (fun b i hb => (Breakout.initBrick_tally a b i).trans hb) l g rfl

theorem Breakout.initGems_tally (a : Assets) (g : Breakout) (l : List (Fin 4)) :
    (l.foldl (Breakout.initGem a) g).tally = g.tally :=
  foldl_keeps (fun b => b.tally = g.tally) (Breakout.initGem a)
    (fun b i hb => (Breakout.initGem_tally a b i).trans hb) l g rfl

theorem Breakout.initGameObjects_tally (a : Assets) (g : Breakout) :
    (g.initGameObjects a).tally = g.tally := by
  unfold Breakout.initGameObjects
  simp only []
  rw [Breakout.initBall_tally, Breakout.initPaddle_tally, Breakout.placeGems_tally,
    Breakout.initGems_tally, Breakout.initBricks_tally]
  rfl

theorem Breakout.init_tally (a : Assets) : (Breakout.init a).tally = Breakout.new.tally := by
  unfold Breakout.init
  simp only []
  rw [Breakout.initGameObjects_tally]
  rfl

theorem Breakout.new_scoreOK : Breakout.new.ScoreOK := by
  unfold Breakout.ScoreOK Breakout.invisibleBricks Breakout.invisibleGems invisibleCount
    countFalse visOf
  simp [Breakout.new, GameObject.new]

theorem Breakout.run_scoreOK (undef : Sprite → Sprite → Bool) (a : Assets)
    (events : List GameEvent) : (Breakout.run undef a events).ScoreOK := by
  unfold Breakout.run
  exact foldl_keeps Breakout.ScoreOK _ (fun b e hb => Breakout.step_scoreOK undef b e hb) _ _
    (Breakout.scoreOK_of_tally (Breakout.init_tally a) Breakout.new_scoreOK)

/-! ## Flags and lives: what each statement leaves alone -/

theorem Breakout.bounceX_status (g : Breakout) : g.bounceX.status = g.status := rfl

theorem Breakout.bounceY_status (g : Breakout) : g.bounceY.status = g.status := rfl

theorem Breakout.collideSides_status (g : Breakout) : g.collideSides.status = g.status := by
  unfold Breakout.collideSides
  split_ifs <;> rfl

theorem Breakout.collideTop_status (g : Breakout) : g.collideTop.status = g.status := by
  unfold Breakout.collideTop
  split_ifs <;> rfl

theorem Breakout.collidePaddle_status (undef : Sprite → Sprite → Bool) (g : Breakout) :
    (g.collidePaddle undef).status = g.status := by
  unfold Breakout.collidePaddle
  split_ifs <;> rfl

theorem Breakout.collideRed_status (undef : Sprite → Sprite → Bool) (i : Fin brick_num)
    (g : Breakout) : (g.collideRed undef i).status = g.status := by
  unfold Breakout.collideRed
  split_ifs <;> rfl

theorem Breakout.collideGrey_status (undef : Sprite → Sprite → Bool) (i : Fin brick_num)
    (g : Breakout) : (g.collideGrey undef i).status = g.status := by
  unfold Breakout.collideGrey
  split_ifs <;> rfl

theorem Breakout.collideYellow_status (undef : Sprite → Sprite → Bool) (i : Fin brick_num)
    (g : Breakout) : (g.collideYellow undef i).status = g.status := by
  unfold Breakout.collideYellow
  split_ifs <;> rfl

theorem Breakout.collidePurple_status (undef : Sprite → Sprite → Bool) (i : Fin brick_num)
    (g : Breakout) : (g.collidePurple undef i).status = g.status := by
  unfold Breakout.collidePurple
  split_ifs <;> rfl

theorem Breakout.collideGreen_status (undef : Sprite → Sprite → Bool) (i : Fin brick_num)
    (g : Breakout) : (g.collideGreen undef i).status = g.status := by
  unfold Breakout.collideGreen
  split_ifs <;> rfl

theorem Breakout.collideBricksAt_status (undef : Sprite → Sprite → Bool) (g : Breakout)
    (i : Fin brick_num) : (g.collideBricksAt undef i).status = g.status := by
  unfold Breakout.collideBricksAt
  simp only []
  rw [Breakout.collideGreen_status, Breakout.collidePurple_status,
    Breakout.collideYellow_status, Breakout.collideGrey_status, Breakout.collideRed_status]

theorem Breakout.collideGem_status (undef : Sprite → Sprite → Bool) (g : Breakout)
    (i : Fin 4) : (g.collideGem undef i).status = g.status := by
  unfold Breakout.collideGem
  split_ifs <;> rfl

theorem Breakout.collideBricks_status (undef : Sprite → Sprite → Bool) (g : Breakout)
    (l : List (Fin brick_num)) :
    (l.foldl (Breakout.collideBricksAt undef) g).status = g.status :=
  foldl_keeps (fun b => b.status = g.status) _
    (fun b i hb => (Breakout.collideBricksAt_status undef b i).trans hb) l g rfl

theorem Breakout.collideGems_status (undef : Sprite → Sprite → Bool) (g : Breakout)
    (l : List (Fin 4)) : (l.foldl (Breakout.collideGem undef) g).status = g.status :=
  foldl_keeps (fun b => b.status = g.status) _
    (fun b i hb => (Breakout.collideGem_status undef b i).trans hb) l g rfl

/-- The bottom-boundary statement: one life less when the ball is missed, nothing else
of the flags and lives changes. -/
theorem Breakout.collideBottom_status (g : Breakout) :
    g.collideBottom.status =
      (g.modes, if g.ball.sprite.yPos + g.ball.sprite.height ≥ (g.game_height : ℚ) then
        g.lives_count - 1 else g.lives_count) := by
  unfold Breakout.collideBottom
  split_ifs <;> rfl

/-- A collision pass changes no screen flag, and takes one life exactly when the ball's
bottom edge is at or below the bottom of the field. -/
theorem Breakout.collisionDetection_status (undef : Sprite → Sprite → Bool) (g : Breakout) :
    (g.collisionDetection undef).status =
      (g.modes, if g.ball.sprite.yPos + g.ball.sprite.height ≥ (g.game_height : ℚ) then
        g.lives_count - 1 else g.lives_count) := by
  unfold Breakout.collisionDetection
  simp only []
  rw [Breakout.collideGems_status, Breakout.collideBricks_status, Breakout.collidePaddle_status,
    Breakout.collideBottom_status]
  have h1 : g.collideSides.collideTop.modes = g.modes := by
    have := (Breakout.collideTop_status g.collideSides).trans (Breakout.collideSides_status g)
    exact congrArg Prod.fst this
  have h2 : g.collideSides.collideTop.lives_count = g.lives_count := by
    have := (Breakout.collideTop_status g.collideSides).trans (Breakout.collideSides_status g)
    exact congrArg Prod.snd this
  have h3 : g.collideSides.collideTop.ball.sprite = g.ball.sprite := by
    unfold Breakout.collideSides Breakout.collideTop
    split_ifs <;> rfl
  have h4 : g.collideSides.collideTop.game_height = g.game_height := by
    unfold Breakout.collideSides Breakout.collideTop
    split_ifs <;> rfl
  rw [h1, h2, h3, h4]

theorem Breakout.integrate_status (g : Breakout) (dt_sec : ℚ) :
    (g.integrate dt_sec).status = g.status := by
  unfold Breakout.integrate
  simp only []
  split_ifs <;> rfl

theorem Breakout.moveGems_status (g : Breakout) (dt_sec : ℚ) :
    (g.moveGems dt_sec).status = g.status := by
  unfold Breakout.moveGems
  simp only []
  split_ifs <;> rfl

theorem Breakout.layoutAt_status (g : Breakout) (i : Fin brick_num) :
    (g.layoutAt i).status = g.status := by
  unfold Breakout.layoutAt Breakout.layoutRed Breakout.layoutGrey Breakout.layoutYellow
    Breakout.layoutPurple Breakout.layoutGreen
  simp only []
  split_ifs <;> rfl

theorem Breakout.layout_status (g : Breakout) (l : List (Fin brick_num)) :
    (l.foldl Breakout.layoutAt g).status = g.status :=
  foldl_keeps (fun b => b.status = g.status) Breakout.layoutAt
    (fun b a hb => (Breakout.layoutAt_status b a).trans hb) l g rfl

/-! ## The brick count of `update` -/

/-- Number of bricks of index `i`, over the five layers, that are not visible. -/
theorem Breakout.countAt_eq (g : Breakout) (t : ℤ) (i : Fin brick_num) :
    g.countAt t i = t - ((if visOf g.red_bricks i then 0 else 1) +
      (if visOf g.grey_bricks i then 0 else 1) + (if visOf g.yellow_bricks i then 0 else 1) +
      (if visOf g.purple_bricks i then 0 else 1) + (if visOf g.green_bricks i then 0 else 1)) := by
  unfold Breakout.countAt visOf
  cases (g.red_bricks i).visibility <;> cases (g.grey_bricks i).visibility <;>
    cases (g.yellow_bricks i).visibility <;> cases (g.purple_bricks i).visibility <;>
    cases (g.green_bricks i).visibility <;> simp <;> ring

theorem Breakout.countAt_foldl (g : Breakout) (l : List (Fin brick_num)) (t : ℤ) :
    l.foldl g.countAt t = t - (l.map (fun i => ((if visOf g.red_bricks i then (0 : ℤ) else 1) +
      (if visOf g.grey_bricks i then 0 else 1) + (if visOf g.yellow_bricks i then 0 else 1) +
      (if visOf g.purple_bricks i then 0 else 1) +
      (if visOf g.green_bricks i then 0 else 1)))).sum := by
  induction l generalizing t with
  | nil => simp
  | cons a l ih =>
    rw [List.foldl_cons, ih, Breakout.countAt_eq, List.map_cons, List.sum_cons]
    ring

/-- The loop of `update` counts the bricks that are not visible down from `brick_num * 5`. -/
theorem Breakout.total_brick_count_eq (g : Breakout) :
    g.total_brick_count = (brick_num : ℤ) * 5 - g.invisibleBricks := by
  unfold Breakout.total_brick_count
  rw [Breakout.countAt_foldl]
  congr 1
  unfold Breakout.invisibleBricks invisibleCount countFalse
  rw [← Finset.sum_add_distrib, ← Finset.sum_add_distrib, ← Finset.sum_add_distrib,
    ← Finset.sum_add_distrib, Fin.sum_univ_def]

theorem Breakout.visibleBricks_eq (g : Breakout) :
    g.visibleBricks = (brick_num : ℤ) * 5 - g.invisibleBricks := by
  unfold Breakout.visibleBricks Breakout.invisibleBricks
  have h1 := visibleCount_add_invisibleCount g.red_bricks
  have h2 := visibleCount_add_invisibleCount g.grey_bricks
  have h3 := visibleCount_add_invisibleCount g.yellow_bricks
  have h4 := visibleCount_add_invisibleCount g.purple_bricks
  have h5 := visibleCount_add_invisibleCount g.green_bricks
  omega

/-- The local `total_brick_count` of `update` is the number of visible bricks. -/
theorem Breakout.total_brick_count_eq_visibleBricks (g : Breakout) :
    g.total_brick_count = g.visibleBricks := by
  rw [Breakout.total_brick_count_eq, Breakout.visibleBricks_eq]

theorem Breakout.visibleBricks_of_tally {g g' : Breakout} (h : g'.tally = g.tally) :
    g'.visibleBricks = g.visibleBricks := by
  rw [Breakout.visibleBricks_eq, Breakout.visibleBricks_eq]
  unfold Breakout.tally at h
  simp only [Prod.mk.injEq] at h
  obtain ⟨_, h1, h2, h3, h4, h5, _⟩ := h
  unfold Breakout.invisibleBricks invisibleCount
  rw [h1, h2, h3, h4, h5]

/-! ## Flags, lives and bricks: the invariant of every run -/

/-- The invariant speaks of the flags, the lives and the number of visible bricks only. -/
theorem Breakout.inv_of_status {g g' : Breakout} (hs : g'.status = g.status)
    (hv : g'.visibleBricks = g.visibleBricks) (h : g.Inv) : g'.Inv := by
  unfold Breakout.status at hs
  simp only [Prod.mk.injEq] at hs
  obtain ⟨hm, hl⟩ := hs
  unfold Breakout.Inv at *
  rw [hm, hl, hv]
  exact h

theorem invOf_render (m : Bool × Bool × Bool × Bool × Bool) (lives visible : ℤ)
    (h : InvOf m lives visible) : InvOf (renderModes m) lives visible := by
  obtain ⟨a, b, c, d, e⟩ := m
  unfold InvOf renderModes at *
  cases a <;> cases b <;> cases c <;> cases d <;> cases e <;> simp_all

theorem invOf_menuToGame (m : Bool × Bool × Bool × Bool × Bool) (lives visible : ℤ)
    (h : InvOf m lives visible) (hm : m.1 = true) :
    InvOf (false, true, m.2.2.1, m.2.2.2.1, m.2.2.2.2) lives visible := by
  obtain ⟨a, b, c, d, e⟩ := m
  unfold InvOf at *
  cases a <;> cases b <;> cases c <;> cases d <;> cases e <;> simp_all

theorem invOf_gameToPause (m : Bool × Bool × Bool × Bool × Bool) (lives visible : ℤ)
    (h : InvOf m lives visible) (hm : m.2.1 = true) :
    InvOf (m.1, false, true, m.2.2.2.1, m.2.2.2.2) lives visible := by
  obtain ⟨a, b, c, d, e⟩ := m
  unfold InvOf at *
  cases a <;> cases b <;> cases c <;> cases d <;> cases e <;> simp_all

theorem invOf_pauseToGame (m : Bool × Bool × Bool × Bool × Bool) (lives visible : ℤ)
    (h : InvOf m lives visible) (hm : m.2.2.1 = true) :
    InvOf (m.1, true, false, m.2.2.2.1, m.2.2.2.2) lives visible := by
  obtain ⟨a, b, c, d, e⟩ := m
  unfold InvOf at *
  cases a <;> cases b <;> cases c <;> cases d <;> cases e <;> simp_all

theorem invOf_update (m : Bool × Bool × Bool × Bool × Bool) (lives visible lives2 visible2 : ℤ)
    (h : InvOf m lives visible)
    (hl : lives2 = lives ∨ (m.2.1 = true ∧ lives2 = lives - 1))
    (hv : visible2 = visible ∨ m.2.1 = true) :
    InvOf (updateModes m lives2 visible2) lives2 visible2 := by
  obtain ⟨a, b, c, d, e⟩ := m
  unfold InvOf updateModes at *
  by_cases h0 : lives2 = 0 <;> by_cases hv0 : visible2 = 0 <;>
    cases a <;> cases b <;> cases c <;> cases d <;> cases e <;> simp_all <;> omega

theorem Breakout.keyMenu_status (g : Breakout) (key : KeyEvent) :
    (g.keyMenu key).status = g.status ∨
      (g.keyMenu key).status = ((false, true, g.in_pause_menu, g.game_over, g.win),
        g.lives_count) := by
  unfold Breakout.keyMenu Breakout.toggleOption Breakout.signalExit
  simp only []
  split_ifs <;> first | exact Or.inl rfl | exact Or.inr rfl

theorem Breakout.keyGame_status (g : Breakout) (key : KeyEvent) :
    (g.keyGame key).status = g.status ∨
      (g.keyGame key).status = ((g.in_menu, false, true, g.game_over, g.win),
        g.lives_count) := by
  unfold Breakout.keyGame
  simp only []
  split_ifs <;> first | exact Or.inl rfl | exact Or.inr rfl

theorem Breakout.keyPause_status (g : Breakout) (key : KeyEvent) :
    (g.keyPause key).status = g.status ∨
      (g.keyPause key).status = ((g.in_menu, true, false, g.game_over, g.win),
        g.lives_count) := by
  unfold Breakout.keyPause Breakout.toggleOption Breakout.signalExit
  simp only []
  split_ifs <;> first | exact Or.inl rfl | exact Or.inr rfl

theorem Breakout.keyGameOver_status (g : Breakout) (key : KeyEvent) :
    (g.keyGameOver key).status = g.status := by
  unfold Breakout.keyGameOver Breakout.toggleOption Breakout.signalExit
  simp only []
  split_ifs <;> rfl

theorem Breakout.keyMenu_inv (g : Breakout) (key : KeyEvent) (h : g.Inv) :
    (if g.in_menu then g.keyMenu key else g).Inv := by
  split_ifs with hm
  · have hv := Breakout.visibleBricks_of_tally (Breakout.keyMenu_tally g key)
    rcases Breakout.keyMenu_status g key with hs | hs
    · exact Breakout.inv_of_status hs hv h
    · unfold Breakout.status at hs
      simp only [Prod.mk.injEq] at hs
      unfold Breakout.Inv at *
      rw [hs.1, hs.2, hv]
      exact invOf_menuToGame g.modes _ _ h hm
  · exact h

theorem Breakout.keyGame_inv (g : Breakout) (key : KeyEvent) (h : g.Inv) :
    (if g.in_game_screen then g.keyGame key else g).Inv := by
  split_ifs with hm
  · have hv := Breakout.visibleBricks_of_tally (Breakout.keyGame_tally g key)
    rcases Breakout.keyGame_status g key with hs | hs
    · exact Breakout.inv_of_status hs hv h
    · unfold Breakout.status at hs
      simp only [Prod.mk.injEq] at hs
      unfold Breakout.Inv at *
      rw [hs.1, hs.2, hv]
      exact invOf_gameToPause g.modes _ _ h hm
  · exact h

theorem Breakout.keyPause_inv (g : Breakout) (key : KeyEvent) (h : g.Inv) :
    (if g.in_pause_menu then g.keyPause key else g).Inv := by
  split_ifs with hm
  · have hv := Breakout.visibleBricks_of_tally (Breakout.keyPause_tally g key)
    rcases Breakout.keyPause_status g key with hs | hs
    · exact Breakout.inv_of_status hs hv h
    · unfold Breakout.status at hs
      simp only [Prod.mk.injEq] at hs
      unfold Breakout.Inv at *
      rw [hs.1, hs.2, hv]
      exact invOf_pauseToGame g.modes _ _ h hm
  · exact h

theorem Breakout.keyGameOver_inv (g : Breakout) (key : KeyEvent) (h : g.Inv) :
    (if g.game_over then g.keyGameOver key else g).Inv := by
  split_ifs
  · exact Breakout.inv_of_status (Breakout.keyGameOver_status g key)
      (Breakout.visibleBricks_of_tally (Breakout.keyGameOver_tally g key)) h
  · exact h

theorem Breakout.keyHandler_inv (g : Breakout) (key : KeyEvent) (h : g.Inv) :
    (g.keyHandler key).Inv := by
  unfold Breakout.keyHandler
  simp only []
  apply Breakout.keyGameOver_inv
  apply Breakout.keyPause_inv
  apply Breakout.keyGame_inv
  apply Breakout.keyMenu_inv
  split_ifs
  · exact Breakout.inv_of_status rfl rfl h
  · exact h

theorem Breakout.keyHandler_lives (g : Breakout) (key : KeyEvent) :
    (g.keyHandler key).lives_count = g.lives_count := by
  have h1 : ∀ b : Breakout, (if b.game_over then b.keyGameOver key else b).lives_count =
      b.lives_count := by
    intro b
    split_ifs
    · exact congrArg Prod.snd (Breakout.keyGameOver_status b key)
    · rfl
  have h2 : ∀ b : Breakout, (if b.in_pause_menu then b.keyPause key else b).lives_count =
      b.lives_count := by
    intro b
    split_ifs
    · rcases Breakout.keyPause_status b key with hs | hs <;> exact congrArg Prod.snd hs
    · rfl
  have h3 : ∀ b : Breakout, (if b.in_game_screen then b.keyGame key else b).lives_count =
      b.lives_count := by
    intro b
    split_ifs
    · rcases Breakout.keyGame_status b key with hs | hs <;> exact congrArg Prod.snd hs
    · rfl
  have h4 : ∀ b : Breakout, (if b.in_menu then b.keyMenu key else b).lives_count =
      b.lives_count := by
    intro b
    split_ifs
    · rcases Breakout.keyMenu_status b key with hs | hs <;> exact congrArg Prod.snd hs
    · rfl
  unfold Breakout.keyHandler
  simp only []
  rw [h1, h2, h3, h4]
  split_ifs <;> rfl

theorem Breakout.renderMenu_status (b : Breakout) : b.renderMenu.status =
    ((if b.modes.1 then (b.modes.1, false, false, false, false) else b.modes),
      b.lives_count) := by
  unfold Breakout.renderMenu Breakout.status Breakout.modes
  split_ifs <;> rfl

theorem Breakout.renderGame_status (b : Breakout) : b.renderGame.status =
    ((if b.modes.2.1 then (false, b.modes.2.1, false, false, false) else b.modes),
      b.lives_count) := by
  have hm : b.modes.2.1 = b.in_game_screen := rfl
  rw [hm]
  unfold Breakout.renderGame
  by_cases hb : b.in_game_screen = true
  · rw [if_pos hb, if_pos hb]
    simp only []
    rw [Breakout.layout_status]
    rfl
  · rw [if_neg hb, if_neg hb]
    rfl

theorem Breakout.renderPause_status (b : Breakout) : b.renderPause.status =
    ((if b.modes.2.2.1 then (false, false, b.modes.2.2.1, false, false) else b.modes),
      b.lives_count) := by
  unfold Breakout.renderPause Breakout.status Breakout.modes
  split_ifs <;> rfl

theorem Breakout.renderGameOver_status (b : Breakout) : b.renderGameOver.status =
    ((if b.modes.2.2.2.1 then (false, false, false, b.modes.2.2.2.1, false) else b.modes),
      b.lives_count) := by
  unfold Breakout.renderGameOver Breakout.status Breakout.modes
  split_ifs <;> rfl

theorem Breakout.renderWin_status (b : Breakout) : b.renderWin.status =
    ((if b.modes.2.2.2.2 then (false, false, false, false, b.modes.2.2.2.2) else b.modes),
      b.lives_count) := by
  unfold Breakout.renderWin Breakout.status Breakout.modes
  split_ifs <;> rfl

theorem Breakout.status_fst (b : Breakout) : b.status.1 = b.modes := rfl

theorem Breakout.status_snd (b : Breakout) : b.status.2 = b.lives_count := rfl

/-- The flags after `render` are `renderModes` of the flags before; the lives are kept. -/
theorem Breakout.render_status (g : Breakout) :
    g.render.status = (renderModes g.modes, g.lives_count) := by
  unfold Breakout.render
  rw [Breakout.renderWin_status, ← Breakout.status_fst (Breakout.renderGameOver _),
    ← Breakout.status_snd (Breakout.renderGameOver _), Breakout.renderGameOver_status]
  simp only []
  rw [← Breakout.status_fst (Breakout.renderPause _),
    ← Breakout.status_snd (Breakout.renderPause _), Breakout.renderPause_status]
  simp only []
  rw [← Breakout.status_fst (Breakout.renderGame _),
    ← Breakout.status_snd (Breakout.renderGame _), Breakout.renderGame_status]
  simp only []
  rw [← Breakout.status_fst (Breakout.renderMenu _),
    ← Breakout.status_snd (Breakout.renderMenu _), Breakout.renderMenu_status]
  rfl

theorem Breakout.render_inv (g : Breakout) (h : g.Inv) : g.render.Inv := by
  have hs := Breakout.render_status g
  have hv := Breakout.visibleBricks_of_tally (Breakout.render_tally g)
  unfold Breakout.status at hs
  simp only [Prod.mk.injEq] at hs
  unfold Breakout.Inv at *
  rw [hs.1, hs.2, hv]
  exact invOf_render _ _ _ h

theorem Breakout.checkGameOver_status (b : Breakout) : b.checkGameOver.status =
    ((if b.lives_count = 0 then (b.modes.1, false, b.modes.2.2.1, true, b.modes.2.2.2.2)
      else b.modes), b.lives_count) := by
  unfold Breakout.checkGameOver
  by_cases hb : b.lives_count = 0
  · rw [if_pos hb, if_pos hb]
    rfl
  · rw [if_neg hb, if_neg hb]
    rfl

theorem Breakout.checkWin_status (b : Breakout) : b.checkWin.status =
    ((if b.visibleBricks = 0 then (b.modes.1, false, b.modes.2.2.1, b.modes.2.2.2.1, true)
      else b.modes), b.lives_count) := by
  unfold Breakout.checkWin
  rw [Breakout.total_brick_count_eq_visibleBricks]
  by_cases hb : b.visibleBricks = 0
  · rw [if_pos hb, if_pos hb]
    rfl
  · rw [if_neg hb, if_neg hb]
    rfl

/-- The lives after an `update` delivered in state `g`: one less when the ball is missed. -/
theorem Breakout.updateGame_status (undef : Sprite → Sprite → Bool) (g : Breakout) (dt_sec : ℚ) :
    (g.updateGame undef dt_sec).status =
      ((if (if g.ball.sprite.yPos + g.ball.sprite.height ≥ (g.game_height : ℚ) then
            g.lives_count - 1 else g.lives_count) = 0
          then (g.modes.1, false, g.modes.2.2.1, true, g.modes.2.2.2.2) else g.modes),
        (if g.ball.sprite.yPos + g.ball.sprite.height ≥ (g.game_height : ℚ) then
            g.lives_count - 1 else g.lives_count)) := by
  unfold Breakout.updateGame
  simp only []
  rw [Breakout.checkGameOver_status, ← Breakout.status_fst (Breakout.integrate _ _),
    ← Breakout.status_snd (Breakout.integrate _ _), Breakout.integrate_status,
    Breakout.collisionDetection_status]

theorem Breakout.update_visibleBricks (undef : Sprite → Sprite → Bool) (g : Breakout)
    (delta : ℚ) : (g.update undef delta).visibleBricks =
      (if g.in_game_screen then g.updateGame undef (delta / 1000) else g).visibleBricks := by
  unfold Breakout.update
  simp only []
  exact Breakout.visibleBricks_of_tally
    ((Breakout.moveGems_tally _ _).trans (Breakout.checkWin_tally _))

/-- The flags and lives after `update`: the lives drop by one exactly when the ball is
missed, and the flags are `updateModes` of the flags before. -/
theorem Breakout.update_status (undef : Sprite → Sprite → Bool) (g : Breakout) (delta : ℚ) :
    (g.update undef delta).status =
      (updateModes g.modes (if g.missesBall then g.lives_count - 1 else g.lives_count)
          (g.update undef delta).visibleBricks,
        if g.missesBall then g.lives_count - 1 else g.lives_count) := by
  rw [Breakout.update_visibleBricks]
  unfold Breakout.update
  simp only []
  rw [Breakout.moveGems_status, Breakout.checkWin_status]
  unfold updateModes Breakout.missesBall
  have hm : g.modes.2.1 = g.in_game_screen := rfl
  rw [hm]
  by_cases hg : g.in_game_screen = true
  · simp only [hg, if_true, Bool.true_and, decide_eq_true_eq]
    rw [← Breakout.status_fst (Breakout.updateGame _ _ _),
      ← Breakout.status_snd (Breakout.updateGame _ _ _), Breakout.updateGame_status]
  · simp only [hg, if_false, Bool.false_and]
    simp

theorem Breakout.update_inv (undef : Sprite → Sprite → Bool) (g : Breakout) (delta : ℚ)
    (h : g.Inv) : (g.update undef delta).Inv := by
  have hs := Breakout.update_status undef g delta
  unfold Breakout.status at hs
  simp only [Prod.mk.injEq] at hs
  unfold Breakout.Inv at *
  rw [hs.1, hs.2]
  apply invOf_update g.modes g.lives_count g.visibleBricks _ _ h
  · unfold Breakout.missesBall
    by_cases hg : g.in_game_screen = true
    · by_cases hb : g.ball.sprite.yPos + g.ball.sprite.height ≥ (g.game_height : ℚ)
      · right
        simp [hg, hb]
        exact hg
      · left
        simp [hg, hb]
    · left
      simp [hg]
  · by_cases hg : g.in_game_screen = true
    · right
      exact hg
    · left
      rw [Breakout.update_visibleBricks]
      simp [hg]

theorem Breakout.step_inv (undef : Sprite → Sprite → Bool) (g : Breakout) (e : GameEvent)
    (h : g.Inv) : (g.step undef e).Inv := by
  cases e with
  | key k => exact Breakout.keyHandler_inv g k h
  | update delta => exact Breakout.update_inv undef g delta h
  | render => exact Breakout.render_inv g h

/-! ## The invariant at start-up and along a run -/

theorem Breakout.initBrick_status (a : Assets) (g : Breakout) (i : Fin brick_num) :
    (g.initBrick a i).status = g.status := rfl

theorem Breakout.initGem_status (a : Assets) (g : Breakout) (i : Fin 4) :
    (g.initGem a i).status = g.status := rfl

theorem Breakout.initBricks_status (a : Assets) (g : Breakout) (l : List (Fin brick_num)) :
    (l.foldl (Breakout.initBrick a) g).status = g.status :=
  foldl_keeps (fun b => b.status = g.status) (Breakout.initBrick a)
    (fun b i hb => (Breakout.initBrick_status a b i).trans hb) l g rfl

theorem Breakout.initGems_status (a : Assets) (g : Breakout) (l : List (Fin 4)) :
    (l.foldl (Breakout.initGem a) g).status = g.status :=
  foldl_keeps (fun b => b.status = g.status) (Breakout.initGem a)
    (fun b i hb => (Breakout.initGem_status a b i).trans hb) l g rfl

theorem Breakout.initGameObjects_status (a : Assets) (g : Breakout) :
    (g.initGameObjects a).status = g.status := by
  unfold Breakout.initGameObjects
  simp only []
  have h1 : ∀ b : Breakout, b.placeGems.initPaddle.initBall.status = b.status := fun _ => rfl
  rw [h1, Breakout.initGems_status, Breakout.initBricks_status]
  rfl

theorem Breakout.init_status (a : Assets) :
    (Breakout.init a).status = ((true, false, false, false, false), 3) := by
  unfold Breakout.init
  simp only []
  rw [Breakout.initGameObjects_status]
  rfl

theorem Breakout.init_visibleBricks (a : Assets) : (Breakout.init a).visibleBricks = 100 := by
  rw [Breakout.visibleBricks_of_tally (Breakout.init_tally a)]
  unfold Breakout.visibleBricks visibleCount
  simp [Breakout.new, GameObject.new]

theorem Breakout.init_inv (a : Assets) : (Breakout.init a).Inv := by
  have hs := Breakout.init_status a
  unfold Breakout.status at hs
  simp only [Prod.mk.injEq] at hs
  unfold Breakout.Inv
  rw [hs.1, hs.2, Breakout.init_visibleBricks]
  unfold InvOf
  simp

theorem Breakout.run_inv (undef : Sprite → Sprite → Bool) (a : Assets)
    (events : List GameEvent) : (Breakout.run undef a events).Inv := by
  unfold Breakout.run
  exact foldl_keeps Breakout.Inv _ (fun b e hb => Breakout.step_inv undef b e hb) _ _
    (Breakout.init_inv a)

/-- Counting the missed balls does not change the run. -/
theorem Breakout.stepCounting_fst (undef : Sprite → Sprite → Bool) (events : List GameEvent)
    (p : Breakout × Nat) :
    (events.foldl (Breakout.stepCounting undef) p).1 = events.foldl (Breakout.step undef) p.1 := by
  induction events generalizing p with
  | nil => rfl
  | cons e l ih =>
    rw [List.foldl_cons, List.foldl_cons, ih]
    cases e <;> rfl

theorem Breakout.update_lives (undef : Sprite → Sprite → Bool) (g : Breakout) (delta : ℚ) :
    (g.update undef delta).lives_count =
      if g.missesBall then g.lives_count - 1 else g.lives_count :=
  congrArg Prod.snd (Breakout.update_status undef g delta)

theorem Breakout.render_lives (g : Breakout) : g.render.lives_count = g.lives_count :=
  congrArg Prod.snd (Breakout.render_status g)

/-- Along a run the lives are three minus the number of missed balls. -/
theorem Breakout.lives_eq_three_sub_missed (undef : Sprite → Sprite → Bool) (a : Assets)
    (events : List GameEvent) :
    (Breakout.run undef a events).lives_count = 3 - (Breakout.missedBalls undef a events : ℤ) := by
  have key : ∀ (l : List GameEvent) (p : Breakout × Nat), p.1.lives_count = 3 - (p.2 : ℤ) →
      (l.foldl (Breakout.stepCounting undef) p).1.lives_count =
        3 - ((l.foldl (Breakout.stepCounting undef) p).2 : ℤ) := by
    intro l p hp
    apply foldl_keeps (fun q : Breakout × Nat => q.1.lives_count = 3 - (q.2 : ℤ)) _ _ l p hp
    intro q e hq
    cases e with
    | key k =>
      show (q.1.keyHandler k).lives_count = 3 - (q.2 : ℤ)
      rw [Breakout.keyHandler_lives]
      exact hq
    | update delta =>
      show (q.1.update undef delta).lives_count =
        3 - ((if q.1.missesBall then q.2 + 1 else q.2 : Nat) : ℤ)
      rw [Breakout.update_lives]
      split_ifs
      · push_cast
        omega
      · exact hq
    | render =>
      show q.1.render.lives_count = 3 - (q.2 : ℤ)
      rw [Breakout.render_lives]
      exact hq
  have h := key events (Breakout.init a, 0) (by
    show (Breakout.init a).lives_count = 3 - ((0 : Nat) : ℤ)
    have := congrArg Prod.snd (Breakout.init_status a)
    simp only [Breakout.status] at this
    rw [this]
    simp)
  rw [Breakout.stepCounting_fst] at h
  exact h

/-- An array with no visible object has every object hidden. -/
theorem visibleCount_eq_zero {n : Nat} (row : Fin n → GameObject) (h : visibleCount row = 0)
    (i : Fin n) : (row i).visibility = false := by
  unfold visibleCount at h
  have h2 := (Finset.sum_eq_zero_iff_of_nonneg (fun j _ => by split_ifs <;> simp)).mp h i
    (Finset.mem_univ i)
  by_contra hc
  simp [hc] at h2

theorem visibleCount_nonneg {n : Nat} (row : Fin n → GameObject) : 0 ≤ visibleCount row := by
  unfold visibleCount
  apply Finset.sum_nonneg
  intro i _
  split_ifs <;> simp

/-- No visible brick over the five layers: each brick of each layer is hidden. -/
theorem Breakout.all_hidden_of_visibleBricks_eq_zero (g : Breakout) (h : g.visibleBricks = 0)
    (i : Fin brick_num) :
    (g.red_bricks i).visibility = false ∧ (g.grey_bricks i).visibility = false ∧
      (g.yellow_bricks i).visibility = false ∧ (g.purple_bricks i).visibility = false ∧
      (g.green_bricks i).visibility = false := by
  unfold Breakout.visibleBricks at h
  have h1 := visibleCount_nonneg g.red_bricks
  have h2 := visibleCount_nonneg g.grey_bricks
  have h3 := visibleCount_nonneg g.yellow_bricks
  have h4 := visibleCount_nonneg g.purple_bricks
  have h5 := visibleCount_nonneg g.green_bricks
  exact ⟨visibleCount_eq_zero _ (by omega) i, visibleCount_eq_zero _ (by omega) i,
    visibleCount_eq_zero _ (by omega) i, visibleCount_eq_zero _ (by omega) i,
    visibleCount_eq_zero _ (by omega) i⟩

/-! ## The paddle and the field: what a collision pass and the closing tests leave alone -/

theorem Breakout.collideSides_court (g : Breakout) :
    (g.collideSides).court = g.court := by
  unfold Breakout.collideSides
  split_ifs <;> rfl

theorem Breakout.collideTop_court (g : Breakout) :
    (g.collideTop).court = g.court := by
  unfold Breakout.collideTop
  split_ifs <;> rfl

theorem Breakout.collideBottom_court (g : Breakout) :
    (g.collideBottom).court = g.court := by
  unfold Breakout.collideBottom
  split_ifs <;> rfl

theorem Breakout.collidePaddle_court (undef : Sprite → Sprite → Bool) (g : Breakout) :
    (g.collidePaddle undef).court = g.court := by
  unfold Breakout.collidePaddle
  split_ifs <;> rfl

theorem Breakout.collideRed_court (undef : Sprite → Sprite → Bool) (i : Fin brick_num)
    (g : Breakout) : (g.collideRed undef i).court = g.court := by
  unfold Breakout.collideRed
  split_ifs <;> rfl

theorem Breakout.collideGrey_court (undef : Sprite → Sprite → Bool) (i : Fin brick_num)
    (g : Breakout) : (g.collideGrey undef i).court = g.court := by
  unfold Breakout.collideGrey
  split_ifs <;> rfl

theorem Breakout.collideYellow_court (undef : Sprite → Sprite → Bool) (i : Fin brick_num)
    (g : Breakout) : (g.collideYellow undef i).court = g.court := by
  unfold Breakout.collideYellow
  split_ifs <;> rfl

theorem Breakout.collidePurple_court (undef : Sprite → Sprite → Bool) (i : Fin brick_num)
    (g : Breakout) : (g.collidePurple undef i).court = g.court := by
  unfold Breakout.collidePurple
  split_ifs <;> rfl

theorem Breakout.collideGreen_court (undef : Sprite → Sprite → Bool) (i : Fin brick_num)
    (g : Breakout) : (g.collideGreen undef i).court = g.court := by
  unfold Breakout.collideGreen
  split_ifs <;> rfl

theorem Breakout.collideBricksAt_court (undef : Sprite → Sprite → Bool) (g : Breakout)
    (i : Fin brick_num) : (g.collideBricksAt undef i).court = g.court := by
  unfold Breakout.collideBricksAt
  simp only []
  rw [Breakout.collideGreen_court, Breakout.collidePurple_court, Breakout.collideYellow_court,
    Breakout.collideGrey_court, Breakout.collideRed_court]

theorem Breakout.collideGem_court (undef : Sprite → Sprite → Bool) (g : Breakout) (i : Fin 4) :
    (g.collideGem undef i).court = g.court := by
  unfold Breakout.collideGem
  split_ifs <;> rfl

theorem Breakout.checkGameOver_court (g : Breakout) :
    (g.checkGameOver).court = g.court := by
  unfold Breakout.checkGameOver
  split_ifs <;> rfl

theorem Breakout.checkWin_court (g : Breakout) :
    (g.checkWin).court = g.court := by
  unfold Breakout.checkWin
  split_ifs <;> rfl

theorem Breakout.moveGems_court (g : Breakout) (dt_sec : ℚ) :
    (g.moveGems dt_sec).court = g.court := by
  unfold Breakout.moveGems
  simp only []
  split_ifs <;> rfl

theorem Breakout.collisionDetection_court (undef : Sprite → Sprite → Bool) (g : Breakout) :
    (g.collisionDetection undef).court = g.court := by
  unfold Breakout.collisionDetection
  simp only []
  rw [foldl_keeps (fun b => b.court = g.court) (Breakout.collideGem undef)
    (fun b i hb => (Breakout.collideGem_court undef b i).trans hb)]
  apply foldl_keeps (fun b => b.court = g.court) (Breakout.collideBricksAt undef)
    (fun b i hb => (Breakout.collideBricksAt_court undef b i).trans hb)
  rw [Breakout.collidePaddle_court, Breakout.collideBottom_court, Breakout.collideTop_court,
    Breakout.collideSides_court]

/-- The paddle after `integrate`: moved by its velocity, then clamped at the left, then
at the right. -/
theorem Breakout.integrate_paddle_xPos (g : Breakout) (dt_sec : ℚ) :
    (g.integrate dt_sec).paddle.sprite.xPos =
      (if (if g.paddle.sprite.xPos + g.paddle.velocity.x * dt_sec ≤ 0 then 0
            else g.paddle.sprite.xPos + g.paddle.velocity.x * dt_sec) + g.paddle.sprite.width ≥
            (g.game_width : ℚ)
        then (g.game_width : ℚ) - g.paddle.sprite.width
        else (if g.paddle.sprite.xPos + g.paddle.velocity.x * dt_sec ≤ 0 then 0
            else g.paddle.sprite.xPos + g.paddle.velocity.x * dt_sec)) := by
  unfold Breakout.integrate GameObject.setXPos GameObject.setYPos
  simp only []
  split_ifs <;> simp_all

theorem Breakout.integrate_paddle_rest (g : Breakout) (dt_sec : ℚ) :
    (g.integrate dt_sec).paddle.sprite.width = g.paddle.sprite.width ∧
      (g.integrate dt_sec).game_width = g.game_width := by
  unfold Breakout.integrate GameObject.setXPos GameObject.setYPos
  simp only []
  split_ifs <;> exact ⟨rfl, rfl⟩

/-- The paddle after an `update` on the playing screen is the paddle after `integrate`
applied to the state the collision pass leaves. -/
theorem Breakout.update_paddle (undef : Sprite → Sprite → Bool) (g : Breakout) (delta : ℚ)
    (hg : g.in_game_screen = true) :
    (g.update undef delta).court = ((g.collisionDetection undef).integrate (delta / 1000)).court := by
  unfold Breakout.update
  simp only [hg, if_true]
  rw [Breakout.moveGems_court, Breakout.checkWin_court]
  unfold Breakout.updateGame
  simp only []
  rw [Breakout.checkGameOver_court]


theorem Breakout.eq_of_court {g g' : Breakout} (h : g'.court = g.court) :
    g'.paddle = g.paddle ∧ g'.game_width = g.game_width ∧ g'.game_height = g.game_height := by
  unfold Breakout.court at h
  simp only [Prod.mk.injEq] at h
  exact h

/-! ## The ball velocity through a collision pass -/

theorem Breakout.bounceY_movesX (c : ℚ) (g : Breakout) (h : g.MovesX c) : g.bounceY.MovesX c :=
  ⟨h.1, h.1⟩

theorem Breakout.collideTop_movesX (c : ℚ) (g : Breakout) (h : g.MovesX c) :
    g.collideTop.MovesX c := by
  unfold Breakout.collideTop
  split_ifs
  · exact ⟨h.1, h.1⟩
  · exact h

theorem Breakout.collidePaddle_movesX (undef : Sprite → Sprite → Bool) (c : ℚ) (g : Breakout)
    (h : g.MovesX c) : (g.collidePaddle undef).MovesX c := by
  unfold Breakout.collidePaddle
  split_ifs
  · exact ⟨h.1, h.1⟩
  · exact h

theorem Breakout.collideRed_movesX (undef : Sprite → Sprite → Bool) (c : ℚ) (i : Fin brick_num)
    (g : Breakout) (h : g.MovesX c) : (g.collideRed undef i).MovesX c := by
  unfold Breakout.collideRed
  split_ifs
  · exact ⟨h.1, h.1⟩
  · exact h

theorem Breakout.collideGrey_movesX (undef : Sprite → Sprite → Bool) (c : ℚ) (i : Fin brick_num)
    (g : Breakout) (h : g.MovesX c) : (g.collideGrey undef i).MovesX c := by
  unfold Breakout.collideGrey
  split_ifs
  · exact ⟨h.1, h.1⟩
  · exact h

theorem Breakout.collideYellow_movesX (undef : Sprite → Sprite → Bool) (c : ℚ) (i : Fin brick_num)
    (g : Breakout) (h : g.MovesX c) : (g.collideYellow undef i).MovesX c := by
  unfold Breakout.collideYellow
  split_ifs
  · exact ⟨h.1, h.1⟩
  · exact h

theorem Breakout.collidePurple_movesX (undef : Sprite → Sprite → Bool) (c : ℚ) (i : Fin brick_num)
    (g : Breakout) (h : g.MovesX c) : (g.collidePurple undef i).MovesX c := by
  unfold Breakout.collidePurple
  split_ifs
  · exact ⟨h.1, h.1⟩
  · exact h

theorem Breakout.collideGreen_movesX (undef : Sprite → Sprite → Bool) (c : ℚ) (i : Fin brick_num)
    (g : Breakout) (h : g.MovesX c) : (g.collideGreen undef i).MovesX c := by
  unfold Breakout.collideGreen
  split_ifs
  · exact ⟨h.1, h.1⟩
  · exact h

theorem Breakout.collideBricksAt_movesX (undef : Sprite → Sprite → Bool) (c : ℚ) (g : Breakout)
    (i : Fin brick_num) (h : g.MovesX c) : (g.collideBricksAt undef i).MovesX c := by
  unfold Breakout.collideBricksAt
  exact Breakout.collideGreen_movesX undef c i _ (Breakout.collidePurple_movesX undef c i _
    (Breakout.collideYellow_movesX undef c i _ (Breakout.collideGrey_movesX undef c i _
      (Breakout.collideRed_movesX undef c i g h))))

theorem Breakout.collideGem_motion (undef : Sprite → Sprite → Bool) (g : Breakout) (i : Fin 4) :
    (g.collideGem undef i).motion = g.motion := by
  unfold Breakout.collideGem
  split_ifs <;> rfl

theorem Breakout.collideGems_motion (undef : Sprite → Sprite → Bool) (g : Breakout)
    (l : List (Fin 4)) : (l.foldl (Breakout.collideGem undef) g).motion = g.motion :=
  foldl_keeps (fun b => b.motion = g.motion) _
    (fun b i hb => (Breakout.collideGem_motion undef b i).trans hb) l g rfl

theorem Breakout.movesX_of_motion {c : ℚ} {g g' : Breakout} (hm : g'.motion = g.motion)
    (h : g.MovesX c) : g'.MovesX c := by
  unfold Breakout.motion at hm
  simp only [Prod.mk.injEq] at hm
  unfold Breakout.MovesX at *
  rw [hm.1, hm.2.2]
  exact h

/-- A pass in which the ball touches the left or right boundary and is not missed ends
with `ball_velocity_x` negated once, and the ball object moving with it. -/
theorem Breakout.collisionDetection_movesX (undef : Sprite → Sprite → Bool) (g : Breakout)
    (hside : g.ball.sprite.xPos ≤ 0 ∨ g.ball.sprite.xPos + g.ball.sprite.width ≥ (g.game_width : ℚ))
    (hb : ¬ g.ball.sprite.yPos + g.ball.sprite.height ≥ (g.game_height : ℚ)) :
    (g.collisionDetection undef).MovesX (-g.ball_velocity_x) := by
  unfold Breakout.collisionDetection
  simp only []
  apply Breakout.movesX_of_motion (Breakout.collideGems_motion undef _ _)
  apply foldl_keeps (Breakout.MovesX (-g.ball_velocity_x)) _
    (fun b i hb => Breakout.collideBricksAt_movesX undef _ b i hb)
  apply Breakout.collidePaddle_movesX
  have h1 : g.collideSides = g.bounceX := by
    unfold Breakout.collideSides
    rw [if_pos hside]
  have h2 : g.bounceX.MovesX (-g.ball_velocity_x) := by
    unfold Breakout.MovesX Breakout.bounceX GameObject.setVelocity
    simp
  have h3 : g.collideSides.collideTop.MovesX (-g.ball_velocity_x) := by
    rw [h1]
    exact Breakout.collideTop_movesX _ _ h2
  have h4 : g.collideSides.collideTop.ball.sprite = g.ball.sprite := by
    unfold Breakout.collideSides Breakout.collideTop
    split_ifs <;> rfl
  have h5 : g.collideSides.collideTop.game_height = g.game_height := by
    unfold Breakout.collideSides Breakout.collideTop
    split_ifs <;> rfl
  have h6 : g.collideSides.collideTop.collideBottom = g.collideSides.collideTop := by
    unfold Breakout.collideBottom
    rw [h4, h5, if_neg hb]
  rw [h6]
  exact h3

/-- A pass that sees no brick hit leaves the brick loop without effect. -/
theorem Breakout.collideBricks_of_hitsNoBrick (undef : Sprite → Sprite → Bool) (g : Breakout)
    (h : g.hitsNoBrick undef) (l : List (Fin brick_num)) :
    l.foldl (Breakout.collideBricksAt undef) g = g := by
  apply foldl_keeps (fun b => b = g) _ _ l g rfl
  intro b i hb
  subst hb
  obtain ⟨h1, h2, h3, h4, h5⟩ := h i
  unfold Breakout.collideBricksAt
  simp only []
  have e1 : b.collideRed undef i = b := by
    unfold Breakout.collideRed
    rw [h1]
    rfl
  have e2 : b.collideGrey undef i = b := by
    unfold Breakout.collideGrey
    rw [h2]
    rfl
  have e3 : b.collideYellow undef i = b := by
    unfold Breakout.collideYellow
    rw [h3]
    rfl
  have e4 : b.collidePurple undef i = b := by
    unfold Breakout.collidePurple
    rw [h4]
    rfl
  have e5 : b.collideGreen undef i = b := by
    unfold Breakout.collideGreen
    rw [h5]
    rfl
  rw [e1, e2, e3, e4, e5]

/-- The velocity after a pass in which the ball touches nothing but, possibly, the
boundaries: only the boundary statements act on it. -/
theorem Breakout.collisionDetection_motion_of_no_hit (undef : Sprite → Sprite → Bool)
    (g : Breakout)
    (hbottom : ¬ g.ball.sprite.yPos + g.ball.sprite.height ≥ (g.game_height : ℚ))
    (hpaddle : Breakout.overlapSeen undef g.paddle.sprite g.ball.sprite = false)
    (hbricks : g.hitsNoBrick undef) :
    (g.collisionDetection undef).motion = g.collideSides.collideTop.motion := by
  have h4 : g.collideSides.collideTop.ball.sprite = g.ball.sprite := by
    unfold Breakout.collideSides Breakout.collideTop
    split_ifs <;> rfl
  have h5 : g.collideSides.collideTop.court = g.court := by
    rw [Breakout.collideTop_court, Breakout.collideSides_court]
  have h5a : g.collideSides.collideTop.game_height = g.game_height :=
    congrArg (fun c => c.2.2) h5
  have h5b : g.collideSides.collideTop.paddle = g.paddle := congrArg (fun c => c.1) h5
  have h6 : g.collideSides.collideTop.collideBottom = g.collideSides.collideTop := by
    unfold Breakout.collideBottom
    rw [h4, h5a, if_neg hbottom]
  have h7 : g.collideSides.collideTop.collidePaddle undef = g.collideSides.collideTop := by
    unfold Breakout.collidePaddle
    rw [h4, h5b, hpaddle]
    rfl
  have h8 : g.collideSides.collideTop.hitsNoBrick undef := by
    have e : g.collideSides.collideTop.red_bricks = g.red_bricks ∧
        g.collideSides.collideTop.grey_bricks = g.grey_bricks ∧
        g.collideSides.collideTop.yellow_bricks = g.yellow_bricks ∧
        g.collideSides.collideTop.purple_bricks = g.purple_bricks ∧
        g.collideSides.collideTop.green_bricks = g.green_bricks := by
      unfold Breakout.collideSides Breakout.collideTop
      split_ifs <;> exact ⟨rfl, rfl, rfl, rfl, rfl⟩
    unfold Breakout.hitsNoBrick at *
    rw [h4, e.1, e.2.1, e.2.2.1, e.2.2.2.1, e.2.2.2.2]
    exact hbricks
  unfold Breakout.collisionDetection
  simp only []
  rw [Breakout.collideGems_motion, h6, h7, Breakout.collideBricks_of_hitsNoBrick undef _ h8]

/-! ## Key events on a known screen -/

theorem Breakout.modes_of_in_menu (g : Breakout) (h : g.Inv) (hm : g.in_menu = true) :
    g.modes = (true, false, false, false, false) := by
  unfold Breakout.Inv InvOf at h
  obtain ⟨-, hc, -⟩ := h
  unfold Breakout.modes at *
  rcases hc with hc | hc | hc | hc <;> simp_all [Prod.mk.injEq]

theorem Breakout.modes_of_in_game_screen (g : Breakout) (h : g.Inv)
    (hm : g.in_game_screen = true) : g.modes = (false, true, false, false, false) := by
  unfold Breakout.Inv InvOf at h
  obtain ⟨-, hc, -⟩ := h
  unfold Breakout.modes at *
  rcases hc with hc | hc | hc | hc <;> simp_all [Prod.mk.injEq]

theorem Breakout.modes_of_in_pause_menu (g : Breakout) (h : g.Inv)
    (hm : g.in_pause_menu = true) : g.modes = (false, false, true, false, false) := by
  unfold Breakout.Inv InvOf at h
  obtain ⟨-, hc, -⟩ := h
  unfold Breakout.modes at *
  rcases hc with hc | hc | hc | hc <;> simp_all [Prod.mk.injEq]

theorem Breakout.modes_of_game_over (g : Breakout) (h : g.Inv) (hm : g.game_over = true) :
    g.in_menu = false ∧ g.in_game_screen = false ∧ g.in_pause_menu = false := by
  unfold Breakout.Inv InvOf at h
  obtain ⟨-, hc, -⟩ := h
  unfold Breakout.modes at *
  rcases hc with hc | hc | hc | hc <;> simp_all [Prod.mk.injEq]

/-- A left or right release on a screen with a cursor, the flags being as they are in a
run: exactly one of the three cursor blocks of `keyHandler` runs, and only `menu_option`
changes. -/
theorem Breakout.keyHandler_toggle (g : Breakout) (h : g.Inv) (k : Key)
    (hk : k = Key.KEY_LEFT ∨ k = Key.KEY_RIGHT)
    (hs : g.in_menu = true ∨ g.in_pause_menu = true ∨ g.game_over = true) :
    g.keyHandler ⟨k, KeyAction.KEY_RELEASED⟩ = { g with menu_option := 1 - g.menu_option } := by
  have hflags : (g.in_menu = true ∧ g.in_game_screen = false ∧ g.in_pause_menu = false ∧
        g.game_over = false) ∨
      (g.in_menu = false ∧ g.in_game_screen = false ∧ g.in_pause_menu = true ∧
        g.game_over = false) ∨
      (g.in_menu = false ∧ g.in_game_screen = false ∧ g.in_pause_menu = false ∧
        g.game_over = true) := by
    rcases hs with hs | hs | hs
    · have := Breakout.modes_of_in_menu g h hs
      unfold Breakout.modes at this
      simp only [Prod.mk.injEq] at this
      exact Or.inl ⟨this.1, this.2.1, this.2.2.1, this.2.2.2.1⟩
    · have := Breakout.modes_of_in_pause_menu g h hs
      unfold Breakout.modes at this
      simp only [Prod.mk.injEq] at this
      exact Or.inr (Or.inl ⟨this.1, this.2.1, this.2.2.1, this.2.2.2.1⟩)
    · have := Breakout.modes_of_game_over g h hs
      exact Or.inr (Or.inr ⟨this.1, this.2.1, this.2.2, hs⟩)
  rcases hk with rfl | rfl <;> rcases hflags with ⟨a, b, c, d⟩ | ⟨a, b, c, d⟩ | ⟨a, b, c, d⟩ <;>
    simp [Breakout.keyHandler, Breakout.keyMenu, Breakout.keyGame, Breakout.keyPause,
      Breakout.keyGameOver, Breakout.toggleOption, a, b, c, d]

/-- Enter on the menu screen, the only flag set: with the cursor on 1 only the exit
signal is set; otherwise only the flags `in_menu` and `in_game_screen` change. -/
theorem Breakout.keyHandler_menu_enter (g : Breakout)
    (hm : g.modes = (true, false, false, false, false)) (action : KeyAction) :
    (g.menu_option = 1 → g.keyHandler ⟨Key.KEY_ENTER, action⟩ = { g with exit := true }) ∧
    (g.menu_option ≠ 1 → g.keyHandler ⟨Key.KEY_ENTER, action⟩ =
      { g with in_menu := false, in_game_screen := true }) := by
  unfold Breakout.modes at hm
  simp only [Prod.mk.injEq] at hm
  obtain ⟨a, b, c, d, -⟩ := hm
  constructor
  · intro h1
    simp [Breakout.keyHandler, Breakout.keyMenu, Breakout.keyGame, Breakout.keyPause,
      Breakout.keyGameOver, Breakout.toggleOption, Breakout.signalExit, a, b, c, d, h1]
  · intro h1
    simp [Breakout.keyHandler, Breakout.keyMenu, Breakout.keyGame, Breakout.keyPause,
      Breakout.keyGameOver, Breakout.toggleOption, Breakout.signalExit, a, b, c, d, h1]

/-- P on the playing screen, the only flag set: only the flags `in_game_screen` and
`in_pause_menu` change. -/
theorem Breakout.keyHandler_game_p (g : Breakout)
    (hm : g.modes = (false, true, false, false, false)) (action : KeyAction) :
    g.keyHandler ⟨Key.KEY_P, action⟩ = { g with in_game_screen := false, in_pause_menu := true } := by
  unfold Breakout.modes at hm
  simp only [Prod.mk.injEq] at hm
  obtain ⟨a, b, c, d, -⟩ := hm
  simp [Breakout.keyHandler, Breakout.keyMenu, Breakout.keyGame, Breakout.keyPause,
    Breakout.keyGameOver, Breakout.toggleOption, Breakout.signalExit, a, b, c, d]

/-- Enter on the pause screen, the only flag set: with the cursor on 1 only the exit
signal is set; otherwise only the flags `in_pause_menu` and `in_game_screen` change. -/
theorem Breakout.keyHandler_pause_enter (g : Breakout)
    (hm : g.modes = (false, false, true, false, false)) (action : KeyAction) :
    (g.menu_option = 1 → g.keyHandler ⟨Key.KEY_ENTER, action⟩ = { g with exit := true }) ∧
    (g.menu_option ≠ 1 → g.keyHandler ⟨Key.KEY_ENTER, action⟩ =
      { g with in_pause_menu := false, in_game_screen := true }) := by
  unfold Breakout.modes at hm
  simp only [Prod.mk.injEq] at hm
  obtain ⟨a, b, c, d, -⟩ := hm
  constructor
  · intro h1
    simp [Breakout.keyHandler, Breakout.keyMenu, Breakout.keyGame, Breakout.keyPause,
      Breakout.keyGameOver, Breakout.toggleOption, Breakout.signalExit, a, b, c, d, h1]
  · intro h1
    simp [Breakout.keyHandler, Breakout.keyMenu, Breakout.keyGame, Breakout.keyPause,
      Breakout.keyGameOver, Breakout.toggleOption, Breakout.signalExit, a, b, c, d, h1]

/-- Space pressed while `in_game_screen` is set, whatever the other flags: only `serve`
and the velocity of the ball object change. -/
theorem Breakout.keyHandler_game_space (g : Breakout) (hg : g.in_game_screen = true) :
    g.keyHandler ⟨Key.KEY_SPACE, KeyAction.KEY_PRESSED⟩ =
      { g with serve := true,
               ball := g.ball.setVelocity ⟨g.ball_velocity_x, g.ball_velocity_y⟩ } := by
  cases a : g.in_menu <;> cases c : g.in_pause_menu <;> cases d : g.game_over <;>
    simp [Breakout.keyHandler, Breakout.keyMenu, Breakout.keyGame, Breakout.keyPause,
      Breakout.keyGameOver, Breakout.toggleOption, Breakout.signalExit, a, hg, c, d]

/-! ## Counters and hidden bricks never go back -/

theorem Breakout.grows_refl (g : Breakout) : g.Grows g :=
  ⟨le_refl _, le_refl _, fun _ => ⟨id, id, id, id, id⟩⟩

theorem Breakout.grows_trans {g1 g2 g3 : Breakout} (h12 : g1.Grows g2) (h23 : g2.Grows g3) :
    g1.Grows g3 :=
  ⟨le_trans h12.1 h23.1, le_trans h23.2.1 h12.2.1, fun i =>
    ⟨fun h => (h23.2.2 i).1 ((h12.2.2 i).1 h),
      fun h => (h23.2.2 i).2.1 ((h12.2.2 i).2.1 h),
      fun h => (h23.2.2 i).2.2.1 ((h12.2.2 i).2.2.1 h),
      fun h => (h23.2.2 i).2.2.2.1 ((h12.2.2 i).2.2.2.1 h),
      fun h => (h23.2.2 i).2.2.2.2 ((h12.2.2 i).2.2.2.2 h)⟩⟩

/-- A statement that keeps the score and every visibility flag, and does not add a life. -/
theorem Breakout.grows_of_tally {g g' : Breakout} (ht : g'.tally = g.tally)
    (hl : g'.lives_count ≤ g.lives_count) : g.Grows g' := by
  unfold Breakout.tally at ht
  simp only [Prod.mk.injEq] at ht
  obtain ⟨hs, h1, h2, h3, h4, h5, -⟩ := ht
  refine ⟨le_of_eq hs.symm, hl, fun i => ⟨?_, ?_, ?_, ?_, ?_⟩⟩
  · intro h
    have := congrFun h1 i
    unfold visOf at this
    rw [this, h]
  · intro h
    have := congrFun h2 i
    unfold visOf at this
    rw [this, h]
  · intro h
    have := congrFun h3 i
    unfold visOf at this
    rw [this, h]
  · intro h
    have := congrFun h4 i
    unfold visOf at this
    rw [this, h]
  · intro h
    have := congrFun h5 i
    unfold visOf at this
    rw [this, h]

/-- Hiding one object of an array keeps the hidden ones hidden. -/
theorem hidden_update_hide {n : Nat} (row : Fin n → GameObject) (i j : Fin n)
    (h : (row j).visibility = false) :
    ((Function.update row i { row i with visibility := false }) j).visibility = false := by
  by_cases hj : j = i
  · subst hj
    simp
  · rw [Function.update_noteq hj]
    exact h

theorem Breakout.collideRed_grows (undef : Sprite → Sprite → Bool) (i : Fin brick_num)
    (g : Breakout) : g.Grows (g.collideRed undef i) := by
  unfold Breakout.collideRed
  split_ifs
  · refine ⟨?_, le_refl _, fun j => ⟨fun h => hidden_update_hide _ i j h, id, id, id, id⟩⟩
    show g.score ≤ g.score + 1
    omega
  · exact Breakout.grows_refl g

theorem Breakout.collideGrey_grows (undef : Sprite → Sprite → Bool) (i : Fin brick_num)
    (g : Breakout) : g.Grows (g.collideGrey undef i) := by
  unfold Breakout.collideGrey
  split_ifs
  · refine ⟨?_, le_refl _, fun j => ⟨id, fun h => hidden_update_hide _ i j h, id, id, id⟩⟩
    show g.score ≤ g.score + 1
    omega
  · exact Breakout.grows_refl g

theorem Breakout.collideYellow_grows (undef : Sprite → Sprite → Bool) (i : Fin brick_num)
    (g : Breakout) : g.Grows (g.collideYellow undef i) := by
  unfold Breakout.collideYellow
  split_ifs
  · refine ⟨?_, le_refl _, fun j => ⟨id, id, fun h => hidden_update_hide _ i j h, id, id⟩⟩
    show g.score ≤ g.score + 1
    omega
  · exact Breakout.grows_refl g

theorem Breakout.collidePurple_grows (undef : Sprite → Sprite → Bool) (i : Fin brick_num)
    (g : Breakout) : g.Grows (g.collidePurple undef i) := by
  unfold Breakout.collidePurple
  split_ifs
  · refine ⟨?_, le_refl _, fun j => ⟨id, id, id, fun h => hidden_update_hide _ i j h, id⟩⟩
    show g.score ≤ g.score + 1
    omega
  · exact Breakout.grows_refl g

theorem Breakout.collideGreen_grows (undef : Sprite → Sprite → Bool) (i : Fin brick_num)
    (g : Breakout) : g.Grows (g.collideGreen undef i) := by
  unfold Breakout.collideGreen
  split_ifs
  · refine ⟨?_, le_refl _, fun j => ⟨id, id, id, id, fun h => hidden_update_hide _ i j h⟩⟩
    show g.score ≤ g.score + 1
    omega
  · exact Breakout.grows_refl g

theorem Breakout.collideBricksAt_grows (undef : Sprite → Sprite → Bool) (g : Breakout)
    (i : Fin brick_num) : g.Grows (g.collideBricksAt undef i) := by
  unfold Breakout.collideBricksAt
  exact Breakout.grows_trans (Breakout.collideRed_grows undef i g)
    (Breakout.grows_trans (Breakout.collideGrey_grows undef i _)
      (Breakout.grows_trans (Breakout.collideYellow_grows undef i _)
        (Breakout.grows_trans (Breakout.collidePurple_grows undef i _)
          (Breakout.collideGreen_grows undef i _))))

theorem Breakout.collideGem_grows (undef : Sprite → Sprite → Bool) (g : Breakout) (i : Fin 4) :
    g.Grows (g.collideGem undef i) := by
  unfold Breakout.collideGem
  split_ifs
  · refine ⟨?_, le_refl _, fun j => ⟨id, id, id, id, id⟩⟩
    show g.score ≤ g.score + 10
    omega
  · exact Breakout.grows_refl g

theorem Breakout.collideBricks_grows (undef : Sprite → Sprite → Bool) (g : Breakout)
    (l : List (Fin brick_num)) : g.Grows (l.foldl (Breakout.collideBricksAt undef) g) :=
  foldl_keeps (fun b => g.Grows b) _
    (fun b i hb => Breakout.grows_trans hb (Breakout.collideBricksAt_grows undef b i)) l g
    (Breakout.grows_refl g)

theorem Breakout.collideGems_grows (undef : Sprite → Sprite → Bool) (g : Breakout)
    (l : List (Fin 4)) : g.Grows (l.foldl (Breakout.collideGem undef) g) :=
  foldl_keeps (fun b => g.Grows b) _
    (fun b i hb => Breakout.grows_trans hb (Breakout.collideGem_grows undef b i)) l g
    (Breakout.grows_refl g)

theorem Breakout.collisionDetection_grows (undef : Sprite → Sprite → Bool) (g : Breakout) :
    g.Grows (g.collisionDetection undef) := by
  have h1 : g.Grows g.collideSides :=
    Breakout.grows_of_tally (Breakout.collideSides_tally g)
      (le_of_eq (congrArg Prod.snd (Breakout.collideSides_status g)))
  have h2 : g.collideSides.Grows g.collideSides.collideTop :=
    Breakout.grows_of_tally (Breakout.collideTop_tally _)
      (le_of_eq (congrArg Prod.snd (Breakout.collideTop_status _)))
  have h3 : g.collideSides.collideTop.Grows g.collideSides.collideTop.collideBottom := by
    apply Breakout.grows_of_tally (Breakout.collideBottom_tally _)
    have := congrArg Prod.snd (Breakout.collideBottom_status g.collideSides.collideTop)
    simp only [Breakout.status] at this
    rw [this]
    split_ifs <;> omega
  have h4 : g.collideSides.collideTop.collideBottom.Grows
      (g.collideSides.collideTop.collideBottom.collidePaddle undef) :=
    Breakout.grows_of_tally (Breakout.collidePaddle_tally undef _)
      (le_of_eq (congrArg Prod.snd (Breakout.collidePaddle_status undef _)))
  unfold Breakout.collisionDetection
  exact Breakout.grows_trans h1 (Breakout.grows_trans h2 (Breakout.grows_trans h3
    (Breakout.grows_trans h4 (Breakout.grows_trans (Breakout.collideBricks_grows undef _ _)
      (Breakout.collideGems_grows undef _ _)))))

theorem Breakout.update_grows (undef : Sprite → Sprite → Bool) (g : Breakout) (delta : ℚ) :
    g.Grows (g.update undef delta) := by
  have hi : ∀ b : Breakout, b.Grows (b.integrate (delta / 1000)) := fun b =>
    Breakout.grows_of_tally (Breakout.integrate_tally b _)
      (le_of_eq (congrArg Prod.snd (Breakout.integrate_status b (delta / 1000))))
  have hc : ∀ b : Breakout, b.Grows b.checkGameOver := by
    intro b
    apply Breakout.grows_of_tally (Breakout.checkGameOver_tally b)
    unfold Breakout.checkGameOver
    split_ifs <;> exact le_refl _
  have h1 : g.Grows (if g.in_game_screen then g.updateGame undef (delta / 1000) else g) := by
    split_ifs
    · unfold Breakout.updateGame
      exact Breakout.grows_trans (Breakout.collisionDetection_grows undef g)
        (Breakout.grows_trans (hi _) (hc _))
    · exact Breakout.grows_refl g
  have h2 : ∀ b : Breakout, b.Grows b.checkWin := by
    intro b
    apply Breakout.grows_of_tally (Breakout.checkWin_tally b)
    unfold Breakout.checkWin
    split_ifs <;> exact le_refl _
  have h3 : ∀ b : Breakout, b.Grows (b.moveGems (delta / 1000)) := fun b =>
    Breakout.grows_of_tally (Breakout.moveGems_tally b _)
      (le_of_eq (congrArg Prod.snd (Breakout.moveGems_status b _)))
  unfold Breakout.update
  exact Breakout.grows_trans h1 (Breakout.grows_trans (h2 _) (h3 _))

theorem Breakout.step_grows (undef : Sprite → Sprite → Bool) (g : Breakout) (e : GameEvent) :
    g.Grows (g.step undef e) := by
  cases e with
  | key k =>
    exact Breakout.grows_of_tally (Breakout.keyHandler_tally g k)
      (le_of_eq (Breakout.keyHandler_lives g k))
  | update delta => exact Breakout.update_grows undef g delta
  | render =>
    exact Breakout.grows_of_tally (Breakout.render_tally g) (le_of_eq (Breakout.render_lives g))

/-! ## The gems through an update -/

/-- The gem statements of `update`, gem by gem: a gem whose tied brick is not visible
moves down by `200 * dt_sec`, the others stay. -/
theorem Breakout.moveGems_gems (g : Breakout) (dt_sec : ℚ) (i : Fin 4) :
    (g.moveGems dt_sec).gems i =
      if (g.tiedBrick i).visibility then g.gems i
      else (g.gems i).setYPos ((g.gems i).sprite.yPos + 200 * dt_sec) := by
  unfold Breakout.moveGems Breakout.tiedBrick
  fin_cases i <;> cases h1 : (g.green_bricks 14).visibility <;>
    cases h2 : (g.purple_bricks 2).visibility <;>
    cases h3 : (g.yellow_bricks 11).visibility <;>
    cases h4 : (g.red_bricks 7).visibility <;>
    simp [h1, h2, h3, h4, Function.update]

/-- The gem statements of `update` write to the gems only. -/
theorem Breakout.moveGems_eq (g : Breakout) (dt_sec : ℚ) :
    g.moveGems dt_sec = { g with gems := (g.moveGems dt_sec).gems } := by
  unfold Breakout.moveGems
  simp only []
  split_ifs <;> rfl

/-- The win test of `update` writes to the flags `in_game_screen` and `win` only. -/
theorem Breakout.checkWin_eq (g : Breakout) :
    g.checkWin = { g with in_game_screen := g.checkWin.in_game_screen, win := g.checkWin.win } := by
  unfold Breakout.checkWin
  split_ifs <;> rfl

theorem Breakout.collideSides_gems (g : Breakout) : g.collideSides.gems = g.gems := by
  unfold Breakout.collideSides
  split_ifs <;> rfl

theorem Breakout.collideTop_gems (g : Breakout) : g.collideTop.gems = g.gems := by
  unfold Breakout.collideTop
  split_ifs <;> rfl

theorem Breakout.collideBottom_gems (g : Breakout) : g.collideBottom.gems = g.gems := by
  unfold Breakout.collideBottom
  split_ifs <;> rfl

theorem Breakout.collidePaddle_gems (undef : Sprite → Sprite → Bool) (g : Breakout) :
    (g.collidePaddle undef).gems = g.gems := by
  unfold Breakout.collidePaddle
  split_ifs <;> rfl

theorem Breakout.collideRed_gems (undef : Sprite → Sprite → Bool) (i : Fin brick_num)
    (g : Breakout) : (g.collideRed undef i).gems = g.gems := by
  unfold Breakout.collideRed
  split_ifs <;> rfl

theorem Breakout.collideGrey_gems (undef : Sprite → Sprite → Bool) (i : Fin brick_num)
    (g : Breakout) : (g.collideGrey undef i).gems = g.gems := by
  unfold Breakout.collideGrey
  split_ifs <;> rfl

theorem Breakout.collideYellow_gems (undef : Sprite → Sprite → Bool) (i : Fin brick_num)
    (g : Breakout) : (g.collideYellow undef i).gems = g.gems := by
  unfold Breakout.collideYellow
  split_ifs <;> rfl

theorem Breakout.collidePurple_gems (undef : Sprite → Sprite → Bool) (i : Fin brick_num)
    (g : Breakout) : (g.collidePurple undef i).gems = g.gems := by
  unfold Breakout.collidePurple
  split_ifs <;> rfl

theorem Breakout.collideGreen_gems (undef : Sprite → Sprite → Bool) (i : Fin brick_num)
    (g : Breakout) : (g.collideGreen undef i).gems = g.gems := by
  unfold Breakout.collideGreen
  split_ifs <;> rfl

theorem Breakout.collideBricksAt_gems (undef : Sprite → Sprite → Bool) (g : Breakout)
    (i : Fin brick_num) : (g.collideBricksAt undef i).gems = g.gems := by
  unfold Breakout.collideBricksAt
  simp only []
  rw [Breakout.collideGreen_gems, Breakout.collidePurple_gems, Breakout.collideYellow_gems,
    Breakout.collideGrey_gems, Breakout.collideRed_gems]

theorem Breakout.collideBricks_gems (undef : Sprite → Sprite → Bool) (g : Breakout)
    (l : List (Fin brick_num)) : (l.foldl (Breakout.collideBricksAt undef) g).gems = g.gems :=
  foldl_keeps (fun b => b.gems = g.gems) _
    (fun b i hb => (Breakout.collideBricksAt_gems undef b i).trans hb) l g rfl

theorem Breakout.collideGem_gemBoxes (undef : Sprite → Sprite → Bool) (g : Breakout)
    (i : Fin 4) : (g.collideGem undef i).gemBoxes = g.gemBoxes := by
  unfold Breakout.collideGem
  split_ifs
  · funext j
    unfold Breakout.gemBoxes
    by_cases hj : j = i
    · subst hj
      simp
    · simp [Function.update_noteq hj]
  · rfl

theorem Breakout.collideGems_gemBoxes (undef : Sprite → Sprite → Bool) (g : Breakout)
    (l : List (Fin 4)) : (l.foldl (Breakout.collideGem undef) g).gemBoxes = g.gemBoxes :=
  foldl_keeps (fun b => b.gemBoxes = g.gemBoxes) _
    (fun b i hb => (Breakout.collideGem_gemBoxes undef b i).trans hb) l g rfl

/-- A collision pass moves no gem. -/
theorem Breakout.collisionDetection_gemBoxes (undef : Sprite → Sprite → Bool) (g : Breakout) :
    (g.collisionDetection undef).gemBoxes = g.gemBoxes := by
  unfold Breakout.collisionDetection
  simp only []
  rw [Breakout.collideGems_gemBoxes]
  unfold Breakout.gemBoxes
  rw [Breakout.collideBricks_gems, Breakout.collidePaddle_gems, Breakout.collideBottom_gems,
    Breakout.collideTop_gems, Breakout.collideSides_gems]

theorem Breakout.integrate_gems (g : Breakout) (dt_sec : ℚ) :
    (g.integrate dt_sec).gems = g.gems := by
  unfold Breakout.integrate
  simp only []
  split_ifs <;> rfl

theorem Breakout.checkGameOver_gems (g : Breakout) : g.checkGameOver.gems = g.gems := by
  unfold Breakout.checkGameOver
  split_ifs <;> rfl

theorem Breakout.checkWin_gems (g : Breakout) : g.checkWin.gems = g.gems := by
  unfold Breakout.checkWin
  split_ifs <;> rfl

/-- Before its gem statements an update has moved no gem. -/
theorem Breakout.update_gemBoxes_before (undef : Sprite → Sprite → Bool) (g : Breakout)
    (dt_sec : ℚ) :
    (if g.in_game_screen then g.updateGame undef dt_sec else g).checkWin.gemBoxes =
      g.gemBoxes := by
  have h1 : ∀ b : Breakout, b.checkWin.gemBoxes = b.gemBoxes := by
    intro b
    unfold Breakout.gemBoxes
    rw [Breakout.checkWin_gems]
  rw [h1]
  split_ifs
  · unfold Breakout.updateGame
    simp only []
    have h2 : ∀ b : Breakout, b.checkGameOver.gemBoxes = b.gemBoxes := by
      intro b
      unfold Breakout.gemBoxes
      rw [Breakout.checkGameOver_gems]
    have h3 : ∀ b : Breakout, (b.integrate dt_sec).gemBoxes = b.gemBoxes := by
      intro b
      unfold Breakout.gemBoxes
      rw [Breakout.integrate_gems]
    rw [h2, h3, Breakout.collisionDetection_gemBoxes]
  · rfl

/-- The gems after an update, from the gems before it and the bricks after it. -/
theorem Breakout.update_gem_sprite (undef : Sprite → Sprite → Bool) (g : Breakout) (delta : ℚ)
    (i : Fin 4) :
    ((g.update undef delta).gems i).sprite =
      if ((g.update undef delta).tiedBrick i).visibility then (g.gems i).sprite
      else { (g.gems i).sprite with yPos := (g.gems i).sprite.yPos + 200 * (delta / 1000) } := by
  have hb := congrFun (Breakout.update_gemBoxes_before undef g (delta / 1000)) i
  unfold Breakout.gemBoxes at hb
  simp only [Prod.mk.injEq] at hb
  have ht : ∀ b : Breakout, (b.moveGems (delta / 1000)).tiedBrick i = b.tiedBrick i := by
    intro b
    rw [Breakout.moveGems_eq]
    rfl
  have key : ∀ b : Breakout, (b.gems i).sprite = (g.gems i).sprite →
      ((b.moveGems (delta / 1000)).gems i).sprite =
        if ((b.moveGems (delta / 1000)).tiedBrick i).visibility then (g.gems i).sprite
        else { (g.gems i).sprite with
          yPos := (g.gems i).sprite.yPos + 200 * (delta / 1000) } := by
    intro b h
    rw [ht, Breakout.moveGems_gems]
    by_cases hv : (b.tiedBrick i).visibility = true
    · rw [if_pos hv, if_pos hv]
      exact h
    · rw [if_neg hv, if_neg hv]
      unfold GameObject.setYPos
      simp only [h]
  exact key _ hb.1

/-! ## The serve flag and the ball's place through a collision pass -/

theorem Breakout.collidePaddle_resting (undef : Sprite → Sprite → Bool) (g : Breakout) :
    (g.collidePaddle undef).resting = g.resting := by
  unfold Breakout.collidePaddle
  split_ifs <;> rfl

theorem Breakout.collideRed_resting (undef : Sprite → Sprite → Bool) (i : Fin brick_num)
    (g : Breakout) : (g.collideRed undef i).resting = g.resting := by
  unfold Breakout.collideRed
  split_ifs <;> rfl

theorem Breakout.collideGrey_resting (undef : Sprite → Sprite → Bool) (i : Fin brick_num)
    (g : Breakout) : (g.collideGrey undef i).resting = g.resting := by
  unfold Breakout.collideGrey
  split_ifs <;> rfl

theorem Breakout.collideYellow_resting (undef : Sprite → Sprite → Bool) (i : Fin brick_num)
    (g : Breakout) : (g.collideYellow undef i).resting = g.resting := by
  unfold Breakout.collideYellow
  split_ifs <;> rfl

theorem Breakout.collidePurple_resting (undef : Sprite → Sprite → Bool) (i : Fin brick_num)
    (g : Breakout) : (g.collidePurple undef i).resting = g.resting := by
  unfold Breakout.collidePurple
  split_ifs <;> rfl

theorem Breakout.collideGreen_resting (undef : Sprite → Sprite → Bool) (i : Fin brick_num)
    (g : Breakout) : (g.collideGreen undef i).resting = g.resting := by
  unfold Breakout.collideGreen
  split_ifs <;> rfl

theorem Breakout.collideBricksAt_resting (undef : Sprite → Sprite → Bool) (g : Breakout)
    (i : Fin brick_num) : (g.collideBricksAt undef i).resting = g.resting := by
  unfold Breakout.collideBricksAt
  simp only []
  rw [Breakout.collideGreen_resting, Breakout.collidePurple_resting,
    Breakout.collideYellow_resting, Breakout.collideGrey_resting, Breakout.collideRed_resting]

theorem Breakout.collideGem_resting (undef : Sprite → Sprite → Bool) (g : Breakout)
    (i : Fin 4) : (g.collideGem undef i).resting = g.resting := by
  unfold Breakout.collideGem
  split_ifs <;> rfl

theorem Breakout.collideBricks_resting (undef : Sprite → Sprite → Bool) (g : Breakout)
    (l : List (Fin brick_num)) :
    (l.foldl (Breakout.collideBricksAt undef) g).resting = g.resting :=
  foldl_keeps (fun b => b.resting = g.resting) _
    (fun b i hb => (Breakout.collideBricksAt_resting undef b i).trans hb) l g rfl

theorem Breakout.collideGems_resting (undef : Sprite → Sprite → Bool) (g : Breakout)
    (l : List (Fin 4)) : (l.foldl (Breakout.collideGem undef) g).resting = g.resting :=
  foldl_keeps (fun b => b.resting = g.resting) _
    (fun b i hb => (Breakout.collideGem_resting undef b i).trans hb) l g rfl

/-- The boundary statements for the sides and the top write to the ball's velocity only. -/
theorem Breakout.collideTop_collideSides_eq (g : Breakout) :
    g.collideSides.collideTop =
      { g with ball_velocity_x := g.collideSides.collideTop.ball_velocity_x,
               ball_velocity_y := g.collideSides.collideTop.ball_velocity_y,
               ball := g.ball.setVelocity g.collideSides.collideTop.ball.velocity } := by
  unfold Breakout.collideSides Breakout.collideTop
  split_ifs <;> rfl

/-- A pass in which the ball is missed (its bottom edge at or below the bottom of the
field) takes one life, clears `serve` and leaves the ball where `initBall` puts it, at
(paddle.x + paddle.width / 2, game_height - 70). If the pass sees no overlap of the ball,
there, with the paddle or with a visible brick, it ends with the members
`ball_velocity_x`, `ball_velocity_y` at (300, -300) and the ball object at rest. -/
theorem Breakout.collisionDetection_miss (undef : Sprite → Sprite → Bool) (g : Breakout)
    (hb : g.ball.sprite.yPos + g.ball.sprite.height ≥ (g.game_height : ℚ)) :
    (g.collisionDetection undef).lives_count = g.lives_count - 1 ∧
    (g.collisionDetection undef).serve = false ∧
    (g.collisionDetection undef).ball.sprite =
      ⟨g.paddle.sprite.xPos + g.paddle.sprite.width / 2, (g.game_height : ℚ) - 70,
        g.ball.sprite.width, g.ball.sprite.height⟩ ∧
    (Breakout.overlapSeen undef g.paddle.sprite g.collideBottom.ball.sprite = false →
      g.collideBottom.hitsNoBrick undef →
      (g.collisionDetection undef).motion = (300, -300, ⟨0, 0⟩)) := by
  have hl : (g.collisionDetection undef).lives_count = g.lives_count - 1 := by
    have := congrArg Prod.snd (Breakout.collisionDetection_status undef g)
    simp only [Breakout.status] at this
    rw [this, if_pos hb]
  have e2 := Breakout.collideTop_collideSides_eq g
  have hrest : (g.collisionDetection undef).resting =
      g.collideSides.collideTop.collideBottom.resting := by
    unfold Breakout.collisionDetection
    simp only []
    rw [Breakout.collideGems_resting, Breakout.collideBricks_resting,
      Breakout.collidePaddle_resting]
  have e3 : g.collideSides.collideTop.collideBottom =
      ({ g.collideSides.collideTop with
          lives_count := g.collideSides.collideTop.lives_count - 1,
          serve := false }).initBall := by
    have hb2 : g.collideSides.collideTop.ball.sprite.yPos +
        g.collideSides.collideTop.ball.sprite.height ≥
          (g.collideSides.collideTop.game_height : ℚ) := by
      rw [e2]
      exact hb
    unfold Breakout.collideBottom
    rw [if_pos hb2]
  have e4 : g.collideBottom =
      ({ g with lives_count := g.lives_count - 1, serve := false }).initBall := by
    unfold Breakout.collideBottom
    rw [if_pos hb]
  have hsprite : g.collideSides.collideTop.collideBottom.ball.sprite =
      g.collideBottom.ball.sprite := by
    rw [e3, e4, e2]
    rfl
  have hr2 := hrest
  unfold Breakout.resting at hr2
  simp only [Prod.mk.injEq] at hr2
  refine ⟨hl, ?_, ?_, ?_⟩
  · rw [hr2.1, e3]
    rfl
  · rw [hr2.2, hsprite, e4]
    rfl
  · intro hp hn
    have h7 : g.collideSides.collideTop.collideBottom.collidePaddle undef =
        g.collideSides.collideTop.collideBottom := by
      have hpad : g.collideSides.collideTop.collideBottom.paddle = g.paddle := by
        rw [e3, e2]
        rfl
      unfold Breakout.collidePaddle
      rw [hsprite, hpad, hp]
      rfl
    have h8 : g.collideSides.collideTop.collideBottom.hitsNoBrick undef := by
      have e : g.collideSides.collideTop.collideBottom.red_bricks = g.collideBottom.red_bricks ∧
          g.collideSides.collideTop.collideBottom.grey_bricks = g.collideBottom.grey_bricks ∧
          g.collideSides.collideTop.collideBottom.yellow_bricks =
            g.collideBottom.yellow_bricks ∧
          g.collideSides.collideTop.collideBottom.purple_bricks =
            g.collideBottom.purple_bricks ∧
          g.collideSides.collideTop.collideBottom.green_bricks =
            g.collideBottom.green_bricks := by
        rw [e3, e4, e2]
        exact ⟨rfl, rfl, rfl, rfl, rfl⟩
      unfold Breakout.hitsNoBrick at *
      rw [hsprite, e.1, e.2.1, e.2.2.1, e.2.2.2.1, e.2.2.2.2]
      exact hn
    unfold Breakout.collisionDetection
    simp only []
    rw [Breakout.collideGems_motion, h7, Breakout.collideBricks_of_hitsNoBrick undef _ h8, e3]
    rfl

/-- An update off the playing screen: the win test and the gem statements only. -/
theorem Breakout.update_of_not_playing (undef : Sprite → Sprite → Bool) (g : Breakout)
    (delta : ℚ) (hg : g.in_game_screen = false) :
    g.update undef delta = g.checkWin.moveGems (delta / 1000) := by
  unfold Breakout.update
  simp only [hg]
  rfl

/-- What an update off the playing screen leaves alone: score, lives, `serve`, the paddle,
the ball, every brick, and of every gem all but its y position. -/
theorem Breakout.update_outside_playing (undef : Sprite → Sprite → Bool) (g : Breakout)
    (delta : ℚ) (hg : g.in_game_screen = false) :
    ((g.update undef delta).score = g.score ∧ (g.update undef delta).lives_count = g.lives_count ∧
      (g.update undef delta).serve = g.serve) ∧
    ((g.update undef delta).paddle = g.paddle ∧ (g.update undef delta).ball = g.ball) ∧
    ((g.update undef delta).red_bricks = g.red_bricks ∧
      (g.update undef delta).grey_bricks = g.grey_bricks ∧
      (g.update undef delta).yellow_bricks = g.yellow_bricks ∧
      (g.update undef delta).purple_bricks = g.purple_bricks ∧
      (g.update undef delta).green_bricks = g.green_bricks) ∧
    ∀ i : Fin 4, ((g.update undef delta).gems i).visibility = (g.gems i).visibility ∧
      ((g.update undef delta).gems i).velocity = (g.gems i).velocity ∧
      ((g.update undef delta).gems i).sprite.xPos = (g.gems i).sprite.xPos ∧
      ((g.update undef delta).gems i).sprite.width = (g.gems i).sprite.width ∧
      ((g.update undef delta).gems i).sprite.height = (g.gems i).sprite.height := by
  have e : g.update undef delta =
      { g with in_game_screen := g.checkWin.in_game_screen, win := g.checkWin.win,
               gems := (g.checkWin.moveGems (delta / 1000)).gems } := by
    rw [Breakout.update_of_not_playing undef g delta hg, Breakout.moveGems_eq,
      Breakout.checkWin_eq]
  refine ⟨?_, ?_, ?_, ?_⟩
  · rw [e]
    exact ⟨rfl, rfl, rfl⟩
  · rw [e]
    exact ⟨rfl, rfl⟩
  · rw [e]
    exact ⟨rfl, rfl, rfl, rfl, rfl⟩
  · intro i
    rw [e]
    show ((g.checkWin.moveGems (delta / 1000)).gems i).visibility = _ ∧ _
    rw [Breakout.moveGems_gems, Breakout.checkWin_gems]
    split_ifs
    · exact ⟨rfl, rfl, rfl, rfl, rfl⟩
    · exact ⟨rfl, rfl, rfl, rfl, rfl⟩

/-! ## The brick loop, hit by hit -/

theorem hitCount_insert (S : Finset (Fin brick_num)) (h : Fin brick_num → Bool)
    (a : Fin brick_num) (ha : a ∉ S) :
    hitCount (insert a S) h = hitCount S h + (h a).toNat := by
  unfold hitCount
  rw [Finset.sum_insert ha]
  omega

theorem rowDone_at {S : Finset (Fin brick_num)} {h : Fin brick_num → Bool}
    {row0 row : Fin brick_num → GameObject} (hrow : RowDone S h row0 row) {a : Fin brick_num}
    (ha : a ∉ S) : row a = row0 a := by
  rw [hrow a, if_neg (fun hc => ha hc.1)]

theorem rowDone_hit {S : Finset (Fin brick_num)} {h : Fin brick_num → Bool}
    {row0 row : Fin brick_num → GameObject} (hrow : RowDone S h row0 row) {a : Fin brick_num}
    (ha : a ∉ S) (hh : h a = true) :
    RowDone (insert a S) h row0 (Function.update row a { row a with visibility := false }) := by
  intro i
  by_cases hi : i = a
  · subst hi
    rw [Function.update_same, rowDone_at hrow ha, if_pos ⟨Finset.mem_insert_self _ _, hh⟩]
  · rw [Function.update_noteq hi, hrow i]
    simp only [Finset.mem_insert, hi, false_or]

theorem rowDone_skip {S : Finset (Fin brick_num)} {h : Fin brick_num → Bool}
    {row0 row : Fin brick_num → GameObject} (hrow : RowDone S h row0 row) {a : Fin brick_num}
    (ha : a ∉ S) (hh : h a = false) : RowDone (insert a S) h row0 row := by
  intro i
  rw [hrow i]
  by_cases hi : i = a
  · subst hi
    simp [ha, hh]
  · simp only [Finset.mem_insert, hi, false_or]

theorem rowDone_empty (h : Fin brick_num → Bool) (row0 : Fin brick_num → GameObject) :
    RowDone ∅ h row0 row0 := by
  intro i
  simp

/-- After the whole loop a brick is visible exactly when it was visible and not hit. -/
theorem rowDone_univ {h : Fin brick_num → Bool} {row0 row : Fin brick_num → GameObject}
    (hrow : RowDone Finset.univ h row0 row) (i : Fin brick_num) :
    (row i).visibility = ((row0 i).visibility && !h i) ∧ (row i).sprite = (row0 i).sprite ∧
      (row i).velocity = (row0 i).velocity := by
  rw [hrow i]
  cases hh : h i <;> simp

theorem Breakout.hitsDone_start (undef : Sprite → Sprite → Bool) (g : Breakout) :
    Breakout.HitsDone undef g ∅ ∅ ∅ ∅ ∅ g :=
  { sprite := rfl
    vx := rfl
    score := by simp [Breakout.hitsAmong, hitCount]
    vy := by simp [Breakout.hitsAmong, hitCount]
    velocity := by simp [Breakout.hitsAmong, hitCount]
    red := rowDone_empty _ _
    grey := rowDone_empty _ _
    yellow := rowDone_empty _ _
    purple := rowDone_empty _ _
    green := rowDone_empty _ _ }

theorem Breakout.hitsAmong_insert_red (undef : Sprite → Sprite → Bool) (g : Breakout)
    (Sr Sg Sy Sp Sn : Finset (Fin brick_num)) (a : Fin brick_num) (ha : a ∉ Sr) :
    g.hitsAmong undef (insert a Sr) Sg Sy Sp Sn =
      g.hitsAmong undef Sr Sg Sy Sp Sn + (g.hitsRed undef a).toNat := by
  unfold Breakout.hitsAmong
  rw [hitCount_insert _ _ _ ha]
  omega

/-- The `red_bricks[a]` statement of the brick loop, not done before. -/
theorem Breakout.collideRed_hitsDone (undef : Sprite → Sprite → Bool) (g : Breakout)
    (Sr Sg Sy Sp Sn : Finset (Fin brick_num)) (b : Breakout) (a : Fin brick_num)
    (h : Breakout.HitsDone undef g Sr Sg Sy Sp Sn b) (ha : a ∉ Sr) :
    Breakout.HitsDone undef g (insert a Sr) Sg Sy Sp Sn (b.collideRed undef a) := by
  have hc : (Breakout.overlapSeen undef b.ball.sprite (b.red_bricks a).sprite &&
      (b.red_bricks a).visibility) = g.hitsRed undef a := by
    rw [h.sprite, rowDone_at h.red ha]
    rfl
  have hk := Breakout.hitsAmong_insert_red undef g Sr Sg Sy Sp Sn a ha
  unfold Breakout.collideRed
  rw [hc]
  cases hh : g.hitsRed undef a
  · rw [hh] at hk
    simp only [Bool.toNat_false, add_zero] at hk
    simp only [Bool.false_eq_true, if_false]
    exact {
      sprite := h.sprite
      vx := h.vx
      score := by rw [hk]; exact h.score
      vy := by rw [hk]; exact h.vy
      velocity := by rw [hk]; exact h.velocity
      red := rowDone_skip h.red ha hh
      grey := h.grey
      yellow := h.yellow
      purple := h.purple
      green := h.green }
  · rw [hh] at hk
    simp only [Bool.toNat_true] at hk
    simp only [if_true]
    exact {
      sprite := h.sprite
      vx := h.vx
      score := by
        show b.score + 1 = _
        rw [hk, h.score]
        push_cast
        ring
      vy := by
        show b.ball_velocity_y * -1 = _
        rw [hk, h.vy, pow_succ]
        ring
      velocity := by
        show (⟨b.ball_velocity_x, b.ball_velocity_y * -1⟩ : Vector2) = _
        rw [hk, if_neg (Nat.succ_ne_zero _), h.vx, h.vy, pow_succ]
        congr 1
        ring
      red := rowDone_hit h.red ha hh
      grey := h.grey
      yellow := h.yellow
      purple := h.purple
      green := h.green }

theorem Breakout.hitsAmong_insert_grey (undef : Sprite → Sprite → Bool) (g : Breakout)
    (Sr Sg Sy Sp Sn : Finset (Fin brick_num)) (a : Fin brick_num) (ha : a ∉ Sg) :
    g.hitsAmong undef Sr (insert a Sg) Sy Sp Sn =
      g.hitsAmong undef Sr Sg Sy Sp Sn + (g.hitsGrey undef a).toNat := by
  unfold Breakout.hitsAmong
  rw [hitCount_insert _ _ _ ha]
  omega

/-- The `grey_bricks[a]` statement of the brick loop, not done before. -/
theorem Breakout.collideGrey_hitsDone (undef : Sprite → Sprite → Bool) (g : Breakout)
    (Sr Sg Sy Sp Sn : Finset (Fin brick_num)) (b : Breakout) (a : Fin brick_num)
    (h : Breakout.HitsDone undef g Sr Sg Sy Sp Sn b) (ha : a ∉ Sg) :
    Breakout.HitsDone undef g Sr (insert a Sg) Sy Sp Sn (b.collideGrey undef a) := by
  have hc : (Breakout.overlapSeen undef b.ball.sprite (b.grey_bricks a).sprite &&
      (b.grey_bricks a).visibility) = g.hitsGrey undef a := by
    rw [h.sprite, rowDone_at h.grey ha]
    rfl
  have hk := Breakout.hitsAmong_insert_grey undef g Sr Sg Sy Sp Sn a ha
  unfold Breakout.collideGrey
  rw [hc]
  cases hh : g.hitsGrey undef a
  · rw [hh] at hk
    simp only [Bool.toNat_false, add_zero] at hk
    simp only [Bool.false_eq_true, if_false]
    exact {
      sprite := h.sprite
      vx := h.vx
      score := by rw [hk]; exact h.score
      vy := by rw [hk]; exact h.vy
      velocity := by rw [hk]; exact h.velocity
      red := h.red
      grey := rowDone_skip h.grey ha hh
      yellow := h.yellow
      purple := h.purple
      green := h.green }
  · rw [hh] at hk
    simp only [Bool.toNat_true] at hk
    simp only [if_true]
    exact {
      sprite := h.sprite
      vx := h.vx
      score := by
        show b.score + 1 = _
        rw [hk, h.score]
        push_cast
        ring
      vy := by
        show b.ball_velocity_y * -1 = _
        rw [hk, h.vy, pow_succ]
        ring
      velocity := by
        show (⟨b.ball_velocity_x, b.ball_velocity_y * -1⟩ : Vector2) = _
        rw [hk, if_neg (Nat.succ_ne_zero _), h.vx, h.vy, pow_succ]
        congr 1
        ring
      red := h.red
      grey := rowDone_hit h.grey ha hh
      yellow := h.yellow
      purple := h.purple
      green := h.green }

theorem Breakout.hitsAmong_insert_yellow (undef : Sprite → Sprite → Bool) (g : Breakout)
    (Sr Sg Sy Sp Sn : Finset (Fin brick_num)) (a : Fin brick_num) (ha : a ∉ Sy) :
    g.hitsAmong undef Sr Sg (insert a Sy) Sp Sn =
      g.hitsAmong undef Sr Sg Sy Sp Sn + (g.hitsYellow undef a).toNat := by
  unfold Breakout.hitsAmong
  rw [hitCount_insert _ _ _ ha]
  omega

/-- The `yellow_bricks[a]` statement of the brick loop, not done before. -/
theorem Breakout.collideYellow_hitsDone (undef : Sprite → Sprite → Bool) (g : Breakout)
    (Sr Sg Sy Sp Sn : Finset (Fin brick_num)) (b : Breakout) (a : Fin brick_num)
    (h : Breakout.HitsDone undef g Sr Sg Sy Sp Sn b) (ha : a ∉ Sy) :
    Breakout.HitsDone undef g Sr Sg (insert a Sy) Sp Sn (b.collideYellow undef a) := by
  have hc : (Breakout.overlapSeen undef b.ball.sprite (b.yellow_bricks a).sprite &&
      (b.yellow_bricks a).visibility) = g.hitsYellow undef a := by
    rw [h.sprite, rowDone_at h.yellow ha]
    rfl
  have hk := Breakout.hitsAmong_insert_yellow undef g Sr Sg Sy Sp Sn a ha
  unfold Breakout.collideYellow
  rw [hc]
  cases hh : g.hitsYellow undef a
  · rw [hh] at hk
    simp only [Bool.toNat_false, add_zero] at hk
    simp only [Bool.false_eq_true, if_false]
    exact {
      sprite := h.sprite
      vx := h.vx
      score := by rw [hk]; exact h.score
      vy := by rw [hk]; exact h.vy
      velocity := by rw [hk]; exact h.velocity
      red := h.red
      grey := h.grey
      yellow := rowDone_skip h.yellow ha hh
      purple := h.purple
      green := h.green }
  · rw [hh] at hk
    simp only [Bool.toNat_true] at hk
    simp only [if_true]
    exact {
      sprite := h.sprite
      vx := h.vx
      score := by
        show b.score + 1 = _
        rw [hk, h.score]
        push_cast
        ring
      vy := by
        show b.ball_velocity_y * -1 = _
        rw [hk, h.vy, pow_succ]
        ring
      velocity := by
        show (⟨b.ball_velocity_x, b.ball_velocity_y * -1⟩ : Vector2) = _
        rw [hk, if_neg (Nat.succ_ne_zero _), h.vx, h.vy, pow_succ]
        congr 1
        ring
      red := h.red
      grey := h.grey
      yellow := rowDone_hit h.yellow ha hh
      purple := h.purple
      green := h.green }

theorem Breakout.hitsAmong_insert_purple (undef : Sprite → Sprite → Bool) (g : Breakout)
    (Sr Sg Sy Sp Sn : Finset (Fin brick_num)) (a : Fin brick_num) (ha : a ∉ Sp) :
    g.hitsAmong undef Sr Sg Sy (insert a Sp) Sn =
      g.hitsAmong undef Sr Sg Sy Sp Sn + (g.hitsPurple undef a).toNat := by
  unfold Breakout.hitsAmong
  rw [hitCount_insert _ _ _ ha]
  omega

/-- The `purple_bricks[a]` statement of the brick loop, not done before. -/
theorem Breakout.collidePurple_hitsDone (undef : Sprite → Sprite → Bool) (g : Breakout)
    (Sr Sg Sy Sp Sn : Finset (Fin brick_num)) (b : Breakout) (a : Fin brick_num)
    (h : Breakout.HitsDone undef g Sr Sg Sy Sp Sn b) (ha : a ∉ Sp) :
    Breakout.HitsDone undef g Sr Sg Sy (insert a Sp) Sn (b.collidePurple undef a) := by
  have hc : (Breakout.overlapSeen undef b.ball.sprite (b.purple_bricks a).sprite &&
      (b.purple_bricks a).visibility) = g.hitsPurple undef a := by
    rw [h.sprite, rowDone_at h.purple ha]
    rfl
  have hk := Breakout.hitsAmong_insert_purple undef g Sr Sg Sy Sp Sn a ha
  unfold Breakout.collidePurple
  rw [hc]
  cases hh : g.hitsPurple undef a
  · rw [hh] at hk
    simp only [Bool.toNat_false, add_zero] at hk
    simp only [Bool.false_eq_true, if_false]
    exact {
      sprite := h.sprite
      vx := h.vx
      score := by rw [hk]; exact h.score
      vy := by rw [hk]; exact h.vy
      velocity := by rw [hk]; exact h.velocity
      red := h.red
      grey := h.grey
      yellow := h.yellow
      purple := rowDone_skip h.purple ha hh
      green := h.green }
  · rw [hh] at hk
    simp only [Bool.toNat_true] at hk
    simp only [if_true]
    exact {
      sprite := h.sprite
      vx := h.vx
      score := by
        show b.score + 1 = _
        rw [hk, h.score]
        push_cast
        ring
      vy := by
        show b.ball_velocity_y * -1 = _
        rw [hk, h.vy, pow_succ]
        ring
      velocity := by
        show (⟨b.ball_velocity_x, b.ball_velocity_y * -1⟩ : Vector2) = _
        rw [hk, if_neg (Nat.succ_ne_zero _), h.vx, h.vy, pow_succ]
        congr 1
        ring
      red := h.red
      grey := h.grey
      yellow := h.yellow
      purple := rowDone_hit h.purple ha hh
      green := h.green }

theorem Breakout.hitsAmong_insert_green (undef : Sprite → Sprite → Bool) (g : Breakout)
    (Sr Sg Sy Sp Sn : Finset (Fin brick_num)) (a : Fin brick_num) (ha : a ∉ Sn) :
    g.hitsAmong undef Sr Sg Sy Sp (insert a Sn) =
      g.hitsAmong undef Sr Sg Sy Sp Sn + (g.hitsGreen undef a).toNat := by
  unfold Breakout.hitsAmong
  rw [hitCount_insert _ _ _ ha]
  omega

/-- The `green_bricks[a]` statement of the brick loop, not done before. -/
theorem Breakout.collideGreen_hitsDone (undef : Sprite → Sprite → Bool) (g : Breakout)
    (Sr Sg Sy Sp Sn : Finset (Fin brick_num)) (b : Breakout) (a : Fin brick_num)
    (h : Breakout.HitsDone undef g Sr Sg Sy Sp Sn b) (ha : a ∉ Sn) :
    Breakout.HitsDone undef g Sr Sg Sy Sp (insert a Sn) (b.collideGreen undef a) := by
  have hc : (Breakout.overlapSeen undef b.ball.sprite (b.green_bricks a).sprite &&
      (b.green_bricks a).visibility) = g.hitsGreen undef a := by
    rw [h.sprite, rowDone_at h.green ha]
    rfl
  have hk := Breakout.hitsAmong_insert_green undef g Sr Sg Sy Sp Sn a ha
  unfold Breakout.collideGreen
  rw [hc]
  cases hh : g.hitsGreen undef a
  · rw [hh] at hk
    simp only [Bool.toNat_false, add_zero] at hk
    simp only [Bool.false_eq_true, if_false]
    exact {
      sprite := h.sprite
      vx := h.vx
      score := by rw [hk]; exact h.score
      vy := by rw [hk]; exact h.vy
      velocity := by rw [hk]; exact h.velocity
      red := h.red
      grey := h.grey
      yellow := h.yellow
      purple := h.purple
      green := rowDone_skip h.green ha hh }
  · rw [hh] at hk
    simp only [Bool.toNat_true] at hk
    simp only [if_true]
    exact {
      sprite := h.sprite
      vx := h.vx
      score := by
        show b.score + 1 = _
        rw [hk, h.score]
        push_cast
        ring
      vy := by
        show b.ball_velocity_y * -1 = _
        rw [hk, h.vy, pow_succ]
        ring
      velocity := by
        show (⟨b.ball_velocity_x, b.ball_velocity_y * -1⟩ : Vector2) = _
        rw [hk, if_neg (Nat.succ_ne_zero _), h.vx, h.vy, pow_succ]
        congr 1
        ring
      red := h.red
      grey := h.grey
      yellow := h.yellow
      purple := h.purple
      green := rowDone_hit h.green ha hh }

/-- One iteration of the brick loop, for an index not done before. -/
theorem Breakout.collideBricksAt_hitsDone (undef : Sprite → Sprite → Bool) (g : Breakout)
    (S : Finset (Fin brick_num)) (b : Breakout) (a : Fin brick_num)
    (h : Breakout.HitsDone undef g S S S S S b) (ha : a ∉ S) :
    Breakout.HitsDone undef g (insert a S) (insert a S) (insert a S) (insert a S) (insert a S)
      (b.collideBricksAt undef a) := by
  unfold Breakout.collideBricksAt
  exact Breakout.collideGreen_hitsDone undef g _ _ _ _ _ _ a
    (Breakout.collidePurple_hitsDone undef g _ _ _ _ _ _ a
      (Breakout.collideYellow_hitsDone undef g _ _ _ _ _ _ a
        (Breakout.collideGrey_hitsDone undef g _ _ _ _ _ _ a
          (Breakout.collideRed_hitsDone undef g _ _ _ _ _ b a h ha) ha) ha) ha) ha

/-- A loop over distinct indices, each iteration marking its index as done. -/
theorem foldl_marks {α β : Type} [DecidableEq α] (P : Finset α → β → Prop) (f : β → α → β)
    (hf : ∀ S b a, a ∉ S → P S b → P (insert a S) (f b a)) (l : List α) :
    ∀ (S : Finset α) (b : β), l.Nodup → (∀ a ∈ l, a ∉ S) → P S b →
      P (S ∪ l.toFinset) (l.foldl f b) := by
  induction l with
  | nil =>
    intro S b _ _ hb
    simpa using hb
  | cons a l ih =>
    intro S b hnd hS hb
    rw [List.nodup_cons] at hnd
    have h1 := hf S b a (hS a (List.mem_cons_self a l)) hb
    have h2 := ih (insert a S) (f b a) hnd.2 (by
      intro x hx hmem
      rcases Finset.mem_insert.mp hmem with hxa | hxS
      · exact hnd.1 (hxa ▸ hx)
      · exact hS x (List.mem_cons_of_mem a hx) hxS) h1
    have e : S ∪ (a :: l).toFinset = insert a S ∪ l.toFinset := by
      rw [List.toFinset_cons, Finset.union_insert, Finset.insert_union]
    rw [e]
    exact h2

/-- The brick loop of a collision pass, from the state `g` it is entered in: every brick
the pass hits has added one to the score, reflected `ball_velocity_y` and been hidden. -/
theorem Breakout.collideBricks_hitsDone (undef : Sprite → Sprite → Bool) (g : Breakout) :
    Breakout.HitsDone undef g Finset.univ Finset.univ Finset.univ Finset.univ Finset.univ
      ((List.finRange brick_num).foldl (Breakout.collideBricksAt undef) g) := by
  have h := foldl_marks (fun S b => Breakout.HitsDone undef g S S S S S b)
    (Breakout.collideBricksAt undef)
    (fun S b a ha hb => Breakout.collideBricksAt_hitsDone undef g S b a hb ha)
    (List.finRange brick_num) ∅ g (List.nodup_finRange brick_num) (by simp)
    (Breakout.hitsDone_start undef g)
  have e : (∅ : Finset (Fin brick_num)) ∪ (List.finRange brick_num).toFinset = Finset.univ := by
    ext x
    simp
  rw [e] at h
  exact h

/-- A pass that sees no gem to collect leaves the gem loop without effect. -/
theorem Breakout.collideGems_of_collectsNoGem (undef : Sprite → Sprite → Bool) (g : Breakout)
    (h : g.collectsNoGem undef) (l : List (Fin 4)) :
    l.foldl (Breakout.collideGem undef) g = g := by
  apply foldl_keeps (fun b => b = g) _ _ l g rfl
  intro b i hb
  subst hb
  unfold Breakout.collideGem
  rw [h i]
  rfl

theorem Breakout.collideBricks_court (undef : Sprite → Sprite → Bool) (g : Breakout)
    (l : List (Fin brick_num)) : (l.foldl (Breakout.collideBricksAt undef) g).court = g.court :=
  foldl_keeps (fun b => b.court = g.court) _
    (fun b i hb => (Breakout.collideBricksAt_court undef b i).trans hb) l g rfl

/-- A collision pass in which the ball touches no boundary and is not seen to overlap the
paddle, and in which no gem is collected, is its brick loop. -/
theorem Breakout.collisionDetection_eq_bricks (undef : Sprite → Sprite → Bool) (g : Breakout)
    (hside : ¬ (g.ball.sprite.xPos ≤ 0 ∨
      g.ball.sprite.xPos + g.ball.sprite.width ≥ (g.game_width : ℚ)))
    (htop : ¬ g.ball.sprite.yPos ≤ 0)
    (hbottom : ¬ g.ball.sprite.yPos + g.ball.sprite.height ≥ (g.game_height : ℚ))
    (hpaddle : Breakout.overlapSeen undef g.paddle.sprite g.ball.sprite = false)
    (hgem : g.collectsNoGem undef) :
    g.collisionDetection undef =
      (List.finRange brick_num).foldl (Breakout.collideBricksAt undef) g := by
  have h1 : g.collideSides = g := by
    unfold Breakout.collideSides
    rw [if_neg hside]
  have h2 : g.collideTop = g := by
    unfold Breakout.collideTop
    rw [if_neg htop]
  have h3 : g.collideBottom = g := by
    unfold Breakout.collideBottom
    rw [if_neg hbottom]
  have h4 : g.collidePaddle undef = g := by
    unfold Breakout.collidePaddle
    rw [hpaddle]
    rfl
  have h5 : ((List.finRange brick_num).foldl (Breakout.collideBricksAt undef) g).collectsNoGem
      undef := by
    have hp : ((List.finRange brick_num).foldl (Breakout.collideBricksAt undef) g).paddle =
        g.paddle := (Breakout.eq_of_court (Breakout.collideBricks_court undef g _)).1
    unfold Breakout.collectsNoGem
    rw [Breakout.collideBricks_gems, hp]
    exact hgem
  unfold Breakout.collisionDetection
  simp only []
  rw [h1, h2, h3, h4, Breakout.collideGems_of_collectsNoGem undef _ h5]

/-! ## Start-up -/

/-- Once the API is initialised, `init` returns `true` whatever the textures do. -/
theorem Breakout.initReturns_of_apiOk (t : Textures) : Breakout.initReturns true t = true :=
  rfl


/-! ## The resting ball after an update -/

/-- The game-over test of `update` writes to the flags `in_game_screen` and `game_over`
only. -/
theorem Breakout.checkGameOver_eq (g : Breakout) :
    g.checkGameOver =
      { g with in_game_screen := g.checkGameOver.in_game_screen,
               game_over := g.checkGameOver.game_over } := by
  unfold Breakout.checkGameOver
  split_ifs <;> rfl

/-- Paddle, ball and `serve` after an update on the playing screen are those `integrate`
leaves, applied to the state the collision pass leaves. -/
theorem Breakout.update_playing_objects (undef : Sprite → Sprite → Bool) (g : Breakout)
    (delta : ℚ) (hg : g.in_game_screen = true) :
    (g.update undef delta).paddle = ((g.collisionDetection undef).integrate (delta / 1000)).paddle ∧
    (g.update undef delta).ball = ((g.collisionDetection undef).integrate (delta / 1000)).ball ∧
    (g.update undef delta).serve = ((g.collisionDetection undef).integrate (delta / 1000)).serve := by
  have e : g.update undef delta =
      (((g.collisionDetection undef).integrate (delta / 1000)).checkGameOver.checkWin).moveGems
        (delta / 1000) := by
    unfold Breakout.update
    simp only [hg, if_true]
    rfl
  rw [e, Breakout.moveGems_eq, Breakout.checkWin_eq, Breakout.checkGameOver_eq]
  exact ⟨rfl, rfl, rfl⟩

/-- The `if (!serve)` branch of the integration: the ball is put at the middle of the
paddle, as clamped, and one unit above it; its size and velocity, and `serve`, are not
written to. -/
theorem Breakout.integrate_resting (b : Breakout) (dt_sec : ℚ) (hs : b.serve = false) :
    (b.integrate dt_sec).ball.sprite =
        ⟨(b.integrate dt_sec).paddle.sprite.xPos + (b.integrate dt_sec).paddle.sprite.width / 2 -
            b.ball.sprite.width / 2,
          (b.integrate dt_sec).paddle.sprite.yPos - (b.ball.sprite.height + 1),
          b.ball.sprite.width, b.ball.sprite.height⟩ ∧
      (b.integrate dt_sec).ball.velocity = b.ball.velocity := by
  unfold Breakout.integrate GameObject.setXPos GameObject.setYPos
  simp only [hs]
  split_ifs <;> simp_all

theorem Breakout.integrate_serve (b : Breakout) (dt_sec : ℚ) :
    (b.integrate dt_sec).serve = b.serve := by
  unfold Breakout.integrate
  simp only []
  split_ifs <;> rfl

/-! ## The ball's speed -/

/-- The speed property speaks of the velocity members and the ball's velocity only. -/
theorem Breakout.speedOK_of_motion {g g' : Breakout} (hm : g'.motion = g.motion)
    (h : g.SpeedOK) : g'.SpeedOK := by
  unfold Breakout.motion at hm
  simp only [Prod.mk.injEq] at hm
  unfold Breakout.SpeedOK at *
  rw [hm.1, hm.2.1, hm.2.2]
  exact h

theorem Breakout.bounceX_speedOK (g : Breakout) (h : g.SpeedOK) : g.bounceX.SpeedOK := by
  refine ⟨?_, h.2.1, Or.inr rfl⟩
  show |g.ball_velocity_x * -1| = 300
  rw [mul_neg, mul_one, abs_neg]
  exact h.1

theorem Breakout.bounceY_speedOK (g : Breakout) (h : g.SpeedOK) : g.bounceY.SpeedOK := by
  refine ⟨h.1, ?_, Or.inr rfl⟩
  show |g.ball_velocity_y * -1| = 300
  rw [mul_neg, mul_one, abs_neg]
  exact h.2.1

/-- After `initBall` the members hold (300, -300) and the ball object is at rest. -/
theorem Breakout.initBall_speedOK (g : Breakout) : g.initBall.SpeedOK := by
  refine ⟨?_, ?_, Or.inl rfl⟩
  · show |(300 : ℚ)| = 300
    norm_num
  · show |(-300 : ℚ)| = 300
    norm_num

theorem Breakout.collideSides_speedOK (g : Breakout) (h : g.SpeedOK) :
    g.collideSides.SpeedOK := by
  unfold Breakout.collideSides
  split_ifs
  · exact Breakout.bounceX_speedOK g h
  · exact h

theorem Breakout.collideTop_speedOK (g : Breakout) (h : g.SpeedOK) : g.collideTop.SpeedOK := by
  unfold Breakout.collideTop
  split_ifs
  · exact Breakout.bounceY_speedOK g h
  · exact h

theorem Breakout.collideBottom_speedOK (g : Breakout) (h : g.SpeedOK) :
    g.collideBottom.SpeedOK := by
  unfold Breakout.collideBottom
  split_ifs
  · exact Breakout.initBall_speedOK _
  · exact h

theorem Breakout.collidePaddle_speedOK (undef : Sprite → Sprite → Bool) (g : Breakout)
    (h : g.SpeedOK) : (g.collidePaddle undef).SpeedOK := by
  unfold Breakout.collidePaddle
  split_ifs
  · exact Breakout.bounceY_speedOK g h
  · exact h

theorem Breakout.collideRed_speedOK (undef : Sprite → Sprite → Bool) (i : Fin brick_num)
    (g : Breakout) (h : g.SpeedOK) : (g.collideRed undef i).SpeedOK := by
  unfold Breakout.collideRed
  split_ifs
  · exact Breakout.speedOK_of_motion (g := g.bounceY) rfl (Breakout.bounceY_speedOK g h)
  · exact h

theorem Breakout.collideGrey_speedOK (undef : Sprite → Sprite → Bool) (i : Fin brick_num)
    (g : Breakout) (h : g.SpeedOK) : (g.collideGrey undef i).SpeedOK := by
  unfold Breakout.collideGrey
  split_ifs
  · exact Breakout.speedOK_of_motion (g := g.bounceY) rfl (Breakout.bounceY_speedOK g h)
  · exact h

theorem Breakout.collideYellow_speedOK (undef : Sprite → Sprite → Bool) (i : Fin brick_num)
    (g : Breakout) (h : g.SpeedOK) : (g.collideYellow undef i).SpeedOK := by
  unfold Breakout.collideYellow
  split_ifs
  · exact Breakout.speedOK_of_motion (g := g.bounceY) rfl (Breakout.bounceY_speedOK g h)
  · exact h

theorem Breakout.collidePurple_speedOK (undef : Sprite → Sprite → Bool) (i : Fin brick_num)
    (g : Breakout) (h : g.SpeedOK) : (g.collidePurple undef i).SpeedOK := by
  unfold Breakout.collidePurple
  split_ifs
  · exact Breakout.speedOK_of_motion (g := g.bounceY) rfl (Breakout.bounceY_speedOK g h)
  · exact h

theorem Breakout.collideGreen_speedOK (undef : Sprite → Sprite → Bool) (i : Fin brick_num)
    (g : Breakout) (h : g.SpeedOK) : (g.collideGreen undef i).SpeedOK := by
  unfold Breakout.collideGreen
  split_ifs
  · exact Breakout.speedOK_of_motion (g := g.bounceY) rfl (Breakout.bounceY_speedOK g h)
  · exact h

theorem Breakout.collideBricksAt_speedOK (undef : Sprite → Sprite → Bool) (g : Breakout)
    (i : Fin brick_num) (h : g.SpeedOK) : (g.collideBricksAt undef i).SpeedOK := by
  unfold Breakout.collideBricksAt
  exact Breakout.collideGreen_speedOK undef i _ (Breakout.collidePurple_speedOK undef i _
    (Breakout.collideYellow_speedOK undef i _ (Breakout.collideGrey_speedOK undef i _
      (Breakout.collideRed_speedOK undef i g h))))

/-- A collision pass keeps the speed property. -/
theorem Breakout.collisionDetection_speedOK (undef : Sprite → Sprite → Bool) (g : Breakout)
    (h : g.SpeedOK) : (g.collisionDetection undef).SpeedOK := by
  unfold Breakout.collisionDetection
  simp only []
  apply Breakout.speedOK_of_motion (Breakout.collideGems_motion undef _ _)
  apply foldl_keeps Breakout.SpeedOK _
    (fun b i hb => Breakout.collideBricksAt_speedOK undef b i hb)
  exact Breakout.collidePaddle_speedOK undef _ (Breakout.collideBottom_speedOK _
    (Breakout.collideTop_speedOK _ (Breakout.collideSides_speedOK g h)))

theorem Breakout.integrate_motion (g : Breakout) (dt_sec : ℚ) :
    (g.integrate dt_sec).motion = g.motion := by
  unfold Breakout.integrate GameObject.setXPos GameObject.setYPos
  simp only []
  split_ifs <;> rfl

theorem Breakout.checkGameOver_motion (g : Breakout) : g.checkGameOver.motion = g.motion := by
  unfold Breakout.checkGameOver
  split_ifs <;> rfl

theorem Breakout.checkWin_motion (g : Breakout) : g.checkWin.motion = g.motion := by
  unfold Breakout.checkWin
  split_ifs <;> rfl

theorem Breakout.moveGems_motion (g : Breakout) (dt_sec : ℚ) :
    (g.moveGems dt_sec).motion = g.motion := by
  unfold Breakout.moveGems
  simp only []
  split_ifs <;> rfl

theorem Breakout.update_speedOK (undef : Sprite → Sprite → Bool) (g : Breakout) (delta : ℚ)
    (h : g.SpeedOK) : (g.update undef delta).SpeedOK := by
  have h1 : (if g.in_game_screen then g.updateGame undef (delta / 1000) else g).SpeedOK := by
    split_ifs
    · unfold Breakout.updateGame
      exact Breakout.speedOK_of_motion
        ((Breakout.checkGameOver_motion _).trans (Breakout.integrate_motion _ _))
        (Breakout.collisionDetection_speedOK undef g h)
    · exact h
  unfold Breakout.update
  exact Breakout.speedOK_of_motion
    ((Breakout.moveGems_motion _ _).trans (Breakout.checkWin_motion _)) h1

theorem Breakout.keyMenu_motion (g : Breakout) (key : KeyEvent) :
    (g.keyMenu key).motion = g.motion := by
  unfold Breakout.keyMenu Breakout.toggleOption Breakout.signalExit
  simp only []
  split_ifs <;> rfl

theorem Breakout.keyPause_motion (g : Breakout) (key : KeyEvent) :
    (g.keyPause key).motion = g.motion := by
  unfold Breakout.keyPause Breakout.toggleOption Breakout.signalExit
  simp only []
  split_ifs <;> rfl

theorem Breakout.keyGameOver_motion (g : Breakout) (key : KeyEvent) :
    (g.keyGameOver key).motion = g.motion := by
  unfold Breakout.keyGameOver Breakout.toggleOption Breakout.signalExit
  simp only []
  split_ifs <;> rfl

/-- The playing block of `keyHandler`: Space pressed gives the ball object the pair of
members; no other key writes to the ball's velocity. -/
theorem Breakout.keyGame_speedOK (g : Breakout) (key : KeyEvent) (h : g.SpeedOK) :
    (g.keyGame key).SpeedOK := by
  unfold Breakout.keyGame
  split_ifs
  · exact h
  · exact h
  · exact h
  · exact h
  · exact h
  · exact h
  · exact h
  · exact ⟨h.1, h.2.1, Or.inr rfl⟩
  · exact h

theorem Breakout.keyHandler_speedOK (g : Breakout) (key : KeyEvent) (h : g.SpeedOK) :
    (g.keyHandler key).SpeedOK := by
  have h0 : (if key.key = Key.KEY_ESCAPE then g.signalExit else g).SpeedOK := by
    split_ifs
    · exact h
    · exact h
  have h1 : ∀ b : Breakout, b.SpeedOK → (if b.in_menu then b.keyMenu key else b).SpeedOK := by
    intro b hb
    split_ifs
    · exact Breakout.speedOK_of_motion (Breakout.keyMenu_motion b key) hb
    · exact hb
  have h2 : ∀ b : Breakout, b.SpeedOK →
      (if b.in_game_screen then b.keyGame key else b).SpeedOK := by
    intro b hb
    split_ifs
    · exact Breakout.keyGame_speedOK b key hb
    · exact hb
  have h3 : ∀ b : Breakout, b.SpeedOK →
      (if b.in_pause_menu then b.keyPause key else b).SpeedOK := by
    intro b hb
    split_ifs
    · exact Breakout.speedOK_of_motion (Breakout.keyPause_motion b key) hb
    · exact hb
  have h4 : ∀ b : Breakout, b.SpeedOK →
      (if b.game_over then b.keyGameOver key else b).SpeedOK := by
    intro b hb
    split_ifs
    · exact Breakout.speedOK_of_motion (Breakout.keyGameOver_motion b key) hb
    · exact hb
  unfold Breakout.keyHandler
  exact h4 _ (h3 _ (h2 _ (h1 _ h0)))

theorem Breakout.layoutAt_motion (g : Breakout) (i : Fin brick_num) :
    (g.layoutAt i).motion = g.motion := by
  have h1 : ∀ b : Breakout, (b.layoutGreen i).motion = b.motion := by
    intro b
    unfold Breakout.layoutGreen
    simp only []
    split_ifs <;> rfl
  have h2 : ∀ b : Breakout, (b.layoutPurple i).motion = b.motion := fun _ => rfl
  have h3 : ∀ b : Breakout, (b.layoutYellow i).motion = b.motion := fun _ => rfl
  have h4 : ∀ b : Breakout, (b.layoutGrey i).motion = b.motion := fun _ => rfl
  have h5 : ∀ b : Breakout, (b.layoutRed i).motion = b.motion := fun _ => rfl
  unfold Breakout.layoutAt
  rw [h5, h4, h3, h2, h1]

theorem Breakout.layout_motion (g : Breakout) (l : List (Fin brick_num)) :
    (l.foldl Breakout.layoutAt g).motion = g.motion :=
  foldl_keeps (fun b => b.motion = g.motion) _
    (fun b i hb => (Breakout.layoutAt_motion b i).trans hb) l g rfl

theorem Breakout.render_motion (g : Breakout) : g.render.motion = g.motion := by
  have h1 : ∀ b : Breakout, b.renderMenu.motion = b.motion := by
    intro b
    unfold Breakout.renderMenu
    split_ifs <;> rfl
  have h2 : ∀ b : Breakout, b.renderGame.motion = b.motion := by
    intro b
    unfold Breakout.renderGame
    by_cases hb : b.in_game_screen = true
    · rw [if_pos hb]
      simp only []
      rw [Breakout.layout_motion]
      rfl
    · rw [if_neg hb]
  have h3 : ∀ b : Breakout, b.renderPause.motion = b.motion := by
    intro b
    unfold Breakout.renderPause
    split_ifs <;> rfl
  have h4 : ∀ b : Breakout, b.renderGameOver.motion = b.motion := by
    intro b
    unfold Breakout.renderGameOver
    split_ifs <;> rfl
  have h5 : ∀ b : Breakout, b.renderWin.motion = b.motion := by
    intro b
    unfold Breakout.renderWin
    split_ifs <;> rfl
  unfold Breakout.render
  rw [h5, h4, h3, h2, h1]

theorem Breakout.step_speedOK (undef : Sprite → Sprite → Bool) (g : Breakout) (e : GameEvent)
    (h : g.SpeedOK) : (g.step undef e).SpeedOK := by
  cases e with
  | key k => exact Breakout.keyHandler_speedOK g k h
  | update delta => exact Breakout.update_speedOK undef g delta h
  | render => exact Breakout.speedOK_of_motion (Breakout.render_motion g) h

theorem Breakout.init_speedOK (a : Assets) : (Breakout.init a).SpeedOK := by
  unfold Breakout.init Breakout.initGameObjects
  exact Breakout.initBall_speedOK _

/-- The speed property holds in every state of every run. -/
theorem Breakout.run_speedOK (undef : Sprite → Sprite → Bool) (a : Assets)
    (events : List GameEvent) : (Breakout.run undef a events).SpeedOK :=
  foldl_keeps Breakout.SpeedOK _ (fun b e hb => Breakout.step_speedOK undef b e hb) events _
    (Breakout.init_speedOK a)


/-! ## Where the bricks are -/

/-- Hiding one object of an array moves none. -/
theorem sprite_update_hide {n : Nat} (row : Fin n → GameObject) (i : Fin n) :
    (fun j => ((Function.update row i { row i with visibility := false }) j).sprite) =
      fun j => (row j).sprite := by
  funext j
  by_cases hj : j = i
  · subst hj
    simp
  · rw [Function.update_noteq hj]

theorem Breakout.collideSides_brickBoxes (g : Breakout) :
    g.collideSides.brickBoxes = g.brickBoxes := by
  unfold Breakout.collideSides
  split_ifs <;> rfl

theorem Breakout.collideTop_brickBoxes (g : Breakout) :
    g.collideTop.brickBoxes = g.brickBoxes := by
  unfold Breakout.collideTop
  split_ifs <;> rfl

theorem Breakout.collideBottom_brickBoxes (g : Breakout) :
    g.collideBottom.brickBoxes = g.brickBoxes := by
  unfold Breakout.collideBottom
  split_ifs <;> rfl

theorem Breakout.collidePaddle_brickBoxes (undef : Sprite → Sprite → Bool) (g : Breakout) :
    (g.collidePaddle undef).brickBoxes = g.brickBoxes := by
  unfold Breakout.collidePaddle
  split_ifs <;> rfl

theorem Breakout.collideRed_brickBoxes (undef : Sprite → Sprite → Bool) (i : Fin brick_num)
    (g : Breakout) : (g.collideRed undef i).brickBoxes = g.brickBoxes := by
  unfold Breakout.collideRed
  split_ifs
  · unfold Breakout.brickBoxes
    simp only []
    rw [sprite_update_hide]
    rfl
  · rfl

theorem Breakout.collideGrey_brickBoxes (undef : Sprite → Sprite → Bool) (i : Fin brick_num)
    (g : Breakout) : (g.collideGrey undef i).brickBoxes = g.brickBoxes := by
  unfold Breakout.collideGrey
  split_ifs
  · unfold Breakout.brickBoxes
    simp only []
    rw [sprite_update_hide]
    rfl
  · rfl

theorem Breakout.collideYellow_brickBoxes (undef : Sprite → Sprite → Bool) (i : Fin brick_num)
    (g : Breakout) : (g.collideYellow undef i).brickBoxes = g.brickBoxes := by
  unfold Breakout.collideYellow
  split_ifs
  · unfold Breakout.brickBoxes
    simp only []
    rw [sprite_update_hide]
    rfl
  · rfl

theorem Breakout.collidePurple_brickBoxes (undef : Sprite → Sprite → Bool) (i : Fin brick_num)
    (g : Breakout) : (g.collidePurple undef i).brickBoxes = g.brickBoxes := by
  unfold Breakout.collidePurple
  split_ifs
  · unfold Breakout.brickBoxes
    simp only []
    rw [sprite_update_hide]
    rfl
  · rfl

theorem Breakout.collideGreen_brickBoxes (undef : Sprite → Sprite → Bool) (i : Fin brick_num)
    (g : Breakout) : (g.collideGreen undef i).brickBoxes = g.brickBoxes := by
  unfold Breakout.collideGreen
  split_ifs
  · unfold Breakout.brickBoxes
    simp only []
    rw [sprite_update_hide]
    rfl
  · rfl

theorem Breakout.collideBricksAt_brickBoxes (undef : Sprite → Sprite → Bool) (g : Breakout)
    (i : Fin brick_num) : (g.collideBricksAt undef i).brickBoxes = g.brickBoxes := by
  unfold Breakout.collideBricksAt
  simp only []
  rw [Breakout.collideGreen_brickBoxes, Breakout.collidePurple_brickBoxes,
    Breakout.collideYellow_brickBoxes, Breakout.collideGrey_brickBoxes,
    Breakout.collideRed_brickBoxes]

theorem Breakout.collideBricks_brickBoxes (undef : Sprite → Sprite → Bool) (g : Breakout)
    (l : List (Fin brick_num)) :
    (l.foldl (Breakout.collideBricksAt undef) g).brickBoxes = g.brickBoxes :=
  foldl_keeps (fun b => b.brickBoxes = g.brickBoxes) _
    (fun b i hb => (Breakout.collideBricksAt_brickBoxes undef b i).trans hb) l g rfl

theorem Breakout.collideGem_brickBoxes (undef : Sprite → Sprite → Bool) (g : Breakout)
    (i : Fin 4) : (g.collideGem undef i).brickBoxes = g.brickBoxes := by
  unfold Breakout.collideGem
  split_ifs <;> rfl

theorem Breakout.collideGems_brickBoxes (undef : Sprite → Sprite → Bool) (g : Breakout)
    (l : List (Fin 4)) : (l.foldl (Breakout.collideGem undef) g).brickBoxes = g.brickBoxes :=
  foldl_keeps (fun b => b.brickBoxes = g.brickBoxes) _
    (fun b i hb => (Breakout.collideGem_brickBoxes undef b i).trans hb) l g rfl

/-- A collision pass moves no brick. -/
theorem Breakout.collisionDetection_brickBoxes (undef : Sprite → Sprite → Bool)
    (g : Breakout) : (g.collisionDetection undef).brickBoxes = g.brickBoxes := by
  unfold Breakout.collisionDetection
  simp only []
  rw [Breakout.collideGems_brickBoxes, Breakout.collideBricks_brickBoxes,
    Breakout.collidePaddle_brickBoxes, Breakout.collideBottom_brickBoxes,
    Breakout.collideTop_brickBoxes, Breakout.collideSides_brickBoxes]

theorem Breakout.integrate_brickBoxes (g : Breakout) (dt_sec : ℚ) :
    (g.integrate dt_sec).brickBoxes = g.brickBoxes := by
  unfold Breakout.integrate
  simp only []
  split_ifs <;> rfl

theorem Breakout.checkGameOver_brickBoxes (g : Breakout) :
    g.checkGameOver.brickBoxes = g.brickBoxes := by
  unfold Breakout.checkGameOver
  split_ifs <;> rfl

theorem Breakout.checkWin_brickBoxes (g : Breakout) : g.checkWin.brickBoxes = g.brickBoxes := by
  unfold Breakout.checkWin
  split_ifs <;> rfl

theorem Breakout.moveGems_brickBoxes (g : Breakout) (dt_sec : ℚ) :
    (g.moveGems dt_sec).brickBoxes = g.brickBoxes := by
  unfold Breakout.moveGems
  simp only []
  split_ifs <;> rfl

/-- An update moves no brick. -/
theorem Breakout.update_brickBoxes (undef : Sprite → Sprite → Bool) (g : Breakout)
    (delta : ℚ) : (g.update undef delta).brickBoxes = g.brickBoxes := by
  have h1 : (if g.in_game_screen then g.updateGame undef (delta / 1000) else g).brickBoxes =
      g.brickBoxes := by
    split_ifs
    · unfold Breakout.updateGame
      simp only []
      rw [Breakout.checkGameOver_brickBoxes, Breakout.integrate_brickBoxes,
        Breakout.collisionDetection_brickBoxes]
    · rfl
  unfold Breakout.update
  simp only []
  rw [Breakout.moveGems_brickBoxes, Breakout.checkWin_brickBoxes, h1]

/-- A key event moves no brick. -/
theorem Breakout.keyHandler_brickBoxes (g : Breakout) (key : KeyEvent) :
    (g.keyHandler key).brickBoxes = g.brickBoxes := by
  have h1 : ∀ b : Breakout, (b.keyMenu key).brickBoxes = b.brickBoxes := by
    intro b
    unfold Breakout.keyMenu Breakout.toggleOption Breakout.signalExit
    simp only []
    split_ifs <;> rfl
  have h2 : ∀ b : Breakout, (b.keyGame key).brickBoxes = b.brickBoxes := by
    intro b
    unfold Breakout.keyGame
    split_ifs <;> rfl
  have h3 : ∀ b : Breakout, (b.keyPause key).brickBoxes = b.brickBoxes := by
    intro b
    unfold Breakout.keyPause Breakout.toggleOption Breakout.signalExit
    simp only []
    split_ifs <;> rfl
  have h4 : ∀ b : Breakout, (b.keyGameOver key).brickBoxes = b.brickBoxes := by
    intro b
    unfold Breakout.keyGameOver Breakout.toggleOption Breakout.signalExit
    simp only []
    split_ifs <;> rfl
  unfold Breakout.keyHandler
  simp only []
  rw [ite_keeps Breakout.brickBoxes _ (fun b => b.keyGameOver key) _ h4,
    ite_keeps Breakout.brickBoxes _ (fun b => b.keyPause key) _ h3,
    ite_keeps Breakout.brickBoxes _ (fun b => b.keyGame key) _ h2,
    ite_keeps Breakout.brickBoxes _ (fun b => b.keyMenu key) _ h1,
    ite_keeps Breakout.brickBoxes _ Breakout.signalExit _ (fun _ => rfl)]

/-- The stacking property speaks of the height of the field and the brick sprites only. -/
theorem Breakout.rowsStacked_of_brickBoxes {a : Assets} {g g' : Breakout}
    (hb : g'.brickBoxes = g.brickBoxes) (h : g.RowsStacked a) : g'.RowsStacked a := by
  unfold Breakout.brickBoxes at hb
  simp only [Prod.mk.injEq] at hb
  obtain ⟨h0, h1, h2, h3, h4, h5⟩ := hb
  refine ⟨h0.trans h.1, fun i => ?_⟩
  have e1 := congrFun h1 i
  have e2 := congrFun h2 i
  have e3 := congrFun h3 i
  have e4 := congrFun h4 i
  have e5 := congrFun h5 i
  simp only [] at e1 e2 e3 e4 e5
  rw [e1, e2, e3, e4, e5]
  exact h.2 i

theorem Breakout.layoutGreen_rowsStacked (a : Assets) (g : Breakout) (i : Fin brick_num)
    (h : g.RowsStacked a) : (g.layoutGreen i).RowsStacked a := by
  unfold Breakout.layoutGreen
  simp only []
  split_ifs
  · refine ⟨h.1, fun j => ?_⟩
    have hj := h.2 j
    refine ⟨?_, hj.2⟩
    show ((Function.update g.green_bricks i ((g.green_bricks i).setXPos _) j).sprite.height = _ ∧
      (Function.update g.green_bricks i ((g.green_bricks i).setXPos _) j).sprite.yPos = 0)
    by_cases hji : j = i
    · subst hji
      rw [Function.update_same]
      exact hj.1
    · rw [Function.update_noteq hji]
      exact hj.1
  · exact h

theorem Breakout.layoutPurple_rowsStacked (a : Assets) (g : Breakout) (i : Fin brick_num)
    (h : g.RowsStacked a) : (g.layoutPurple i).RowsStacked a := by
  refine ⟨h.1, fun j => ?_⟩
  have hj := h.2 j
  have h0 := h.2 0
  refine ⟨hj.1, ?_, hj.2.2⟩
  unfold Breakout.layoutPurple GameObject.setXPos GameObject.setYPos
  simp only []
  by_cases hji : j = i
  · subst hji
    simp only [Function.update_same]
    refine ⟨hj.2.1.1, ?_⟩
    rw [h0.1.1, h0.1.2]
    linarith
  · simp only [Function.update_noteq hji]
    exact hj.2.1

theorem Breakout.layoutYellow_rowsStacked (a : Assets) (g : Breakout) (i : Fin brick_num)
    (h : g.RowsStacked a) : (g.layoutYellow i).RowsStacked a := by
  refine ⟨h.1, fun j => ?_⟩
  have hj := h.2 j
  have h0 := h.2 0
  refine ⟨hj.1, hj.2.1, ?_, hj.2.2.2⟩
  unfold Breakout.layoutYellow GameObject.setXPos GameObject.setYPos
  simp only []
  by_cases hji : j = i
  · subst hji
    simp only [Function.update_same]
    refine ⟨hj.2.2.1.1, ?_⟩
    rw [h0.2.1.1]
    linarith [h0.2.1.2]
  · simp only [Function.update_noteq hji]
    exact hj.2.2.1

theorem Breakout.layoutGrey_rowsStacked (a : Assets) (g : Breakout) (i : Fin brick_num)
    (h : g.RowsStacked a) : (g.layoutGrey i).RowsStacked a := by
  refine ⟨h.1, fun j => ?_⟩
  have hj := h.2 j
  have h0 := h.2 0
  refine ⟨hj.1, hj.2.1, hj.2.2.1, ?_, hj.2.2.2.2⟩
  unfold Breakout.layoutGrey GameObject.setXPos GameObject.setYPos
  simp only []
  by_cases hji : j = i
  · subst hji
    simp only [Function.update_same]
    refine ⟨hj.2.2.2.1.1, ?_⟩
    rw [h0.2.2.1.1]
    linarith [h0.2.2.1.2]
  · simp only [Function.update_noteq hji]
    exact hj.2.2.2.1

theorem Breakout.layoutRed_rowsStacked (a : Assets) (g : Breakout) (i : Fin brick_num)
    (h : g.RowsStacked a) : (g.layoutRed i).RowsStacked a := by
  refine ⟨h.1, fun j => ?_⟩
  have hj := h.2 j
  have h0 := h.2 0
  refine ⟨hj.1, hj.2.1, hj.2.2.1, hj.2.2.2.1, ?_⟩
  unfold Breakout.layoutRed GameObject.setXPos GameObject.setYPos
  simp only []
  by_cases hji : j = i
  · subst hji
    simp only [Function.update_same]
    refine ⟨hj.2.2.2.2.1, ?_⟩
    rw [h0.2.2.2.1.1]
    linarith [h0.2.2.2.1.2]
  · simp only [Function.update_noteq hji]
    exact hj.2.2.2.2

theorem Breakout.layoutAt_rowsStacked (a : Assets) (g : Breakout) (i : Fin brick_num)
    (h : g.RowsStacked a) : (g.layoutAt i).RowsStacked a := by
  unfold Breakout.layoutAt
  exact Breakout.layoutRed_rowsStacked a _ i (Breakout.layoutGrey_rowsStacked a _ i
    (Breakout.layoutYellow_rowsStacked a _ i (Breakout.layoutPurple_rowsStacked a _ i
      (Breakout.layoutGreen_rowsStacked a g i h))))

/-- `render` keeps the rows stacked. -/
theorem Breakout.render_rowsStacked (a : Assets) (g : Breakout) (h : g.RowsStacked a) :
    g.render.RowsStacked a := by
  have h1 : ∀ b : Breakout, b.RowsStacked a → b.renderMenu.RowsStacked a := by
    intro b hb
    unfold Breakout.renderMenu
    split_ifs
    · exact hb
    · exact hb
  have h2 : ∀ b : Breakout, b.RowsStacked a → b.renderGame.RowsStacked a := by
    intro b hb
    unfold Breakout.renderGame
    split_ifs
    · exact foldl_keeps (Breakout.RowsStacked a) Breakout.layoutAt
        (fun c i hc => Breakout.layoutAt_rowsStacked a c i hc) _ _ hb
    · exact hb
  have h3 : ∀ b : Breakout, b.RowsStacked a → b.renderPause.RowsStacked a := by
    intro b hb
    unfold Breakout.renderPause
    split_ifs
    · exact hb
    · exact hb
  have h4 : ∀ b : Breakout, b.RowsStacked a → b.renderGameOver.RowsStacked a := by
    intro b hb
    unfold Breakout.renderGameOver
    split_ifs
    · exact hb
    · exact hb
  have h5 : ∀ b : Breakout, b.RowsStacked a → b.renderWin.RowsStacked a := by
    intro b hb
    unfold Breakout.renderWin
    split_ifs
    · exact hb
    · exact hb
  unfold Breakout.render
  exact h5 _ (h4 _ (h3 _ (h2 _ (h1 _ h))))

/-! ## The bricks at start-up -/

theorem Breakout.initBrick_marks (a : Assets) (h0 : ℤ) (S : Finset (Fin brick_num))
    (b : Breakout) (i : Fin brick_num)
    (h : b.game_height = h0 ∧ ∀ j ∈ S,
      (b.green_bricks j).sprite = a.element_green_rectangle ∧
      (b.purple_bricks j).sprite = a.element_purple_rectangle ∧
      (b.yellow_bricks j).sprite = a.element_yellow_rectangle ∧
      (b.grey_bricks j).sprite = a.element_grey_rectangle ∧
      (b.red_bricks j).sprite = a.element_red_rectangle) :
    (b.initBrick a i).game_height = h0 ∧ ∀ j ∈ insert i S,
      ((b.initBrick a i).green_bricks j).sprite = a.element_green_rectangle ∧
      ((b.initBrick a i).purple_bricks j).sprite = a.element_purple_rectangle ∧
      ((b.initBrick a i).yellow_bricks j).sprite = a.element_yellow_rectangle ∧
      ((b.initBrick a i).grey_bricks j).sprite = a.element_grey_rectangle ∧
      ((b.initBrick a i).red_bricks j).sprite = a.element_red_rectangle := by
  refine ⟨h.1, fun j hj => ?_⟩
  unfold Breakout.initBrick GameObject.initialiseSprite
  simp only []
  by_cases hji : j = i
  · subst hji
    simp only [Function.update_same, and_self]
  · simp only [Function.update_noteq hji]
    exact h.2 j ((Finset.mem_insert.mp hj).resolve_left hji)

/-- After the brick loop of `initGameObjects` every brick has the sprite of its image. -/
theorem Breakout.initBricks_sprites (a : Assets) (g : Breakout) (j : Fin brick_num) :
    ((List.finRange brick_num).foldl (Breakout.initBrick a) g).game_height = g.game_height ∧
    (((List.finRange brick_num).foldl (Breakout.initBrick a) g).green_bricks j).sprite =
      a.element_green_rectangle ∧
    (((List.finRange brick_num).foldl (Breakout.initBrick a) g).purple_bricks j).sprite =
      a.element_purple_rectangle ∧
    (((List.finRange brick_num).foldl (Breakout.initBrick a) g).yellow_bricks j).sprite =
      a.element_yellow_rectangle ∧
    (((List.finRange brick_num).foldl (Breakout.initBrick a) g).grey_bricks j).sprite =
      a.element_grey_rectangle ∧
    (((List.finRange brick_num).foldl (Breakout.initBrick a) g).red_bricks j).sprite =
      a.element_red_rectangle := by
  have h := foldl_marks (fun S b => b.game_height = g.game_height ∧ ∀ j ∈ S,
      (b.green_bricks j).sprite = a.element_green_rectangle ∧
      (b.purple_bricks j).sprite = a.element_purple_rectangle ∧
      (b.yellow_bricks j).sprite = a.element_yellow_rectangle ∧
      (b.grey_bricks j).sprite = a.element_grey_rectangle ∧
      (b.red_bricks j).sprite = a.element_red_rectangle)
    (Breakout.initBrick a)
    (fun S b i _ hb => Breakout.initBrick_marks a g.game_height S b i hb)
    (List.finRange brick_num) ∅ g (List.nodup_finRange brick_num) (by simp)
    ⟨rfl, by simp⟩
  exact ⟨h.1, h.2 j (by simp)⟩

theorem Breakout.initGems_brickBoxes (a : Assets) (g : Breakout) (l : List (Fin 4)) :
    (l.foldl (Breakout.initGem a) g).brickBoxes = g.brickBoxes :=
  foldl_keeps (fun b => b.brickBoxes = g.brickBoxes) (Breakout.initGem a)
    (fun b i hb => Eq.trans (by rfl) hb) l g rfl

/-- A game starts with its rows stacked: the field is 720 high and every brick sits at
the origin with the size of its image. -/
theorem Breakout.init_rowsStacked (a : Assets) (ha : a.RowsAboveRest) :
    (Breakout.init a).RowsStacked a := by
  obtain ⟨⟨y1, y2, y3, y4, y5⟩, ⟨n1, n2, n3, n4, n5⟩, -⟩ := ha
  have hb : ∀ b : Breakout, b.placeGems.initPaddle.initBall.brickBoxes = b.brickBoxes :=
    fun _ => rfl
  unfold Breakout.init Breakout.initGameObjects
  simp only []
  apply Breakout.rowsStacked_of_brickBoxes ((hb _).trans (Breakout.initGems_brickBoxes a _ _))
  refine ⟨?_, fun i => ?_⟩
  · rw [(Breakout.initBricks_sprites a _ 0).1]
    rfl
  · obtain ⟨-, e1, e2, e3, e4, e5⟩ := Breakout.initBricks_sprites a
      ({ ({ ({ Breakout.new.setupResolution with win := false }) with
          paddle := ({ Breakout.new.setupResolution with win := false }).paddle.initialiseSprite
            a.paddleRed }) with
        ball := ({ Breakout.new.setupResolution with win := false }).ball.initialiseSprite
          a.ballBlue }) i
    rw [e1, e2, e3, e4, e5]
    refine ⟨⟨rfl, y1⟩, ⟨rfl, ?_⟩, ⟨rfl, ?_⟩, ⟨rfl, ?_⟩, ⟨rfl, ?_⟩⟩
    · rw [y2]
      exact n1
    · rw [y3]
      linarith
    · rw [y4]
      linarith
    · rw [y5]
      linarith

/-- With the rows stacked and sprite sizes as in `RowsAboveRest`, every brick ends at or
above the height at which `initBall` puts the ball. -/
theorem Breakout.bricksAboveRest_of_rowsStacked (a : Assets) (g : Breakout)
    (ha : a.RowsAboveRest) (h : g.RowsStacked a) : g.BricksAboveRest := by
  obtain ⟨-, ⟨n1, n2, n3, n4, n5⟩, hs⟩ := ha
  have hH : (g.game_height : ℚ) = 720 := by
    rw [h.1]
    norm_num
  intro i
  obtain ⟨⟨g1, g2⟩, ⟨p1, p2⟩, ⟨w1, w2⟩, ⟨r1, r2⟩, ⟨d1, d2⟩⟩ := h.2 i
  rw [hH, g1, g2, p1, w1, r1, d1]
  refine ⟨?_, ?_, ?_, ?_, ?_⟩ <;> linarith

/-! ## The two closing tests of `update` -/

/-- A brick that ends at or above the ball's top edge is not seen overlapping the ball
when running off the end of `isOverlapping` is read as `false`. -/
theorem Breakout.overlapSeen_of_above (undef : Sprite → Sprite → Bool)
    (hu : ∀ s1 s2, undef s1 s2 = false) (ball brick : Sprite)
    (h : brick.yPos + brick.height ≤ ball.yPos) :
    Breakout.overlapSeen undef ball brick = false := by
  unfold Breakout.overlapSeen Breakout.isOverlapping
  rw [if_neg (fun hc => by linarith [hc.2.2.2]), hu]
  rfl

/-- Every overlap test is seen as `true` when running off the end of `isOverlapping` is
read as `true`. -/
theorem Breakout.overlapSeen_of_true (undef : Sprite → Sprite → Bool)
    (hu : ∀ s1 s2, undef s1 s2 = true) (s1 s2 : Sprite) :
    Breakout.overlapSeen undef s1 s2 = true := by
  unfold Breakout.overlapSeen Breakout.isOverlapping
  split_ifs
  · rfl
  · rw [hu]
    rfl

theorem Breakout.collideGems_visibleBricks (undef : Sprite → Sprite → Bool) (g : Breakout)
    (l : List (Fin 4)) :
    (l.foldl (Breakout.collideGem undef) g).visibleBricks = g.visibleBricks := by
  apply foldl_keeps (fun b => b.visibleBricks = g.visibleBricks) _ _ l g rfl
  intro b i hb
  rw [← hb]
  unfold Breakout.collideGem
  split_ifs <;> rfl

/-- The state a collision pass enters its brick loop in has the bricks of the state the
pass started in. -/
theorem Breakout.beforeBricks_visibleBricks (undef : Sprite → Sprite → Bool) (g : Breakout) :
    (g.collideSides.collideTop.collideBottom.collidePaddle undef).visibleBricks =
      g.visibleBricks :=
  Breakout.visibleBricks_of_tally
    ((Breakout.collidePaddle_tally undef _).trans ((Breakout.collideBottom_tally _).trans
      ((Breakout.collideTop_tally _).trans (Breakout.collideSides_tally g))))

/-- A pass that misses the ball hides no brick, when every brick ends at or above the
height `initBall` puts the ball at and running off the end of `isOverlapping` is read as
`false`. -/
theorem Breakout.collisionDetection_miss_keeps_bricks (undef : Sprite → Sprite → Bool)
    (hu : ∀ s1 s2, undef s1 s2 = false) (g : Breakout)
    (hb : g.ball.sprite.yPos + g.ball.sprite.height ≥ (g.game_height : ℚ))
    (habove : g.BricksAboveRest) :
    (g.collisionDetection undef).visibleBricks = g.visibleBricks := by
  have e2 := Breakout.collideTop_collideSides_eq g
  have e3 : g.collideSides.collideTop.collideBottom =
      ({ g.collideSides.collideTop with
          lives_count := g.collideSides.collideTop.lives_count - 1,
          serve := false }).initBall := by
    have hb2 : g.collideSides.collideTop.ball.sprite.yPos +
        g.collideSides.collideTop.ball.sprite.height ≥
          (g.collideSides.collideTop.game_height : ℚ) := by
      rw [e2]
      exact hb
    unfold Breakout.collideBottom
    rw [if_pos hb2]
  have hy : (g.collideSides.collideTop.collideBottom.collidePaddle undef).ball.sprite.yPos =
      (g.game_height : ℚ) - 70 := by
    have hr := Breakout.collidePaddle_resting undef g.collideSides.collideTop.collideBottom
    unfold Breakout.resting at hr
    simp only [Prod.mk.injEq] at hr
    rw [hr.2, e3, e2]
    rfl
  have hbox : (g.collideSides.collideTop.collideBottom.collidePaddle undef).brickBoxes =
      g.brickBoxes := by
    rw [Breakout.collidePaddle_brickBoxes, Breakout.collideBottom_brickBoxes,
      Breakout.collideTop_brickBoxes, Breakout.collideSides_brickBoxes]
  unfold Breakout.brickBoxes at hbox
  simp only [Prod.mk.injEq] at hbox
  obtain ⟨-, b1, b2, b3, b4, b5⟩ := hbox
  have hn : (g.collideSides.collideTop.collideBottom.collidePaddle undef).hitsNoBrick undef := by
    intro i
    have c1 := congrFun b1 i
    have c2 := congrFun b2 i
    have c3 := congrFun b3 i
    have c4 := congrFun b4 i
    have c5 := congrFun b5 i
    simp only [] at c1 c2 c3 c4 c5
    obtain ⟨a1, a2, a3, a4, a5⟩ := habove i
    rw [c1, c2, c3, c4, c5,
      Breakout.overlapSeen_of_above undef hu _ _ (by rw [hy]; exact a1),
      Breakout.overlapSeen_of_above undef hu _ _ (by rw [hy]; exact a2),
      Breakout.overlapSeen_of_above undef hu _ _ (by rw [hy]; exact a3),
      Breakout.overlapSeen_of_above undef hu _ _ (by rw [hy]; exact a4),
      Breakout.overlapSeen_of_above undef hu _ _ (by rw [hy]; exact a5)]
    exact ⟨rfl, rfl, rfl, rfl, rfl⟩
  unfold Breakout.collisionDetection
  simp only []
  rw [Breakout.collideGems_visibleBricks, Breakout.collideBricks_of_hitsNoBrick undef _ hn,
    Breakout.beforeBricks_visibleBricks]

/-- An array none of whose objects is visible counts no visible object. -/
theorem visibleCount_of_all_hidden {n : Nat} (row : Fin n → GameObject)
    (h : ∀ i, (row i).visibility = false) : visibleCount row = 0 := by
  unfold visibleCount
  apply Finset.sum_eq_zero
  intro i _
  rw [h i]
  rfl

/-- A layer of bricks after a brick loop in which every overlap test is seen as `true`:
no brick is visible. -/
theorem rowDone_all_hit {h : Fin brick_num → Bool} {row0 row : Fin brick_num → GameObject}
    (hrow : RowDone Finset.univ h row0 row) (hh : ∀ i, h i = (row0 i).visibility) :
    visibleCount row = 0 := by
  apply visibleCount_of_all_hidden
  intro i
  rw [(rowDone_univ hrow i).1, hh i]
  cases (row0 i).visibility <;> rfl

/-- When running off the end of `isOverlapping` is read as `true`, a collision pass hides
every brick. -/
theorem Breakout.collisionDetection_hides_all (undef : Sprite → Sprite → Bool)
    (hu : ∀ s1 s2, undef s1 s2 = true) (g : Breakout) :
    (g.collisionDetection undef).visibleBricks = 0 := by
  have h := Breakout.collideBricks_hitsDone undef
    (g.collideSides.collideTop.collideBottom.collidePaddle undef)
  have hs := Breakout.overlapSeen_of_true undef hu
  unfold Breakout.collisionDetection
  simp only []
  rw [Breakout.collideGems_visibleBricks]
  unfold Breakout.visibleBricks
  rw [rowDone_all_hit h.red (fun i => by unfold Breakout.hitsRed; rw [hs]; rfl),
    rowDone_all_hit h.grey (fun i => by unfold Breakout.hitsGrey; rw [hs]; rfl),
    rowDone_all_hit h.yellow (fun i => by unfold Breakout.hitsYellow; rw [hs]; rfl),
    rowDone_all_hit h.purple (fun i => by unfold Breakout.hitsPurple; rw [hs]; rfl),
    rowDone_all_hit h.green (fun i => by unfold Breakout.hitsGreen; rw [hs]; rfl)]
  rfl

/-- The bricks after the playing block of `update` are those the collision pass leaves. -/
theorem Breakout.updateGame_visibleBricks (undef : Sprite → Sprite → Bool) (g : Breakout)
    (dt_sec : ℚ) :
    (g.updateGame undef dt_sec).visibleBricks = (g.collisionDetection undef).visibleBricks := by
  unfold Breakout.updateGame
  exact Breakout.visibleBricks_of_tally
    ((Breakout.checkGameOver_tally _).trans (Breakout.integrate_tally _ _))

/-- On the playing screen of a run a life is left and a brick is visible. -/
theorem Breakout.playing_has_lives_and_bricks (g : Breakout) (hinv : g.Inv)
    (hg : g.in_game_screen = true) : g.lives_count ≠ 0 ∧ g.visibleBricks ≠ 0 := by
  have hm := Breakout.modes_of_in_game_screen g hinv hg
  unfold Breakout.modes at hm
  simp only [Prod.mk.injEq] at hm
  unfold Breakout.Inv InvOf Breakout.modes at hinv
  obtain ⟨-, -, hgo, -, hv⟩ := hinv
  simp only [] at hgo hv
  constructor
  · intro h0
    have := hgo.mpr h0
    rw [hm.2.2.2.1] at this
    exact Bool.false_ne_true this
  · intro h0
    have := (hv h0).2.1
    rw [hg] at this
    exact Bool.false_ne_true this.symm

theorem Breakout.update_notBothOver (undef : Sprite → Sprite → Bool)
    (hu : ∀ s1 s2, undef s1 s2 = false) (g : Breakout) (delta : ℚ) (hinv : g.Inv)
    (habove : g.BricksAboveRest) (hk : g.NotBothOver) : (g.update undef delta).NotBothOver := by
  unfold Breakout.NotBothOver at *
  rw [Breakout.update_lives, Breakout.update_visibleBricks]
  by_cases hg : g.in_game_screen = true
  · obtain ⟨hl, hv⟩ := Breakout.playing_has_lives_and_bricks g hinv hg
    rw [if_pos hg, Breakout.updateGame_visibleBricks]
    by_cases hb : g.ball.sprite.yPos + g.ball.sprite.height ≥ (g.game_height : ℚ)
    · rw [Breakout.collisionDetection_miss_keeps_bricks undef hu g hb habove]
      exact fun h => hv h.2
    · have hm : g.missesBall = false := by
        unfold Breakout.missesBall
        simp [hb]
      rw [hm]
      exact fun h => hl h.1
  · have hm : g.missesBall = false := by
      unfold Breakout.missesBall
      simp [hg]
    rw [hm, if_neg hg]
    exact hk

theorem Breakout.update_livesLeft (undef : Sprite → Sprite → Bool)
    (hu : ∀ s1 s2, undef s1 s2 = true) (g : Breakout) (delta : ℚ) (hinv : g.Inv)
    (hk : g.LivesLeft) : (g.update undef delta).LivesLeft := by
  unfold Breakout.LivesLeft at *
  rw [Breakout.update_lives, Breakout.update_visibleBricks]
  by_cases hg : g.in_game_screen = true
  · obtain ⟨-, hv⟩ := Breakout.playing_has_lives_and_bricks g hinv hg
    rw [if_pos hg, Breakout.updateGame_visibleBricks,
      Breakout.collisionDetection_hides_all undef hu g]
    have h3 : g.lives_count = 3 := by
      rcases hk with h | h
      · exact h
      · exact absurd h.2 hv
    right
    refine ⟨?_, rfl⟩
    split_ifs <;> omega
  · have hm : g.missesBall = false := by
      unfold Breakout.missesBall
      simp [hg]
    rw [hm, if_neg hg]
    exact hk

/-- In a state of a run in which a life is left or a brick is visible, exactly one screen
flag is set. -/
theorem Breakout.activeModes_of_notBothOver (g : Breakout) (hinv : g.Inv)
    (hk : g.NotBothOver) : g.activeModes = 1 := by
  unfold Breakout.Inv InvOf Breakout.modes at hinv
  unfold Breakout.NotBothOver at hk
  unfold Breakout.activeModes
  obtain ⟨-, hc, hgo, hw, -⟩ := hinv
  simp only [] at hc hgo hw
  cases h1 : g.in_menu <;> cases h2 : g.in_game_screen <;> cases h3 : g.in_pause_menu <;>
    cases h4 : g.game_over <;> cases h5 : g.win <;> simp_all

/-- In every run with sprite sizes as in `RowsAboveRest`, and with one and the same value
read whenever `isOverlapping` runs off its end, a life is left or a brick is visible. -/
theorem Breakout.run_notBothOver (undef : Sprite → Sprite → Bool) (a : Assets)
    (events : List GameEvent) (ha : a.RowsAboveRest)
    (hu : (∀ s1 s2, undef s1 s2 = false) ∨ (∀ s1 s2, undef s1 s2 = true)) :
    (Breakout.run undef a events).NotBothOver := by
  have hkey : ∀ (b : Breakout) (k : KeyEvent),
      (b.keyHandler k).lives_count = b.lives_count ∧
        (b.keyHandler k).visibleBricks = b.visibleBricks := fun b k =>
    ⟨Breakout.keyHandler_lives b k, Breakout.visibleBricks_of_tally (Breakout.keyHandler_tally b k)⟩
  have hrender : ∀ b : Breakout, b.render.lives_count = b.lives_count ∧
      b.render.visibleBricks = b.visibleBricks := fun b =>
    ⟨Breakout.render_lives b, Breakout.visibleBricks_of_tally (Breakout.render_tally b)⟩
  have h3 : (Breakout.init a).lives_count = 3 := by
    have := congrArg Prod.snd (Breakout.init_status a)
    simpa [Breakout.status] using this
  rcases hu with hu | hu
  · have h := foldl_keeps
      (fun b : Breakout => b.Inv ∧ b.RowsStacked a ∧ b.NotBothOver) (Breakout.step undef)
      (fun b e hb => by
        obtain ⟨i1, i2, i3⟩ := hb
        refine ⟨Breakout.step_inv undef b e i1, ?_, ?_⟩
        · cases e with
          | key k => exact Breakout.rowsStacked_of_brickBoxes (Breakout.keyHandler_brickBoxes b k) i2
          | update delta =>
            exact Breakout.rowsStacked_of_brickBoxes (Breakout.update_brickBoxes undef b delta) i2
          | render => exact Breakout.render_rowsStacked a b i2
        · cases e with
          | key k =>
            show (b.keyHandler k).NotBothOver
            unfold Breakout.NotBothOver at *
            rw [(hkey b k).1, (hkey b k).2]
            exact i3
          | update delta =>
            exact Breakout.update_notBothOver undef hu b delta i1
              (Breakout.bricksAboveRest_of_rowsStacked a b ha i2) i3
          | render =>
            show b.render.NotBothOver
            unfold Breakout.NotBothOver at *
            rw [(hrender b).1, (hrender b).2]
            exact i3)
      events (Breakout.init a)
      ⟨Breakout.init_inv a, Breakout.init_rowsStacked a ha, by
        unfold Breakout.NotBothOver
        rw [h3]
        exact fun h => absurd h.1 (by norm_num)⟩
    exact h.2.2
  · have h := foldl_keeps
      (fun b : Breakout => b.Inv ∧ b.LivesLeft) (Breakout.step undef)
      (fun b e hb => by
        obtain ⟨i1, i3⟩ := hb
        refine ⟨Breakout.step_inv undef b e i1, ?_⟩
        cases e with
        | key k =>
          show (b.keyHandler k).LivesLeft
          unfold Breakout.LivesLeft at *
          rw [(hkey b k).1, (hkey b k).2]
          exact i3
        | update delta => exact Breakout.update_livesLeft undef hu b delta i1 i3
        | render =>
          show b.render.LivesLeft
          unfold Breakout.LivesLeft at *
          rw [(hrender b).1, (hrender b).2]
          exact i3)
      events (Breakout.init a) ⟨Breakout.init_inv a, Or.inl h3⟩
    have hl := h.2
    unfold Breakout.LivesLeft at hl
    unfold Breakout.NotBothOver Breakout.run
    rintro ⟨h0, -⟩
    rcases hl with h | h <;> omega

/-! ## The overlap test -/

/-- The only value `isOverlapping` ever returns is `true`, and it returns it exactly
when the four strict comparisons of the source hold. -/
theorem Breakout.isOverlapping_eq_some_true_iff (sprite1 sprite2 : Sprite) :
    Breakout.isOverlapping sprite1 sprite2 = some true ↔
      (sprite2.xPos < sprite1.xPos + sprite1.width ∧
        sprite2.xPos + sprite2.width > sprite1.xPos ∧
        sprite2.yPos < sprite1.yPos + sprite1.height ∧
        sprite2.yPos + sprite2.height > sprite1.yPos) := by
  unfold Breakout.isOverlapping
  split_ifs with h
  · simp [h]
  · simp [h]

/-- No input makes `isOverlapping` return `false`: the source has no such statement. -/
theorem Breakout.isOverlapping_ne_some_false (sprite1 sprite2 : Sprite) :
    Breakout.isOverlapping sprite1 sprite2 ≠ some false := by
  unfold Breakout.isOverlapping
  split_ifs <;> simp

/-- Two boxes that share an edge (the right edge of one is the left edge of the other, or
the bottom edge of one is the top edge of the other) never make `isOverlapping` return
`true`: a strict comparison fails and the function ends without a return value. -/
theorem Breakout.isOverlapping_touching_eq_none (A B : Sprite)
    (h : A.xPos + A.width = B.xPos ∨ B.xPos + B.width = A.xPos ∨
      A.yPos + A.height = B.yPos ∨ B.yPos + B.height = A.yPos) :
    Breakout.isOverlapping A B = none := by
  unfold Breakout.isOverlapping
  rw [if_neg]
  rintro ⟨h1, h2, h3, h4⟩
  rcases h with h | h | h | h <;> linarith

/-- C1, at two boxes ten units apart, A = (0,0,10,10) and B = (20,0,10,10): the first
comparison `x2 < x1 + w1` fails, and `isOverlapping` ends without returning a value
instead of returning `false`. -/
theorem Breakout.isOverlapping_apart_returns_nothing :
    ¬ ((20 : ℚ) < 0 + 10) ∧
      Breakout.isOverlapping ⟨0, 0, 10, 10⟩ ⟨20, 0, 10, 10⟩ = none ∧
      Breakout.isOverlapping ⟨0, 0, 10, 10⟩ ⟨20, 0, 10, 10⟩ ≠ some false := by
  decide!

/-- The overlap test has the same outcome with its two boxes exchanged: both calls
return `true`, or both run off the end of the function without returning a value. -/
theorem Breakout.isOverlapping_symmetric (A B : Sprite) :
    Breakout.isOverlapping A B = Breakout.isOverlapping B A := by
  unfold Breakout.isOverlapping
  have h : (B.xPos < A.xPos + A.width ∧ B.xPos + B.width > A.xPos ∧
      B.yPos < A.yPos + A.height ∧ B.yPos + B.height > A.yPos) ↔
      (A.xPos < B.xPos + B.width ∧ A.xPos + A.width > B.xPos ∧
      A.yPos < B.yPos + B.height ∧ A.yPos + A.height > B.yPos) := by
    constructor <;> rintro ⟨h1, h2, h3, h4⟩ <;> exact ⟨h2, h1, h4, h3⟩
  by_cases hc : (B.xPos < A.xPos + A.width ∧ B.xPos + B.width > A.xPos ∧
      B.yPos < A.yPos + A.height ∧ B.yPos + B.height > A.yPos)
  · rw [if_pos hc, if_pos (h.mp hc)]
  · rw [if_neg hc, if_neg (fun h2 => hc (h.mpr h2))]

/-- C3, at the boxes of the specification, A = [0,0,10,10] and B = [10,0,10,10], which
share the edge x = 10, and at A with C = [0,10,10,10] below it, which share the edge
y = 10: in both orders `isOverlapping` does not return `true`, and it does not return
`false` either: it ends without a return value. -/
theorem Breakout.isOverlapping_touching_returns_nothing :
    Breakout.isOverlapping ⟨0, 0, 10, 10⟩ ⟨10, 0, 10, 10⟩ = none ∧
      Breakout.isOverlapping ⟨10, 0, 10, 10⟩ ⟨0, 0, 10, 10⟩ = none ∧
      Breakout.isOverlapping ⟨0, 0, 10, 10⟩ ⟨0, 10, 10, 10⟩ = none ∧
      Breakout.isOverlapping ⟨0, 10, 10, 10⟩ ⟨0, 0, 10, 10⟩ = none ∧
      Breakout.isOverlapping ⟨0, 0, 10, 10⟩ ⟨10, 0, 10, 10⟩ ≠ some false := by
  decide!

/-! ## Score, lives and the win test along a run -/

/-- C4: in every state of every run, whatever the key events, updates and renders
delivered, the score is the number of bricks that are not visible plus ten times the
number of gems that are not visible; and all 100 bricks and all 4 gems are hidden exactly
when the score is 100 + 10 * 4. -/
theorem Breakout.score_counts_hidden_bricks_and_gems (undef : Sprite → Sprite → Bool)
    (a : Assets) (events : List GameEvent) :
    (Breakout.run undef a events).score =
        (Breakout.run undef a events).invisibleBricks +
          10 * (Breakout.run undef a events).invisibleGems ∧
      ((Breakout.run undef a events).invisibleBricks = 100 ∧
          (Breakout.run undef a events).invisibleGems = 4 ↔
        (Breakout.run undef a events).score = 100 + 10 * 4) := by
  have h := Breakout.run_scoreOK undef a events
  unfold Breakout.ScoreOK at h
  refine ⟨h, ?_⟩
  have b1 := invisibleCount_bounds (Breakout.run undef a events).red_bricks
  have b2 := invisibleCount_bounds (Breakout.run undef a events).grey_bricks
  have b3 := invisibleCount_bounds (Breakout.run undef a events).yellow_bricks
  have b4 := invisibleCount_bounds (Breakout.run undef a events).purple_bricks
  have b5 := invisibleCount_bounds (Breakout.run undef a events).green_bricks
  have b6 := invisibleCount_bounds (Breakout.run undef a events).gems
  rw [h]
  unfold Breakout.invisibleBricks Breakout.invisibleGems
  simp only [brick_num] at b1 b2 b3 b4 b5
  constructor
  · rintro ⟨h1, h2⟩
    omega
  · intro h1
    constructor <;> omega

/-- C5: the lives start at 3; in every state of every run they are 3 minus the number of
missed balls, there are never more than three missed balls, and the lives stay within
0..3; the third missed ball is exactly what sets the game-over flag, and with it set the
playing flag is clear; no delivery raises the lives, and once they are 0 they stay 0. -/
theorem Breakout.lives_three_misses_then_game_over (undef : Sprite → Sprite → Bool)
    (a : Assets) (events : List GameEvent) :
    (Breakout.init a).lives_count = 3 ∧
      (Breakout.run undef a events).lives_count =
        3 - (Breakout.missedBalls undef a events : ℤ) ∧
      Breakout.missedBalls undef a events ≤ 3 ∧
      (0 ≤ (Breakout.run undef a events).lives_count ∧
        (Breakout.run undef a events).lives_count ≤ 3) ∧
      (Breakout.missedBalls undef a events = 3 ↔
        (Breakout.run undef a events).game_over = true) ∧
      ((Breakout.run undef a events).game_over = true →
        (Breakout.run undef a events).in_game_screen = false) ∧
      (∀ e : GameEvent,
        ((Breakout.run undef a events).step undef e).lives_count ≤
            (Breakout.run undef a events).lives_count ∧
          ((Breakout.run undef a events).lives_count = 0 →
            ((Breakout.run undef a events).step undef e).lives_count = 0)) := by
  have hl := Breakout.lives_eq_three_sub_missed undef a events
  have hi := Breakout.run_inv undef a events
  have h0 : (Breakout.init a).lives_count = 3 := congrArg Prod.snd (Breakout.init_status a)
  unfold Breakout.Inv InvOf at hi
  obtain ⟨⟨hb0, hb3⟩, hmodes, hover, -, -⟩ := hi
  have hgo : (Breakout.run undef a events).game_over = true →
      (Breakout.run undef a events).in_game_screen = false := by
    intro hg
    unfold Breakout.modes at hmodes
    rcases hmodes with h | h | h | h
    · simp only [Prod.mk.injEq] at h; simp_all
    · simp only [Prod.mk.injEq] at h; simp_all
    · simp only [Prod.mk.injEq] at h; simp_all
    · exact h.2.1
  refine ⟨h0, hl, by omega, ⟨hb0, hb3⟩, ?_, hgo, ?_⟩
  · rw [show (Breakout.run undef a events).modes.2.2.2.1 =
      (Breakout.run undef a events).game_over from rfl] at hover
    rw [hover]
    omega
  · intro e
    cases e with
    | key k =>
      show ((Breakout.run undef a events).keyHandler k).lives_count ≤ _ ∧ (_ →
        ((Breakout.run undef a events).keyHandler k).lives_count = 0)
      rw [Breakout.keyHandler_lives]
      exact ⟨le_refl _, fun h => h⟩
    | update delta =>
      show ((Breakout.run undef a events).update undef delta).lives_count ≤ _ ∧ (_ →
        ((Breakout.run undef a events).update undef delta).lives_count = 0)
      rw [Breakout.update_lives]
      constructor
      · split_ifs <;> omega
      · intro hz
        have hg := hgo (hover.mpr hz)
        unfold Breakout.missesBall
        rw [hg]
        simpa using hz
    | render =>
      show ((Breakout.run undef a events).render).lives_count ≤ _ ∧ (_ →
        ((Breakout.run undef a events).render).lives_count = 0)
      rw [Breakout.render_lives]
      exact ⟨le_refl _, fun h => h⟩

/-- C6: after an `update` delivered in any state of any run, the win flag is set if and
only if the number of visible bricks over the five layers is 0; and in every state of
every run, the win flag set means no brick is visible: each brick of each layer is
hidden. -/
theorem Breakout.win_iff_no_visible_brick (undef : Sprite → Sprite → Bool) (a : Assets)
    (events : List GameEvent) (delta : ℚ) :
    (((Breakout.run undef a events).update undef delta).win = true ↔
        ((Breakout.run undef a events).update undef delta).visibleBricks = 0) ∧
      ((Breakout.run undef a events).win = true →
        (Breakout.run undef a events).visibleBricks = 0 ∧
        ∀ i : Fin brick_num,
          ((Breakout.run undef a events).red_bricks i).visibility = false ∧
          ((Breakout.run undef a events).grey_bricks i).visibility = false ∧
          ((Breakout.run undef a events).yellow_bricks i).visibility = false ∧
          ((Breakout.run undef a events).purple_bricks i).visibility = false ∧
          ((Breakout.run undef a events).green_bricks i).visibility = false) := by
  have hi := Breakout.run_inv undef a events
  have hu := Breakout.update_inv undef _ delta hi
  unfold Breakout.Inv InvOf at hi hu
  constructor
  · constructor
    · exact hu.2.2.2.1
    · intro hv
      have hs := congrArg Prod.fst (Breakout.update_status undef (Breakout.run undef a events) delta)
      have hw : ((Breakout.run undef a events).update undef delta).win =
          ((Breakout.run undef a events).update undef delta).status.1.2.2.2.2 := rfl
      rw [hw, hs]
      unfold updateModes
      simp [hv]
  · intro hw
    have hv := hi.2.2.2.1 hw
    exact ⟨hv, Breakout.all_hidden_of_visibleBricks_eq_zero _ hv⟩

/-! ## The screen flags -/

set_option maxRecDepth 100000 in
/-- Outside `Assets.RowsAboveRest` the two closing tests of `update` can both fire: a
concrete game with the sprites `narrowAssets` (green bricks 6 x 651, a ball 120 wide on a
paddle 10 wide), in which a render follows every update. After `thirdBallFallingRun` the game is on the playing screen, the only
flag set, with one life left, all 100 bricks visible, the paddle at the left wall and the
ball below the field. The next update misses that ball: `initBall` puts the ball back at
(5, 650), where it overlaps every brick as `render` has laid them out, so the same
collision pass hides all 100 bricks; `update` then sets `game_over` (no life left) and
`win` (no brick visible) one after the other: two screen flags are set. -/
theorem Breakout.game_over_and_win_both_set :
    ((Breakout.run seenFalse narrowAssets thirdBallFallingRun).activeModes = 1 ∧
      (Breakout.run seenFalse narrowAssets thirdBallFallingRun).in_game_screen = true ∧
      (Breakout.run seenFalse narrowAssets thirdBallFallingRun).lives_count = 1 ∧
      (Breakout.run seenFalse narrowAssets thirdBallFallingRun).visibleBricks = 100 ∧
      (Breakout.run seenFalse narrowAssets thirdBallFallingRun).paddle.sprite = ⟨0, 670, 10, 24⟩ ∧
      (Breakout.run seenFalse narrowAssets thirdBallFallingRun).ball.sprite =
        ⟨1030, 1097, 120, 22⟩) ∧
    ((Breakout.run seenFalse narrowAssets lastLifeLastBrickRun).lives_count = 0 ∧
      (Breakout.run seenFalse narrowAssets lastLifeLastBrickRun).visibleBricks = 0 ∧
      (Breakout.run seenFalse narrowAssets lastLifeLastBrickRun).game_over = true ∧
      (Breakout.run seenFalse narrowAssets lastLifeLastBrickRun).win = true ∧
      (Breakout.run seenFalse narrowAssets lastLifeLastBrickRun).activeModes = 2) := by
  decide!

/-! ## Frame integration and reflections -/

/-- C8: an `update` on the playing screen, for any time delta and any paddle velocity,
leaves the paddle at an x position within `[0, game_width - width]`, provided the paddle
is not wider than the field (its width being nonnegative is not even needed); its width
and the field width are not changed. In particular a paddle at x = 0 moving left at 450
ends an update of 1000 ms at x = 0. -/
theorem Breakout.paddle_stays_in_field (undef : Sprite → Sprite → Bool) (g : Breakout)
    (delta : ℚ) (hg : g.in_game_screen = true)
    (h1 : g.paddle.sprite.width ≤ (g.game_width : ℚ)) :
    (0 ≤ (g.update undef delta).paddle.sprite.xPos ∧
      (g.update undef delta).paddle.sprite.xPos ≤
        (g.game_width : ℚ) - g.paddle.sprite.width) ∧
    ((g.update undef delta).paddle.sprite.width = g.paddle.sprite.width ∧
      (g.update undef delta).game_width = g.game_width) ∧
    (g.paddle.sprite.xPos = 0 ∧ g.paddle.velocity.x = -450 →
      (g.update undef 1000).paddle.sprite.xPos = 0) := by
  obtain ⟨hp, hw, -⟩ := Breakout.eq_of_court (Breakout.collisionDetection_court undef g)
  have hu : ∀ d : ℚ, (g.update undef d).paddle =
        ((g.collisionDetection undef).integrate (d / 1000)).paddle ∧
      (g.update undef d).game_width =
        ((g.collisionDetection undef).integrate (d / 1000)).game_width := fun d =>
    ⟨(Breakout.eq_of_court (Breakout.update_paddle undef g d hg)).1,
      (Breakout.eq_of_court (Breakout.update_paddle undef g d hg)).2.1⟩
  have hx : ∀ d : ℚ, (g.update undef d).paddle.sprite.xPos =
      ((g.collisionDetection undef).integrate (d / 1000)).paddle.sprite.xPos := fun d => by
    rw [(hu d).1]
  have hwd : (g.update undef delta).paddle.sprite.width =
      ((g.collisionDetection undef).integrate (delta / 1000)).paddle.sprite.width := by
    rw [(hu delta).1]
  have hgw := (hu delta).2
  have hr := Breakout.integrate_paddle_rest (g.collisionDetection undef) (delta / 1000)
  refine ⟨?_, ⟨?_, ?_⟩, ?_⟩
  · rw [hx, Breakout.integrate_paddle_xPos, hp, hw]
    split_ifs <;> constructor <;> linarith
  · rw [hwd, hr.1, hp]
  · rw [hgw, hr.2, hw]
  · rintro ⟨hx0, hv⟩
    rw [hx, Breakout.integrate_paddle_xPos, hp, hw, hx0, hv]
    norm_num
    intro _
    linarith

set_option maxRecDepth 100000 in
/-- C8 at the game `paddleLeftRun`: the paddle, 104 wide in a field of 1280, is at x = 0
and moves left at 450; after an update of 1000 ms it is at x = 0. -/
theorem Breakout.paddle_stays_in_field_witness :
    (paddleLeftState.in_game_screen = true ∧
      paddleLeftState.paddle.sprite.width ≤ (paddleLeftState.game_width : ℚ) ∧
      paddleLeftState.paddle.sprite.xPos = 0 ∧
      paddleLeftState.paddle.velocity.x = -450) ∧
    (paddleLeftState.update seenFalse 1000).paddle.sprite.xPos = 0 := by
  apply and_of_left
  · decide!
  · intro h
    exact (Breakout.paddle_stays_in_field seenFalse paddleLeftState 1000 h.1 h.2.1).2.2 h.2.2

/-- C9: start from `ball_velocity_x = 300`, `ball_velocity_y = -300`. A collision pass
over a state `g1` in which the ball touches the top boundary and nothing else (no side,
not the bottom, no overlap seen with the paddle, no brick hit) leaves the velocity
(300, 300): only the y component changed sign. A later pass over a state `g2` that
carries that velocity, in which the ball touches the left boundary and nothing else,
leaves the velocity (-300, 300): only the x component changed sign. The velocity of the
ball object is set to the same pair each time. -/
theorem Breakout.top_then_left_reflection (undef : Sprite → Sprite → Bool) (g1 g2 : Breakout)
    (hvx : g1.ball_velocity_x = 300) (hvy : g1.ball_velocity_y = -300)
    (htop1 : g1.ball.sprite.yPos ≤ 0)
    (hside1 : ¬ (g1.ball.sprite.xPos ≤ 0 ∨
      g1.ball.sprite.xPos + g1.ball.sprite.width ≥ (g1.game_width : ℚ)))
    (hbottom1 : ¬ g1.ball.sprite.yPos + g1.ball.sprite.height ≥ (g1.game_height : ℚ))
    (hpaddle1 : Breakout.overlapSeen undef g1.paddle.sprite g1.ball.sprite = false)
    (hbricks1 : g1.hitsNoBrick undef)
    (hcarry : g2.ball_velocity_x = (g1.collisionDetection undef).ball_velocity_x ∧
      g2.ball_velocity_y = (g1.collisionDetection undef).ball_velocity_y)
    (hleft2 : g2.ball.sprite.xPos ≤ 0)
    (htop2 : ¬ g2.ball.sprite.yPos ≤ 0)
    (hbottom2 : ¬ g2.ball.sprite.yPos + g2.ball.sprite.height ≥ (g2.game_height : ℚ))
    (hpaddle2 : Breakout.overlapSeen undef g2.paddle.sprite g2.ball.sprite = false)
    (hbricks2 : g2.hitsNoBrick undef) :
    ((g1.collisionDetection undef).ball_velocity_x = 300 ∧
      (g1.collisionDetection undef).ball_velocity_y = 300 ∧
      (g1.collisionDetection undef).ball.velocity = ⟨300, 300⟩) ∧
    ((g2.collisionDetection undef).ball_velocity_x = -300 ∧
      (g2.collisionDetection undef).ball_velocity_y = 300 ∧
      (g2.collisionDetection undef).ball.velocity = ⟨-300, 300⟩) := by
  have m1 := Breakout.collisionDetection_motion_of_no_hit undef g1 hbottom1 hpaddle1 hbricks1
  have e1 : g1.collideSides.collideTop.motion = (300, 300, ⟨300, 300⟩) := by
    unfold Breakout.collideSides
    rw [if_neg hside1]
    unfold Breakout.collideTop
    rw [if_pos htop1]
    unfold Breakout.motion Breakout.bounceY GameObject.setVelocity
    simp only [hvx, hvy]
    norm_num
  rw [e1] at m1
  unfold Breakout.motion at m1
  simp only [Prod.mk.injEq] at m1
  obtain ⟨a1, a2, a3⟩ := m1
  rw [a1, a2] at hcarry
  have m2 := Breakout.collisionDetection_motion_of_no_hit undef g2 hbottom2 hpaddle2 hbricks2
  have e2 : g2.collideSides.collideTop.motion = (-300, 300, ⟨-300, 300⟩) := by
    unfold Breakout.collideSides
    rw [if_pos (Or.inl hleft2)]
    unfold Breakout.collideTop Breakout.bounceX GameObject.setVelocity
    simp only []
    rw [if_neg htop2]
    unfold Breakout.motion
    simp only [hcarry.1, hcarry.2]
    norm_num
  rw [e2] at m2
  unfold Breakout.motion at m2
  simp only [Prod.mk.injEq] at m2
  exact ⟨⟨a1, a2, a3⟩, m2⟩

set_option maxRecDepth 100000 in
/-- C9 at two states of concrete games: after `topContactRun` the ball, moving at
(300, -300), is above the top boundary and clear of everything else; after
`leftContactRun` the ball, moving at (300, 300), is left of the left boundary and clear
of everything else. The two passes leave (300, 300) and (-300, 300). -/
theorem Breakout.top_then_left_reflection_witness :
    ((topContactState.ball_velocity_x = 300 ∧
        topContactState.ball_velocity_y = -300 ∧
        topContactState.ball.sprite.yPos ≤ 0 ∧
        ¬ (topContactState.ball.sprite.xPos ≤ 0 ∨
          topContactState.ball.sprite.xPos + topContactState.ball.sprite.width ≥
            (topContactState.game_width : ℚ)) ∧
        ¬ (topContactState.ball.sprite.yPos + topContactState.ball.sprite.height ≥
            (topContactState.game_height : ℚ)) ∧
        Breakout.overlapSeen seenFalse topContactState.paddle.sprite
          topContactState.ball.sprite = false ∧
        topContactState.hitsNoBrick seenFalse) ∧
      ((leftContactState.ball_velocity_x =
            (topContactState.collisionDetection seenFalse).ball_velocity_x ∧
          leftContactState.ball_velocity_y =
            (topContactState.collisionDetection seenFalse).ball_velocity_y) ∧
        leftContactState.ball.sprite.xPos ≤ 0 ∧
        ¬ (leftContactState.ball.sprite.yPos ≤ 0) ∧
        ¬ (leftContactState.ball.sprite.yPos + leftContactState.ball.sprite.height ≥
            (leftContactState.game_height : ℚ)) ∧
        Breakout.overlapSeen seenFalse leftContactState.paddle.sprite
          leftContactState.ball.sprite = false ∧
        leftContactState.hitsNoBrick seenFalse)) ∧
    ((topContactState.collisionDetection seenFalse).ball.velocity = ⟨300, 300⟩ ∧
      (leftContactState.collisionDetection seenFalse).ball.velocity = ⟨-300, 300⟩) := by
  apply and_of_left
  · decide!
  · rintro ⟨⟨a1, a2, a3, a4, a5, a6, a7⟩, b1, b2, b3, b4, b5, b6⟩
    have h := Breakout.top_then_left_reflection seenFalse topContactState leftContactState
      a1 a2 a3 a4 a5 a6 a7 b1 b2 b3 b4 b5 b6
    exact ⟨h.1.2.2, h.2.2.2⟩

set_option maxRecDepth 100000 in
/-- C10 fails at the state the game `bottomLeftCornerRun` reaches: the game is on the
playing screen, the ball is at x = -3 with x-velocity 300, in the member `ball_velocity_x`
and in the ball object, and its bottom edge is on the bottom boundary. The collision pass
negates `ball_velocity_x`, then `initBall`, run for the missed ball, sets it back to 300
and stops the ball object; after the pass the x-velocity is 300 in the member and 0 in
the ball object, not -300. -/
theorem Breakout.left_contact_with_miss_not_negated :
    (Breakout.run seenFalse sampleAssets bottomLeftCornerRun).in_game_screen = true ∧
      (Breakout.run seenFalse sampleAssets bottomLeftCornerRun).ball.sprite = ⟨-3, 700, 20, 20⟩ ∧
      (Breakout.run seenFalse sampleAssets bottomLeftCornerRun).game_height = 720 ∧
      (Breakout.run seenFalse sampleAssets bottomLeftCornerRun).ball.sprite.xPos ≤ 0 ∧
      (Breakout.run seenFalse sampleAssets bottomLeftCornerRun).ball_velocity_x = 300 ∧
      (Breakout.run seenFalse sampleAssets bottomLeftCornerRun).ball.velocity.x = 300 ∧
      ((Breakout.run seenFalse sampleAssets bottomLeftCornerRun).collisionDetection
        seenFalse).ball_velocity_x ≠
          -(Breakout.run seenFalse sampleAssets bottomLeftCornerRun).ball_velocity_x ∧
      ((Breakout.run seenFalse sampleAssets bottomLeftCornerRun).collisionDetection
        seenFalse).ball.velocity.x ≠
          -(Breakout.run seenFalse sampleAssets bottomLeftCornerRun).ball.velocity.x := by
  decide!

/-- C10 as amended: a collision pass that starts with the ball's x position at or below
0 and in which the ball is not missed (its bottom edge is above the bottom of the field)
ends with `ball_velocity_x` exactly the negation of its value before the pass, and with
the ball object's x-velocity equal to it, whatever else the ball touches in the pass. -/
theorem Breakout.left_contact_negates_x (undef : Sprite → Sprite → Bool) (g : Breakout)
    (hleft : g.ball.sprite.xPos ≤ 0)
    (hbottom : ¬ g.ball.sprite.yPos + g.ball.sprite.height ≥ (g.game_height : ℚ)) :
    (g.collisionDetection undef).ball_velocity_x = -g.ball_velocity_x ∧
      (g.collisionDetection undef).ball.velocity.x = -g.ball_velocity_x :=
  Breakout.collisionDetection_movesX undef g (Or.inl hleft) hbottom

set_option maxRecDepth 100000 in
/-- C10 as amended, at the state the game `leftWallRun` reaches: the ball is at x = -3,
above the bottom boundary, with x-velocity -300; after the pass the x-velocity is 300. -/
theorem Breakout.left_contact_negates_x_witness :
    (leftWallState.ball.sprite.xPos ≤ 0 ∧
      ¬ (leftWallState.ball.sprite.yPos + leftWallState.ball.sprite.height ≥
          (leftWallState.game_height : ℚ)) ∧
      leftWallState.ball_velocity_x = -300) ∧
    ((leftWallState.collisionDetection seenFalse).ball_velocity_x = 300 ∧
      (leftWallState.collisionDetection seenFalse).ball.velocity.x = 300) := by
  apply and_of_left
  · decide!
  · intro h
    have h2 := Breakout.left_contact_negates_x seenFalse leftWallState h.1 h.2.1
    rw [h.2.2] at h2
    norm_num at h2
    exact h2
/-! ## Cursor, start-up, missed ball, brick hits, serve -/

/-- C11: in every state `g` of every run that shows a screen with a cursor (menu, pause
or game over), a release of the left or right key sets `menu_option` to
`1 - menu_option`, which differs from the value before (0 becomes 1, 1 becomes 0),
and leaves the screen flags as they were; a second such release, handled on the same
screen, restores `menu_option`. -/
theorem Breakout.menu_cursor_toggle_involutive (undef : Sprite → Sprite → Bool) (a : Assets)
    (events : List GameEvent) (g : Breakout) (hg : g = Breakout.run undef a events)
    (k1 k2 : Key) (hk1 : k1 = Key.KEY_LEFT ∨ k1 = Key.KEY_RIGHT)
    (hk2 : k2 = Key.KEY_LEFT ∨ k2 = Key.KEY_RIGHT)
    (hs : g.in_menu = true ∨ g.in_pause_menu = true ∨ g.game_over = true) :
    ((g.keyHandler ⟨k1, KeyAction.KEY_RELEASED⟩).menu_option = 1 - g.menu_option ∧
      (g.keyHandler ⟨k1, KeyAction.KEY_RELEASED⟩).menu_option ≠ g.menu_option ∧
      (g.menu_option = 0 → (g.keyHandler ⟨k1, KeyAction.KEY_RELEASED⟩).menu_option = 1) ∧
      (g.menu_option = 1 → (g.keyHandler ⟨k1, KeyAction.KEY_RELEASED⟩).menu_option = 0)) ∧
    (g.keyHandler ⟨k1, KeyAction.KEY_RELEASED⟩).modes = g.modes ∧
    ((g.keyHandler ⟨k1, KeyAction.KEY_RELEASED⟩).keyHandler
      ⟨k2, KeyAction.KEY_RELEASED⟩).menu_option = g.menu_option := by
  have hinv : g.Inv := hg ▸ Breakout.run_inv undef a events
  have e1 := Breakout.keyHandler_toggle g hinv k1 hk1 hs
  have hinv2 := Breakout.keyHandler_inv g ⟨k1, KeyAction.KEY_RELEASED⟩ hinv
  have e2 := Breakout.keyHandler_toggle _ hinv2 k2 hk2 (by rw [e1]; exact hs)
  refine ⟨⟨?_, ?_, ?_, ?_⟩, ?_, ?_⟩
  · rw [e1]
  · rw [e1]
    show 1 - g.menu_option ≠ g.menu_option
    omega
  · intro h0
    rw [e1]
    show 1 - g.menu_option = 1
    omega
  · intro h1
    rw [e1]
    show 1 - g.menu_option = 0
    omega
  · rw [e1]
    rfl
  · rw [e2, e1]
    show 1 - (1 - g.menu_option) = g.menu_option
    omega

set_option maxRecDepth 100000 in
/-- C11 at the first state of a game (the menu, cursor on 0): left released puts the
cursor on 1, right released after it puts it back on 0. -/
theorem Breakout.menu_cursor_toggle_involutive_witness :
    (menuState.in_menu = true ∧ menuState.menu_option = 0) ∧
    (menuState.keyHandler ⟨Key.KEY_LEFT, KeyAction.KEY_RELEASED⟩).menu_option = 1 ∧
    ((menuState.keyHandler ⟨Key.KEY_LEFT, KeyAction.KEY_RELEASED⟩).keyHandler
      ⟨Key.KEY_RIGHT, KeyAction.KEY_RELEASED⟩).menu_option = 0 := by
  apply and_of_left
  · decide!
  · intro h
    have t := Breakout.menu_cursor_toggle_involutive seenFalse sampleAssets [] menuState rfl
      Key.KEY_LEFT Key.KEY_RIGHT (Or.inl rfl) (Or.inr rfl) (Or.inl h.1)
    exact ⟨t.1.2.2.1 h.2, t.2.2.trans h.2⟩

/-- C12 fails when `paddleRed.png` cannot be loaded, and when the gems' image cannot:
`initGameObjects` returns `false` (at its first statement, and in the gem loop), and
`init`, which does not read that value, returns `true`. -/
theorem Breakout.init_returns_true_on_missing_texture :
    (Breakout.initGameObjectsReturns paddleMissing = some false ∧
      Breakout.initReturns true paddleMissing = true) ∧
    (Breakout.initGameObjectsReturns gemMissing = some false ∧
      Breakout.initReturns true gemMissing = true) := by
  decide

set_option maxRecDepth 100000 in
/-- C13 fails at the state the game `ballBelowFieldRun` reaches with a ball of 22 x 22:
the game is on the playing screen and the ball, at (715, 725), has its bottom edge below
the bottom of the field (720). The collision pass takes one life and clears `serve`, and
`initBall` puts the ball at (640, 650) with the members at (300, -300) and the ball
object at rest. The paddle statement of the same pass comes next: the ball, 22 high, now
overlaps the paddle (at y = 670), so `ball_velocity_y` is reflected to 300 and the ball
object is given the velocity (300, 300). The pass ends with a ball that is not at rest
and a reflected vertical velocity. -/
theorem Breakout.missed_ball_bounced_off_paddle :
    (ballBelowFieldState.modes = (false, true, false, false, false) ∧
      ballBelowFieldState.ball.sprite = ⟨715, 725, 22, 22⟩ ∧
      ballBelowFieldState.paddle.sprite = ⟨588, 670, 104, 24⟩ ∧
      ballBelowFieldState.game_height = 720 ∧
      ballBelowFieldState.ball.sprite.yPos + ballBelowFieldState.ball.sprite.height ≥
        (ballBelowFieldState.game_height : ℚ) ∧
      ballBelowFieldState.lives_count = 3) ∧
    ((ballBelowFieldState.collisionDetection seenFalse).lives_count = 2 ∧
      (ballBelowFieldState.collisionDetection seenFalse).serve = false ∧
      (ballBelowFieldState.collisionDetection seenFalse).ball.sprite = ⟨640, 650, 22, 22⟩ ∧
      Breakout.isOverlapping ballBelowFieldState.paddle.sprite
        (ballBelowFieldState.collisionDetection seenFalse).ball.sprite = some true ∧
      (ballBelowFieldState.collisionDetection seenFalse).ball.velocity = ⟨300, 300⟩ ∧
      (ballBelowFieldState.collisionDetection seenFalse).ball.velocity ≠ ⟨0, 0⟩ ∧
      (ballBelowFieldState.collisionDetection seenFalse).ball_velocity_y = 300) := by
  decide!

set_option maxRecDepth 100000 in
/-- C14 fails at the state the game `gemCatchRun` reaches: the game is on the playing
screen, the ball rests on the paddle, at (675, 649), touching no boundary, not overlapping
the paddle, at (633, 670), and overlapping no brick (k = 0); gem 2, visible, at
(720, 644), overlaps the paddle. The collision pass collects the gem in its gem loop: the
score goes from 1 to 11, not to 1 + k = 1. -/
theorem Breakout.pass_with_gem_adds_ten :
    (gemCatchState.modes = (false, true, false, false, false) ∧
      gemCatchState.ball.sprite = ⟨675, 649, 20, 20⟩ ∧
      gemCatchState.paddle.sprite = ⟨633, 670, 104, 24⟩ ∧
      (gemCatchState.gems 2).sprite = ⟨720, 644, 32, 32⟩ ∧
      (gemCatchState.gems 2).visibility = true ∧
      gemCatchState.score = 1) ∧
    (¬ (gemCatchState.ball.sprite.xPos ≤ 0 ∨
        gemCatchState.ball.sprite.xPos + gemCatchState.ball.sprite.width ≥
          (gemCatchState.game_width : ℚ)) ∧
      ¬ (gemCatchState.ball.sprite.yPos ≤ 0) ∧
      ¬ (gemCatchState.ball.sprite.yPos + gemCatchState.ball.sprite.height ≥
          (gemCatchState.game_height : ℚ)) ∧
      Breakout.isOverlapping gemCatchState.paddle.sprite gemCatchState.ball.sprite = none ∧
      gemCatchState.brickHits seenFalse = 0) ∧
    ((gemCatchState.collisionDetection seenFalse).score = 11 ∧
      (gemCatchState.collisionDetection seenFalse).score ≠
        gemCatchState.score + (gemCatchState.brickHits seenFalse : ℤ)) := by
  decide!

/-- C14 as amended: a collision pass over a state `g` in which the ball touches no
boundary (no side, not the top, not the bottom), is not seen to overlap the paddle, and
in which no visible gem is seen to overlap the paddle; k = `g.brickHits undef` is the
number of visible bricks, over all layers and indices, the ball is seen to overlap. The
pass adds exactly k to the score; after it a brick is visible exactly when it was visible
before and is not one of those k bricks; `ball_velocity_y` is multiplied by (-1)^k and
`ball_velocity_x` is unchanged, and when k > 0 the ball object moves with that pair. -/
theorem Breakout.simultaneous_brick_hits (undef : Sprite → Sprite → Bool) (g : Breakout)
    (hside : ¬ (g.ball.sprite.xPos ≤ 0 ∨
      g.ball.sprite.xPos + g.ball.sprite.width ≥ (g.game_width : ℚ)))
    (htop : ¬ g.ball.sprite.yPos ≤ 0)
    (hbottom : ¬ g.ball.sprite.yPos + g.ball.sprite.height ≥ (g.game_height : ℚ))
    (hpaddle : Breakout.overlapSeen undef g.paddle.sprite g.ball.sprite = false)
    (hgem : g.collectsNoGem undef) :
    (g.collisionDetection undef).score = g.score + (g.brickHits undef : ℤ) ∧
    (∀ i : Fin brick_num,
      (((g.collisionDetection undef).red_bricks i).visibility =
        ((g.red_bricks i).visibility && !g.hitsRed undef i)) ∧
      (((g.collisionDetection undef).grey_bricks i).visibility =
        ((g.grey_bricks i).visibility && !g.hitsGrey undef i)) ∧
      (((g.collisionDetection undef).yellow_bricks i).visibility =
        ((g.yellow_bricks i).visibility && !g.hitsYellow undef i)) ∧
      (((g.collisionDetection undef).purple_bricks i).visibility =
        ((g.purple_bricks i).visibility && !g.hitsPurple undef i)) ∧
      (((g.collisionDetection undef).green_bricks i).visibility =
        ((g.green_bricks i).visibility && !g.hitsGreen undef i))) ∧
    ((g.collisionDetection undef).ball_velocity_y =
        g.ball_velocity_y * (-1) ^ (g.brickHits undef) ∧
      (g.collisionDetection undef).ball_velocity_x = g.ball_velocity_x ∧
      (g.collisionDetection undef).ball.velocity =
        if g.brickHits undef = 0 then g.ball.velocity
        else ⟨g.ball_velocity_x, g.ball_velocity_y * (-1) ^ (g.brickHits undef)⟩) := by
  rw [Breakout.collisionDetection_eq_bricks undef g hside htop hbottom hpaddle hgem]
  have h := Breakout.collideBricks_hitsDone undef g
  exact ⟨h.score, fun i => ⟨(rowDone_univ h.red i).1, (rowDone_univ h.grey i).1,
    (rowDone_univ h.yellow i).1, (rowDone_univ h.purple i).1, (rowDone_univ h.green i).1⟩,
    h.vy, h.vx, h.velocity⟩

set_option maxRecDepth 100000 in
/-- C14 as amended, at the state the game `fourBricksRun` reaches: the ball, at
(695, 89) with `ball_velocity_y = -300`, overlaps yellow 10, yellow 11, grey 10 and
grey 11 (k = 4) and touches nothing else. The pass takes the score from 0 to 4, hides
those four bricks and leaves `ball_velocity_y` at -300, reflected four times. -/
theorem Breakout.simultaneous_brick_hits_witness :
    ((¬ (fourBricksState.ball.sprite.xPos ≤ 0 ∨
        fourBricksState.ball.sprite.xPos + fourBricksState.ball.sprite.width ≥
          (fourBricksState.game_width : ℚ)) ∧
      ¬ (fourBricksState.ball.sprite.yPos ≤ 0) ∧
      ¬ (fourBricksState.ball.sprite.yPos + fourBricksState.ball.sprite.height ≥
          (fourBricksState.game_height : ℚ)) ∧
      Breakout.overlapSeen seenFalse fourBricksState.paddle.sprite
        fourBricksState.ball.sprite = false ∧
      fourBricksState.collectsNoGem seenFalse) ∧
      (fourBricksState.score = 0 ∧ fourBricksState.ball_velocity_y = -300 ∧
        fourBricksState.brickHits seenFalse = 4 ∧
        fourBricksState.hitsYellow seenFalse 10 = true ∧
        fourBricksState.hitsYellow seenFalse 11 = true ∧
        fourBricksState.hitsGrey seenFalse 10 = true ∧
        fourBricksState.hitsGrey seenFalse 11 = true)) ∧
    ((fourBricksState.collisionDetection seenFalse).score = 4 ∧
      (fourBricksState.collisionDetection seenFalse).ball_velocity_y = -300 ∧
      ((fourBricksState.collisionDetection seenFalse).yellow_bricks 10).visibility = false ∧
      ((fourBricksState.collisionDetection seenFalse).yellow_bricks 11).visibility = false ∧
      ((fourBricksState.collisionDetection seenFalse).grey_bricks 10).visibility = false ∧
      ((fourBricksState.collisionDetection seenFalse).grey_bricks 11).visibility = false) := by
  apply and_of_left
  · decide!
  · rintro ⟨⟨a1, a2, a3, a4, a5⟩, b1, b2, b3, b4, b5, b6, b7⟩
    have t := Breakout.simultaneous_brick_hits seenFalse fourBricksState a1 a2 a3 a4 a5
    refine ⟨?_, ?_, ?_, ?_, ?_, ?_⟩
    · rw [t.1, b1, b3]
      rfl
    · rw [t.2.2.1, b2, b3]
      norm_num
    · rw [(t.2.1 10).2.2.1, b4]
      simp
    · rw [(t.2.1 11).2.2.1, b5]
      simp
    · rw [(t.2.1 10).2.1, b6]
      simp
    · rw [(t.2.1 11).2.1, b7]
      simp

set_option maxRecDepth 100000 in
/-- C15 fails at the state the game `gemFallingRun` reaches: the game is on the playing
screen, the ball in flight after a brick reflected it downwards, the members
`ball_velocity_x`, `ball_velocity_y` holding (300, 300). Space pressed sets `serve` and
gives the ball object the velocity (300, 300), not (300, -300). -/
theorem Breakout.space_after_bounce_not_initial_velocity :
    gemFallingState.modes = (false, true, false, false, false) ∧
      gemFallingState.ball_velocity_x = 300 ∧
      gemFallingState.ball_velocity_y = 300 ∧
      (gemFallingState.keyHandler ⟨Key.KEY_SPACE, KeyAction.KEY_PRESSED⟩).serve = true ∧
      (gemFallingState.keyHandler ⟨Key.KEY_SPACE, KeyAction.KEY_PRESSED⟩).ball.velocity =
        ⟨300, 300⟩ ∧
      (gemFallingState.keyHandler ⟨Key.KEY_SPACE, KeyAction.KEY_PRESSED⟩).ball.velocity ≠
        ⟨300, -300⟩ := by
  decide!

/-- C15 as amended: in every state with `in_game_screen` set, Space pressed sets `serve`
and sets the velocity of the ball object to the pair of members
(`ball_velocity_x`, `ball_velocity_y`) as they stand at the event, and changes nothing
else. That pair is (300, -300) at the start of a game and after every `initBall`; so
where the members hold (300, -300) the ball leaves with (300, -300). -/
theorem Breakout.space_serves_with_stored_velocity (g : Breakout)
    (hg : g.in_game_screen = true) :
    (g.keyHandler ⟨Key.KEY_SPACE, KeyAction.KEY_PRESSED⟩ =
        { g with serve := true,
                 ball := g.ball.setVelocity ⟨g.ball_velocity_x, g.ball_velocity_y⟩ } ∧
      (g.keyHandler ⟨Key.KEY_SPACE, KeyAction.KEY_PRESSED⟩).serve = true ∧
      (g.keyHandler ⟨Key.KEY_SPACE, KeyAction.KEY_PRESSED⟩).ball.velocity =
        ⟨g.ball_velocity_x, g.ball_velocity_y⟩) ∧
    (g.ball_velocity_x = 300 ∧ g.ball_velocity_y = -300 →
      (g.keyHandler ⟨Key.KEY_SPACE, KeyAction.KEY_PRESSED⟩).ball.velocity = ⟨300, -300⟩) ∧
    ((g.initBall.ball_velocity_x = 300 ∧ g.initBall.ball_velocity_y = -300) ∧
      ∀ a : Assets, (Breakout.init a).ball_velocity_x = 300 ∧
        (Breakout.init a).ball_velocity_y = -300) := by
  have e := Breakout.keyHandler_game_space g hg
  refine ⟨⟨e, ?_, ?_⟩, ?_, ⟨rfl, rfl⟩, fun a => ⟨rfl, rfl⟩⟩
  · rw [e]
  · rw [e]
    rfl
  · rintro ⟨hx, hy⟩
    rw [e]
    show (⟨g.ball_velocity_x, g.ball_velocity_y⟩ : Vector2) = ⟨300, -300⟩
    rw [hx, hy]

set_option maxRecDepth 100000 in
/-- C15 as amended, at the first playing state of a game with the sample sprites: the
members hold (300, -300) and Space pressed serves the ball with (300, -300). -/
theorem Breakout.space_serves_with_stored_velocity_witness :
    (firstPlayingState.in_game_screen = true ∧
      firstPlayingState.ball_velocity_x = 300 ∧ firstPlayingState.ball_velocity_y = -300) ∧
    ((firstPlayingState.keyHandler ⟨Key.KEY_SPACE, KeyAction.KEY_PRESSED⟩).serve = true ∧
      (firstPlayingState.keyHandler ⟨Key.KEY_SPACE, KeyAction.KEY_PRESSED⟩).ball.velocity =
        ⟨300, -300⟩) := by
  apply and_of_left
  · decide!
  · intro h
    have t := Breakout.space_serves_with_stored_velocity firstPlayingState h.1
    exact ⟨t.1.2.1, t.2.1 h.2⟩

/-! ## Monotone counters, menu and pause keys, updates off the playing screen, gems -/

/-- C16: for every state `g` (hence every state of a run) and every delivery `e` (key
event, update or render), the score after the step is at least the score before, the
lives after it are at most the lives before, and every brick of every layer that is not
visible before the step is not visible after it. The same holds from any state of a run
to any later state of that run. -/
theorem Breakout.counters_monotone (undef : Sprite → Sprite → Bool) (g : Breakout)
    (e : GameEvent) :
    (g.score ≤ (g.step undef e).score ∧ (g.step undef e).lives_count ≤ g.lives_count ∧
      ∀ i : Fin brick_num,
        ((g.red_bricks i).visibility = false →
          ((g.step undef e).red_bricks i).visibility = false) ∧
        ((g.grey_bricks i).visibility = false →
          ((g.step undef e).grey_bricks i).visibility = false) ∧
        ((g.yellow_bricks i).visibility = false →
          ((g.step undef e).yellow_bricks i).visibility = false) ∧
        ((g.purple_bricks i).visibility = false →
          ((g.step undef e).purple_bricks i).visibility = false) ∧
        ((g.green_bricks i).visibility = false →
          ((g.step undef e).green_bricks i).visibility = false)) ∧
    ∀ (a : Assets) (events more : List GameEvent),
      (Breakout.run undef a events).Grows (Breakout.run undef a (events ++ more)) := by
  refine ⟨Breakout.step_grows undef g e, fun a events more => ?_⟩
  unfold Breakout.run
  rw [List.foldl_append]
  exact foldl_keeps (fun b => (List.foldl (Breakout.step undef) (Breakout.init a) events).Grows b)
    _ (fun b ev hb => Breakout.grows_trans hb (Breakout.step_grows undef b ev)) more _
    (Breakout.grows_refl _)

/-- C17: a game starts on the menu screen, the only flag set. In every state `g` of every
run that shows the menu, an Enter key event (any action) with the cursor on 0 clears
`in_menu` and sets `in_game_screen` and changes nothing else (the exit signal stays as it
was, playing is the only flag set); with the cursor on 1 it sets the exit signal and
changes nothing else (the menu stays the only flag set). Score, lives and every game
object are the same after the event in both cases. -/
theorem Breakout.menu_enter_plays_or_exits (undef : Sprite → Sprite → Bool) (a : Assets)
    (events : List GameEvent) (g : Breakout) (hg : g = Breakout.run undef a events)
    (hm : g.in_menu = true) (action : KeyAction) :
    (Breakout.init a).modes = (true, false, false, false, false) ∧
    (g.menu_option = 0 →
      g.keyHandler ⟨Key.KEY_ENTER, action⟩ = { g with in_menu := false, in_game_screen := true } ∧
      (g.keyHandler ⟨Key.KEY_ENTER, action⟩).modes = (false, true, false, false, false) ∧
      (g.keyHandler ⟨Key.KEY_ENTER, action⟩).exit = g.exit) ∧
    (g.menu_option = 1 →
      g.keyHandler ⟨Key.KEY_ENTER, action⟩ = { g with exit := true } ∧
      (g.keyHandler ⟨Key.KEY_ENTER, action⟩).modes = (true, false, false, false, false) ∧
      (g.keyHandler ⟨Key.KEY_ENTER, action⟩).exit = true) := by
  have hinv : g.Inv := hg ▸ Breakout.run_inv undef a events
  have hmodes := Breakout.modes_of_in_menu g hinv hm
  have e := Breakout.keyHandler_menu_enter g hmodes action
  have hw : g.win = false := by
    unfold Breakout.modes at hmodes
    simp only [Prod.mk.injEq] at hmodes
    exact hmodes.2.2.2.2
  have hp : g.in_pause_menu = false ∧ g.game_over = false := by
    unfold Breakout.modes at hmodes
    simp only [Prod.mk.injEq] at hmodes
    exact ⟨hmodes.2.2.1, hmodes.2.2.2.1⟩
  refine ⟨?_, ?_, ?_⟩
  · have := Breakout.init_status a
    exact congrArg Prod.fst this
  · intro h0
    have e0 := e.2 (by omega)
    refine ⟨e0, ?_, ?_⟩
    · rw [e0]
      unfold Breakout.modes
      simp only [hp.1, hp.2, hw]
    · rw [e0]
  · intro h1
    have e1 := e.1 h1
    refine ⟨e1, ?_, ?_⟩
    · rw [e1]
      exact hmodes
    · rw [e1]

set_option maxRecDepth 100000 in
/-- C17 at two states of a game with the sample sprites: on the first state (menu, cursor
on 0) Enter pressed leads to the playing screen with the exit signal clear; after one
release of the left key (menu, cursor on 1) Enter pressed sets the exit signal and the
menu stays. -/
theorem Breakout.menu_enter_plays_or_exits_witness :
    ((menuState.in_menu = true ∧ menuState.menu_option = 0 ∧ menuState.exit = false) ∧
      (menuExitState.in_menu = true ∧ menuExitState.menu_option = 1)) ∧
    (((menuState.keyHandler ⟨Key.KEY_ENTER, KeyAction.KEY_PRESSED⟩).modes =
        (false, true, false, false, false) ∧
      (menuState.keyHandler ⟨Key.KEY_ENTER, KeyAction.KEY_PRESSED⟩).exit = false) ∧
    ((menuExitState.keyHandler ⟨Key.KEY_ENTER, KeyAction.KEY_PRESSED⟩).modes =
        (true, false, false, false, false) ∧
      (menuExitState.keyHandler ⟨Key.KEY_ENTER, KeyAction.KEY_PRESSED⟩).exit = true)) := by
  apply and_of_left
  · decide!
  · intro h
    have t0 := (Breakout.menu_enter_plays_or_exits seenFalse sampleAssets [] menuState rfl
      h.1.1 KeyAction.KEY_PRESSED).2.1 h.1.2.1
    have t1 := (Breakout.menu_enter_plays_or_exits seenFalse sampleAssets
      [released Key.KEY_LEFT] menuExitState rfl h.2.1 KeyAction.KEY_PRESSED).2.2 h.2.2
    exact ⟨⟨t0.2.1, t0.2.2.trans h.1.2.2⟩, t1.2.1, t1.2.2⟩

/-- C18: in every state `g` of every run that shows the playing screen, a P key event
(any action) clears `in_game_screen` and sets `in_pause_menu` and changes nothing else:
pause is the only flag set. If the cursor is then on 0, an Enter key event (any action)
that follows gives back the state `g` itself: playing is again the only flag set, and
score, lives, `serve`, every game object (position, velocity, visibility) and every other
member have the values they had before P. -/
theorem Breakout.pause_resume_round_trip (undef : Sprite → Sprite → Bool) (a : Assets)
    (events : List GameEvent) (g : Breakout) (hg : g = Breakout.run undef a events)
    (hp : g.in_game_screen = true) (a1 a2 : KeyAction)
    (hc : (g.keyHandler ⟨Key.KEY_P, a1⟩).menu_option = 0) :
    (g.keyHandler ⟨Key.KEY_P, a1⟩ = { g with in_game_screen := false, in_pause_menu := true } ∧
      (g.keyHandler ⟨Key.KEY_P, a1⟩).modes = (false, false, true, false, false)) ∧
    ((g.keyHandler ⟨Key.KEY_P, a1⟩).keyHandler ⟨Key.KEY_ENTER, a2⟩ = g ∧
      ((g.keyHandler ⟨Key.KEY_P, a1⟩).keyHandler ⟨Key.KEY_ENTER, a2⟩).modes =
        (false, true, false, false, false)) := by
  have hinv : g.Inv := hg ▸ Breakout.run_inv undef a events
  have hmodes := Breakout.modes_of_in_game_screen g hinv hp
  have e1 := Breakout.keyHandler_game_p g hmodes a1
  have hf := hmodes
  unfold Breakout.modes at hf
  simp only [Prod.mk.injEq] at hf
  obtain ⟨f1, f2, f3, f4, f5⟩ := hf
  have hm1 : (g.keyHandler ⟨Key.KEY_P, a1⟩).modes = (false, false, true, false, false) := by
    rw [e1]
    unfold Breakout.modes
    simp only [f1, f4, f5]
  have e2 := (Breakout.keyHandler_pause_enter _ hm1 a2).2 (by rw [hc]; decide)
  have e3 : (g.keyHandler ⟨Key.KEY_P, a1⟩).keyHandler ⟨Key.KEY_ENTER, a2⟩ = g := by
    rw [e2, e1]
    cases g
    simp only [Breakout.mk.injEq, true_and, and_true] at *
    simp_all
  exact ⟨⟨e1, hm1⟩, e3, by rw [e3]; exact hmodes⟩

set_option maxRecDepth 100000 in
/-- C18 at the first playing state of a game with the sample sprites: P pressed pauses
the game, Enter pressed after it gives the playing state back. -/
theorem Breakout.pause_resume_round_trip_witness :
    (firstPlayingState.in_game_screen = true ∧
      (firstPlayingState.keyHandler ⟨Key.KEY_P, KeyAction.KEY_PRESSED⟩).menu_option = 0) ∧
    ((firstPlayingState.keyHandler ⟨Key.KEY_P, KeyAction.KEY_PRESSED⟩).modes =
        (false, false, true, false, false) ∧
      (firstPlayingState.keyHandler ⟨Key.KEY_P, KeyAction.KEY_PRESSED⟩).keyHandler
        ⟨Key.KEY_ENTER, KeyAction.KEY_PRESSED⟩ = firstPlayingState) := by
  apply and_of_left
  · decide!
  · intro h
    have t := Breakout.pause_resume_round_trip seenFalse sampleAssets [pressed Key.KEY_ENTER]
      firstPlayingState rfl h.1 KeyAction.KEY_PRESSED KeyAction.KEY_PRESSED h.2
    exact ⟨t.1.2, t.2.1⟩

set_option maxRecDepth 100000 in
/-- C19 fails at the state the game `pausedGemRun` reaches: the game is paused (the only
flag set), yellow brick 11 has been hidden and gem 2, tied to it, is at (720, 164). An
update of 1000 ms delivered in this state moves the gem to (720, 364): the gem
statements of `update` are outside its `if (in_game_screen)` block. The game is still
paused after the update. -/
theorem Breakout.paused_update_moves_gem :
    (pausedGemState.modes = (false, false, true, false, false) ∧
      (pausedGemState.yellow_bricks 11).visibility = false ∧
      (pausedGemState.gems 2).sprite = ⟨720, 164, 32, 32⟩) ∧
    ((pausedGemState.update seenFalse 1000).modes = (false, false, true, false, false) ∧
      ((pausedGemState.update seenFalse 1000).gems 2).sprite = ⟨720, 364, 32, 32⟩ ∧
      ((pausedGemState.update seenFalse 1000).gems 2).sprite.yPos ≠
        (pausedGemState.gems 2).sprite.yPos) := by
  decide!

/-- C20 as amended: the gems are tied as stated (gem 0 to purple brick 2, gem 1 to red
brick 7, gem 2 to yellow brick 11, gem 3 to green brick 14). For every state, every
update with time delta `delta` in milliseconds (dt = delta / 1000 seconds) and every gem:
if the tied brick is not visible once the collision pass of this update has run, which
is when the gem statements test it, the gem's y position after the update is its y
position before plus 200 * dt, whatever that position is; this is the case whenever the
tied brick is not visible before the update. If the tied brick is still visible after
that pass, the gem's sprite is unchanged. The gem's x position and size are the same
after the update in every case. There is no upper bound: once the tied brick is not
visible, for every bound an update takes the gem's y position beyond it. -/
theorem Breakout.gem_falls_once_brick_hidden (undef : Sprite → Sprite → Bool) (g : Breakout)
    (delta : ℚ) (i : Fin 4) :
    (g.tiedBrick 0 = g.purple_bricks 2 ∧ g.tiedBrick 1 = g.red_bricks 7 ∧
      g.tiedBrick 2 = g.yellow_bricks 11 ∧ g.tiedBrick 3 = g.green_bricks 14) ∧
    ((((g.update undef delta).tiedBrick i).visibility = false →
        ((g.update undef delta).gems i).sprite.yPos =
          (g.gems i).sprite.yPos + 200 * (delta / 1000)) ∧
      ((g.tiedBrick i).visibility = false →
        ((g.update undef delta).gems i).sprite.yPos =
          (g.gems i).sprite.yPos + 200 * (delta / 1000)) ∧
      (((g.update undef delta).tiedBrick i).visibility = true →
        ((g.update undef delta).gems i).sprite = (g.gems i).sprite)) ∧
    (((g.update undef delta).gems i).sprite.xPos = (g.gems i).sprite.xPos ∧
      ((g.update undef delta).gems i).sprite.width = (g.gems i).sprite.width ∧
      ((g.update undef delta).gems i).sprite.height = (g.gems i).sprite.height) ∧
    ((g.tiedBrick i).visibility = false →
      ∀ B : ℚ, ∃ d : ℚ, B < ((g.update undef d).gems i).sprite.yPos) := by
  have hs := fun d : ℚ => Breakout.update_gem_sprite undef g d i
  have hstay : ∀ d : ℚ, (g.tiedBrick i).visibility = false →
      ((g.update undef d).tiedBrick i).visibility = false := by
    intro d
    have hgr := (Breakout.update_grows undef g d).2.2
    fin_cases i
    · exact (hgr 2).2.2.2.1
    · exact (hgr 7).1
    · exact (hgr 11).2.2.1
    · exact (hgr 14).2.2.2.2
  have hfall : ∀ d : ℚ, ((g.update undef d).tiedBrick i).visibility = false →
      ((g.update undef d).gems i).sprite.yPos = (g.gems i).sprite.yPos + 200 * (d / 1000) := by
    intro d hv
    rw [hs d, hv]
    rfl
  refine ⟨⟨rfl, rfl, rfl, rfl⟩, ⟨hfall delta, fun hv => hfall delta (hstay delta hv), ?_⟩,
    ?_, ?_⟩
  · intro hv
    rw [hs delta, hv]
    rfl
  · rw [hs delta]
    split_ifs <;> exact ⟨rfl, rfl, rfl⟩
  · intro hv B
    refine ⟨5 * (B - (g.gems i).sprite.yPos) + 5, ?_⟩
    rw [hfall _ (hstay _ hv)]
    linarith


/-! ## The resting ball -/

/-- C21: for every state `g` on the playing screen and every time delta, if `serve` is
`false` after the update, then after the update the ball is centred on the paddle and
one unit above it, the paddle being the one the update leaves (moved and clamped):
ball.x = paddle.x + paddle.width / 2 - ball.width / 2 and
ball.y = paddle.y - (ball.height + 1). The velocity of the ball object takes no part: it
is the one the collision pass left. Consequently the ball's bottom edge is one unit above
the paddle's top edge, and the overlap test of paddle and ball does not return `true`, in
either order of its arguments. -/
theorem Breakout.resting_ball_centred_on_paddle (undef : Sprite → Sprite → Bool) (g : Breakout)
    (delta : ℚ) (hg : g.in_game_screen = true) (hs : (g.update undef delta).serve = false) :
    ((g.update undef delta).ball.sprite.xPos =
        (g.update undef delta).paddle.sprite.xPos + (g.update undef delta).paddle.sprite.width / 2 -
          (g.update undef delta).ball.sprite.width / 2 ∧
      (g.update undef delta).ball.sprite.yPos =
        (g.update undef delta).paddle.sprite.yPos - ((g.update undef delta).ball.sprite.height + 1)) ∧
    ((g.update undef delta).paddle =
        ((g.collisionDetection undef).integrate (delta / 1000)).paddle ∧
      (g.update undef delta).ball.velocity = (g.collisionDetection undef).ball.velocity) ∧
    ((g.update undef delta).ball.sprite.yPos + (g.update undef delta).ball.sprite.height =
        (g.update undef delta).paddle.sprite.yPos - 1 ∧
      Breakout.isOverlapping (g.update undef delta).paddle.sprite
        (g.update undef delta).ball.sprite ≠ some true ∧
      Breakout.isOverlapping (g.update undef delta).ball.sprite
        (g.update undef delta).paddle.sprite ≠ some true) := by
  obtain ⟨hp, hb, hsv⟩ := Breakout.update_playing_objects undef g delta hg
  have hs2 : (g.collisionDetection undef).serve = false := by
    rw [← Breakout.integrate_serve _ (delta / 1000), ← hsv]
    exact hs
  obtain ⟨hr, hv⟩ := Breakout.integrate_resting (g.collisionDetection undef) (delta / 1000) hs2
  have hx : (g.update undef delta).ball.sprite.xPos =
      (g.update undef delta).paddle.sprite.xPos + (g.update undef delta).paddle.sprite.width / 2 -
        (g.update undef delta).ball.sprite.width / 2 := by
    rw [hb, hp, hr]
  have hy : (g.update undef delta).ball.sprite.yPos =
      (g.update undef delta).paddle.sprite.yPos - ((g.update undef delta).ball.sprite.height + 1) := by
    rw [hb, hp, hr]
  have hbot : (g.update undef delta).ball.sprite.yPos + (g.update undef delta).ball.sprite.height =
      (g.update undef delta).paddle.sprite.yPos - 1 := by
    rw [hy]
    ring
  refine ⟨⟨hx, hy⟩, ⟨hp, by rw [hb, hv]⟩, hbot, ?_, ?_⟩
  · intro h
    rw [Breakout.isOverlapping_eq_some_true_iff] at h
    linarith [h.2.2.2]
  · intro h
    rw [Breakout.isOverlapping_eq_some_true_iff] at h
    linarith [h.2.2.1]

set_option maxRecDepth 100000 in
/-- C21 at the state the game `ballBelowFieldRun` reaches with a ball of 22 x 22: the
update of 16 ms misses the ball and ends with `serve` clear and the ball object moving at
(300, 300); the ball is at (629, 647), centred on the paddle at (588, 670), 104 wide,
with its bottom edge at 669. -/
theorem Breakout.resting_ball_centred_on_paddle_witness :
    (ballBelowFieldState.in_game_screen = true ∧
      (ballBelowFieldState.update seenFalse 16).serve = false ∧
      (ballBelowFieldState.update seenFalse 16).paddle.sprite = ⟨588, 670, 104, 24⟩ ∧
      (ballBelowFieldState.update seenFalse 16).ball.sprite.width = 22 ∧
      (ballBelowFieldState.update seenFalse 16).ball.sprite.height = 22 ∧
      (ballBelowFieldState.update seenFalse 16).ball.velocity = ⟨300, 300⟩) ∧
    ((ballBelowFieldState.update seenFalse 16).ball.sprite.xPos = 629 ∧
      (ballBelowFieldState.update seenFalse 16).ball.sprite.yPos = 647 ∧
      Breakout.isOverlapping (ballBelowFieldState.update seenFalse 16).paddle.sprite
        (ballBelowFieldState.update seenFalse 16).ball.sprite ≠ some true) := by
  apply and_of_left
  · decide!
  · rintro ⟨a1, a2, a3, a4, a5, -⟩
    have t := Breakout.resting_ball_centred_on_paddle seenFalse ballBelowFieldState 16 a1 a2
    refine ⟨?_, ?_, t.2.2.2.1⟩
    · rw [t.1.1, a3, a4]
      norm_num
    · rw [t.1.2, a3, a5]
      norm_num

/-! ## Speed preservation -/

/-- C22: in every state of every run (any sprites, any key events, updates and renders,
any value read when `isOverlapping` runs off its end) the members satisfy
|ball_velocity_x| = 300 and |ball_velocity_y| = 300, and the velocity of the ball object is
(0, 0) or exactly (ball_velocity_x, ball_velocity_y). Hence the squared speed held in the
members is always 300^2 + 300^2 = 180000, and that of the ball object is 0 or 180000: no
bounce, miss or serve changes the speed. -/
theorem Breakout.ball_speed_preserved (undef : Sprite → Sprite → Bool) (a : Assets)
    (events : List GameEvent) :
    (|(Breakout.run undef a events).ball_velocity_x| = 300 ∧
      |(Breakout.run undef a events).ball_velocity_y| = 300 ∧
      ((Breakout.run undef a events).ball.velocity = ⟨0, 0⟩ ∨
        (Breakout.run undef a events).ball.velocity =
          ⟨(Breakout.run undef a events).ball_velocity_x,
            (Breakout.run undef a events).ball_velocity_y⟩)) ∧
    ((Breakout.run undef a events).ball_velocity_x ^ 2 +
        (Breakout.run undef a events).ball_velocity_y ^ 2 = 180000 ∧
      ((Breakout.run undef a events).ball.velocity.x ^ 2 +
          (Breakout.run undef a events).ball.velocity.y ^ 2 = 0 ∨
        (Breakout.run undef a events).ball.velocity.x ^ 2 +
          (Breakout.run undef a events).ball.velocity.y ^ 2 = 180000)) := by
  have h := Breakout.run_speedOK undef a events
  have hsq : (Breakout.run undef a events).ball_velocity_x ^ 2 +
      (Breakout.run undef a events).ball_velocity_y ^ 2 = 180000 := by
    rw [← sq_abs (Breakout.run undef a events).ball_velocity_x,
      ← sq_abs (Breakout.run undef a events).ball_velocity_y, h.1, h.2.1]
    norm_num
  refine ⟨h, hsq, ?_⟩
  rcases h.2.2 with h0 | h1
  · left
    rw [h0]
    norm_num
  · right
    rw [h1]
    exact hsq


/-! ## Symmetry of the overlap test, exclusive flags, the frame a brick is hit -/

set_option maxRecDepth 100000 in
/-- C2 fails at the boxes of the specification's example, A = [0,0,10,10] and
B = [10,0,10,10]: neither `isOverlapping(A, B)` nor `isOverlapping(B, A)` returns a value
(the comparison `10 < 0 + 10`, respectively `0 + 10 > 10`, fails and control runs off the
end of the function), so the source does not make the two results equal: with the reading
`seenByOrder` of what a caller gets in that case, the caller reads `true` for (A, B) and
`false` for (B, A). -/
theorem Breakout.isOverlapping_symmetry_not_determined :
    (Breakout.isOverlapping ⟨0, 0, 10, 10⟩ ⟨10, 0, 10, 10⟩ = none ∧
      Breakout.isOverlapping ⟨10, 0, 10, 10⟩ ⟨0, 0, 10, 10⟩ = none) ∧
    (Breakout.overlapSeen seenByOrder ⟨0, 0, 10, 10⟩ ⟨10, 0, 10, 10⟩ = true ∧
      Breakout.overlapSeen seenByOrder ⟨10, 0, 10, 10⟩ ⟨0, 0, 10, 10⟩ = false ∧
      Breakout.overlapSeen seenByOrder ⟨0, 0, 10, 10⟩ ⟨10, 0, 10, 10⟩ ≠
        Breakout.overlapSeen seenByOrder ⟨10, 0, 10, 10⟩ ⟨0, 0, 10, 10⟩) := by
  decide!

set_option maxRecDepth 100000 in
/-- C20 fails, read on the state `update` is called in, at the state the game
`brickAboutToBreakRun` reaches: the game is on the playing screen, yellow brick 11, to
which gem 2 is tied, is visible, and gem 2 is at (720, 64). The update of 500 ms first
runs its collision pass, which hides the brick, and then its gem statements, which see
the brick hidden: gem 2 is at (720, 164) after the update, although its brick was
visible when the update was called. -/
theorem Breakout.gem_moves_in_the_frame_its_brick_is_hit :
    (brickAboutToBreakState.modes = (false, true, false, false, false) ∧
      (brickAboutToBreakState.yellow_bricks 11).visibility = true ∧
      (brickAboutToBreakState.tiedBrick 2).visibility = true ∧
      (brickAboutToBreakState.gems 2).sprite = ⟨720, 64, 32, 32⟩) ∧
    (((brickAboutToBreakState.update seenFalse 500).yellow_bricks 11).visibility = false ∧
      ((brickAboutToBreakState.update seenFalse 500).gems 2).sprite = ⟨720, 164, 32, 32⟩ ∧
      ((brickAboutToBreakState.update seenFalse 500).gems 2).sprite.yPos ≠
        (brickAboutToBreakState.gems 2).sprite.yPos) := by
  decide!

set_option maxRecDepth 100000 in
/-- C20 as amended, at the state the game `gemFallingRun` reaches: yellow brick 11 is
hidden and gem 2 is at (720, 164); an update of 1000 ms takes it to y = 364, with x
unchanged. -/
theorem Breakout.gem_falls_once_brick_hidden_witness :
    ((gemFallingState.tiedBrick 2).visibility = false ∧
      (gemFallingState.gems 2).sprite.xPos = 720 ∧
      (gemFallingState.gems 2).sprite.yPos = 164) ∧
    (((gemFallingState.update seenFalse 1000).gems 2).sprite.yPos = 364 ∧
      ((gemFallingState.update seenFalse 1000).gems 2).sprite.xPos = 720) := by
  apply and_of_left
  · decide!
  · intro h
    have t := Breakout.gem_falls_once_brick_hidden seenFalse gemFallingState 1000 2
    refine ⟨?_, ?_⟩
    · rw [t.2.1.2.1 h.1, h.2.2]
      norm_num
    · rw [t.2.2.1.1, h.2.1]

